import Mathlib

/-!
# OpenPurse — verification of the transcoding core

A shallow embedding of the OpenPurse financial-message library
(`openpurse/models.py`, `validator.py`, `translator.py`, `parser.py`,
`reconciler.py`, `builder.py`) together with proofs about the embedded
functions.

Python strings (and the UTF-8 byte buffers exchanged between the
translator and the parser, which are ASCII throughout the relevant
code paths) are modelled as `List Char`.  Each Python regular
expression used by the source is embedded as a dedicated scanning
function whose doc comment cites the pattern it implements; the
functions implement Python `re.search` semantics (leftmost starting
position, then greedy/lazy repetition exactly as in the pattern).

Effectful library calls that the source makes (`datetime.now`,
`uuid.uuid4`, and `float`/`str` round-trips through IEEE doubles) are
modelled as explicit parameters of the embedded functions, so every
theorem quantifies over their behaviour.
-/

namespace OpenPurse

/-- Python `str` values (sequences of code points). -/
abbrev Str := List Char

/-- ASCII uppercase letter, the `[A-Z]` character class. -/
def isUpperAZ (c : Char) : Bool := 'A' ≤ c && c ≤ 'Z'

/-- ASCII lowercase letter, the `[a-z]` character class. -/
def isLowerAZ (c : Char) : Bool := 'a' ≤ c && c ≤ 'z'

/-- ASCII digit, the `[0-9]` character class. -/
def isDigit09 (c : Char) : Bool := '0' ≤ c && c ≤ '9'

/-- The `[A-Z0-9]` character class used by the BIC/IBAN patterns. -/
def isUpperDigit (c : Char) : Bool := isUpperAZ c || isDigit09 c

/-- ASCII model of Python `str.isalpha` (all inputs in this code base are ASCII). -/
def pyIsAlpha (s : Str) : Bool := s ≠ [] && s.all (fun c => isUpperAZ c || isLowerAZ c)

/-- ASCII model of Python's per-character `char.isalpha()`. -/
def pyIsAlphaChar (c : Char) : Bool := isUpperAZ c || isLowerAZ c

/-- ASCII model of Python `str.upper`. -/
def pyUpper (s : Str) : Str :=
  s.map (fun c => if isLowerAZ c then Char.ofNat (c.toNat - 32) else c)

/-- Python whitespace stripped by `str.strip()` (space, tab, newline, CR, FF, VT). -/
def isPySpace (c : Char) : Bool :=
  c = ' ' || c = '\t' || c = '\n' || c = '\r' || c = '\x0b' || c = '\x0c'

/-- Model of Python `str.strip()` (and of `bytes.strip()` on ASCII data). -/
def pyStrip (s : Str) : Str :=
  ((s.dropWhile isPySpace).reverse.dropWhile isPySpace).reverse

/-- Model of Python `str.replace(pat, rep)` for a non-empty pattern:
leftmost, non-overlapping occurrences.  Structured with a fuel
parameter (`s.length` always suffices, since every step consumes at
least one character) so that the definition reduces in the kernel. -/
def pyReplaceF (pat rep : Str) : Nat → Str → Str
  | _, [] => []
  | 0, s => s
  | fuel + 1, c :: rest =>
    if pat ≠ [] && pat.isPrefixOf (c :: rest) then
      rep ++ pyReplaceF pat rep fuel ((c :: rest).drop pat.length)
    else
      c :: pyReplaceF pat rep fuel rest

/-- Python `s.replace(pat, rep)`. -/
def pyReplace (pat rep : Str) (s : Str) : Str := pyReplaceF pat rep s.length s

theorem pyReplaceF_fuel_irrel (pat rep : Str) :
    ∀ fuel s, s.length ≤ fuel → pyReplaceF pat rep fuel s = pyReplace pat rep s := by
  have main : ∀ fuel1 fuel2 s, s.length ≤ fuel1 → s.length ≤ fuel2 →
      pyReplaceF pat rep fuel1 s = pyReplaceF pat rep fuel2 s := by
    intro fuel1
    induction fuel1 with
    | zero =>
      intro fuel2 s h1 _
      have : s = [] := List.eq_nil_of_length_eq_zero (by omega)
      subst this
      cases fuel2 <;> rfl
    | succ f1 ih =>
      intro fuel2 s h1 h2
      cases s with
      | nil => cases fuel2 <;> rfl
      | cons c rest =>
        cases fuel2 with
        | zero => simp at h2
        | succ f2 =>
          simp only [pyReplaceF]
          split
          · have hp : 0 < pat.length := by
              rename_i hcond
              simp only [Bool.and_eq_true, ne_eq, decide_eq_true_eq] at hcond
              exact List.length_pos.mpr hcond.1
            have hlen : ((c :: rest).drop pat.length).length ≤ f1 := by
              simp only [List.length_drop, List.length_cons] at *
              omega
            have hlen2 : ((c :: rest).drop pat.length).length ≤ f2 := by
              simp only [List.length_drop, List.length_cons] at *
              omega
            rw [ih _ _ hlen hlen2]
          · have hlen : rest.length ≤ f1 := by
              simp only [List.length_cons] at h1
              omega
            have hlen2 : rest.length ≤ f2 := by
              simp only [List.length_cons] at h2
              omega
            rw [ih _ _ hlen hlen2]
  intro fuel s h
  exact main fuel s.length s h (Nat.le_refl _)

theorem pyReplace_nil (pat rep : Str) : pyReplace pat rep [] = [] := rfl

theorem pyReplace_cons (pat rep : Str) (c : Char) (rest : Str) :
    pyReplace pat rep (c :: rest) =
      if pat ≠ [] && pat.isPrefixOf (c :: rest) then
        rep ++ pyReplace pat rep ((c :: rest).drop pat.length)
      else
        c :: pyReplace pat rep rest := by
  show pyReplaceF pat rep (rest.length + 1) (c :: rest) = _
  simp only [pyReplaceF]
  split
  · rename_i hcond
    simp only [Bool.and_eq_true, ne_eq, decide_eq_true_eq] at hcond
    have hp : 0 < pat.length := List.length_pos.mpr hcond.1
    rw [pyReplaceF_fuel_irrel]
    simp only [List.length_drop, List.length_cons]
    omega
  · rw [pyReplaceF_fuel_irrel]
    exact Nat.le_refl _

/-- Model of Python `str.ljust(n, fill)`. -/
def pyLjust (s : Str) (n : Nat) (fill : Char) : Str :=
  s ++ List.replicate (n - s.length) fill

/-- `sub in s` for Python strings (substring containment). -/
def containsSub (pat : Str) : Str → Bool
  | [] => pat.isPrefixOf []
  | c :: rest => pat.isPrefixOf (c :: rest) || containsSub pat rest

/-- Model of Python `int(s)` restricted to non-negative decimal numerals
(the only shape reaching it in the embedded code); `none` models the
`ValueError` raised on any other input. -/
def pyIntNat (s : Str) : Option Nat :=
  if s ≠ [] && s.all isDigit09 then
    some (s.foldl (fun acc c => acc * 10 + (c.toNat - '0'.toNat)) 0)
  else
    none

/-- Decimal digits of `n`, most significant first (model of Python `str(n)`
for a non-negative integer). -/
def natToStr (n : Nat) : Str := Nat.toDigits 10 n

end OpenPurse

namespace OpenPurse

/-! ## Data model (`openpurse/models.py`)

Python subclassing of `PaymentMessage` is modelled by a single record
type carrying a `kind` tag (one per dataclass) plus the union of all
declared fields; a field undeclared on a given class is always `none`
on records of that kind, so dataclass equality coincides with
structural equality of the record.  Loosely-typed `dict` entries
(statement entries, transactions, …) are modelled as association
lists whose values are string-or-null or an optional postal address,
exactly the shapes the source constructs. -/

/-- `models.PostalAddress`. -/
structure PostalAddress where
  country : Option Str := none
  town_name : Option Str := none
  post_code : Option Str := none
  street_name : Option Str := none
  building_number : Option Str := none
  address_lines : Option (List Str) := none
deriving DecidableEq

/-- A value stored in one of the loosely-typed `dict`s built by the
parser: a string-or-`None`, or an optional `PostalAddress` (the
`debtor_address` / `creditor_address` keys of detailed transaction
dicts). -/
inductive DVal where
  | s (v : Option Str)
  | addr (a : Option PostalAddress)
deriving DecidableEq

/-- A loosely-typed `dict` (key → string-or-null / address). -/
abbrev Dict := List (Str × DVal)

/-- A `pain.001`/`pain.008` payment-information block: its scalar keys
plus the nested `"transactions"` list (nested lists are held in a
separate component; no embedded operation ever reads the nested list
through the dict interface). -/
structure PmDict where
  fields : Dict := []
  txs : List Dict := []
deriving DecidableEq

/-- Python `dict.get(k)` (`none` = key absent). -/
def dictGet (d : Dict) (k : Str) : Option DVal :=
  (d.find? (fun p => p.1 == k)).map (·.2)

/-- One dataclass per tag: `PaymentMessage` and its specialized
variants.  `pacs004`, `pacs009`, `setr004`, `setr010`, `acmt007`,
`acmt015` and `camt086` are imported and constructed by
`parser.py` but their class declarations are not under `src/`. -/
inductive MsgKind where
  | base | pacs008 | camt054 | camt004 | camt052 | camt053
  | pain001 | pain008 | pain002 | camt056 | camt029
  | fxtr014 | sese023 | pacs004 | pacs009 | setr004 | setr010
  | acmt007 | acmt015 | camt086
deriving DecidableEq

/-- The unified typed record: base `PaymentMessage` fields plus every
family-specific field set by a constructor in the source (fields of
the seven classes missing from `src/openpurse/models.py` are
`Modelled from the spec:` base record plus the family-specific fields
that `parser.py` passes to their constructors). -/
structure Message where
  kind : MsgKind := .base
  message_id : Option Str := none
  end_to_end_id : Option Str := none
  amount : Option Str := none
  currency : Option Str := none
  sender_bic : Option Str := none
  receiver_bic : Option Str := none
  debtor_name : Option Str := none
  creditor_name : Option Str := none
  debtor_address : Option PostalAddress := none
  creditor_address : Option PostalAddress := none
  debtor_account : Option Str := none
  creditor_account : Option Str := none
  uetr : Option Str := none
  initiating_party : Option Str := none
  payment_information : Option (List PmDict) := none
  number_of_transactions : Option Int := none
  entries : Option (List Dict) := none
  account_id : Option Str := none
  creation_date_time : Option Str := none
  notification_id : Option Str := none
  account_currency : Option Str := none
  account_owner : Option Str := none
  account_servicer : Option Str := none
  total_credit_entries : Option Int := none
  total_credit_amount : Option Str := none
  total_debit_entries : Option Int := none
  total_debit_amount : Option Str := none
  settlement_method : Option Str := none
  clearing_system : Option Str := none
  settlement_amount : Option Str := none
  settlement_currency : Option Str := none
  transactions : Option (List Dict) := none
  original_business_query : Option Str := none
  account_status : Option Str := none
  balances : Option (List Dict) := none
  limits : Option (List Dict) := none
  number_of_payments : Option Str := none
  business_errors : Option (List Dict) := none
  report_id : Option Str := none
  statement_id : Option Str := none
  control_sum : Option Str := none
  original_message_id : Option Str := none
  original_message_name_id : Option Str := none
  group_status : Option Str := none
  transactions_status : Option (List Dict) := none
  assignment_id : Option Str := none
  case_id : Option Str := none
  recall_reason : Option Str := none
  underlying_transactions : Option (List Dict) := none
  investigation_status : Option Str := none
  cancellation_details : Option (List Dict) := none
  trade_date : Option Str := none
  settlement_date : Option Str := none
  exchange_rate : Option Str := none
  trading_party : Option Str := none
  counterparty : Option Str := none
  traded_currency : Option Str := none
  traded_amount : Option Str := none
  security_id : Option Str := none
  security_id_type : Option Str := none
  security_quantity : Option Str := none
  security_quantity_type : Option Str := none
  delivering_agent : Option Str := none
  receiving_agent : Option Str := none
  master_reference : Option Str := none
  pool_reference : Option Str := none
  orders : Option (List Dict) := none
  process_id : Option Str := none
  organization_name : Option Str := none
  branch_name : Option Str := none
  group_id : Option Str := none
  statement_status : Option Str := none
deriving DecidableEq

/-- `hasattr(message, "entries")`: classes declaring an `entries` field. -/
def hasEntriesAttr : MsgKind → Bool
  | .camt052 | .camt053 | .camt054 => true
  | _ => false

/-- `hasattr(message, "transactions")`: classes declaring a
`transactions` field (`Pacs004Message`/`Pacs009Message` per the
parser's constructor calls). -/
def hasTransactionsAttr : MsgKind → Bool
  | .pacs008 | .pacs004 | .pacs009 => true
  | _ => false

/-- `hasattr(message, "payment_information")`. -/
def hasPaymentInformationAttr : MsgKind → Bool
  | .pain001 | .pain008 => true
  | _ => false

/-- `models.ValidationReport`. -/
structure ValidationReport where
  is_valid : Bool
  errors : List Str
deriving DecidableEq

/-- Python `a or b` for an optional string `a` (both `None` and the
empty string are falsy). -/
def pyOr (a : Option Str) (b : Str) : Str :=
  match a with
  | some v => if v = [] then b else v
  | none => b

end OpenPurse

namespace OpenPurse
namespace Validator

/-! ## Business validator (`openpurse/validator.py`) -/

/-- `Validator._bic_pattern`: `\A[A-Z]{4}[A-Z]{2}[A-Z0-9]{2}([A-Z0-9]{3})?\Z`
(four letters, two-letter country code, two alphanumerics, optional
three alphanumerics). -/
def bicPatternMatch (s : Str) : Bool :=
  (s.take 6).all isUpperAZ && (s.drop 6).all isUpperDigit &&
    (s.length == 8 || s.length == 11)

/-- `Validator._validate_bic`. -/
def validate_bic (bic : Option Str) : Option Str :=
  match bic with
  | none => none
  | some b =>
    if b = [] then none
    else if bicPatternMatch b then none
    else some ("Invalid BIC format: '".toList ++ b ++
      "'. Must securely match ISO 9362 standard 8 or 11 characters.".toList)

/-- Hex digit under `re.I` (`[0-9a-f]` case-insensitive). -/
def isHexCI (c : Char) : Bool :=
  isDigit09 c || ('a' ≤ c && c ≤ 'f') || ('A' ≤ c && c ≤ 'F')

/-- `Validator._uuid4_pattern`:
`\A[0-9a-f]{8}-[0-9a-f]{4}-4[0-9a-f]{3}-[89ab][0-9a-f]{3}-[0-9a-f]{12}\Z`
compiled with `re.I`. -/
def uuid4Match (s : Str) : Bool :=
  s.length == 36 && (s.take 8).all isHexCI && s.getD 8 '_' == '-' &&
    ((s.drop 9).take 4).all isHexCI && s.getD 13 '_' == '-' &&
    s.getD 14 '_' == '4' && ((s.drop 15).take 3).all isHexCI &&
    s.getD 18 '_' == '-' &&
    (let c := s.getD 19 '_'
     c == '8' || c == '9' || c == 'a' || c == 'b' || c == 'A' || c == 'B') &&
    ((s.drop 20).take 3).all isHexCI && s.getD 23 '_' == '-' &&
    ((s.drop 24).take 12).all isHexCI

/-- `Validator._validate_uetr`. -/
def validate_uetr (uetr : Option Str) : Option Str :=
  match uetr with
  | none => none
  | some u =>
    if u = [] then none
    else if uuid4Match u then none
    else some ("Invalid UETR format: '".toList ++ u ++
      "'. Must be a valid UUIDv4 string.".toList)

/-- `Validator._is_likely_iban`: clean with
`_iban_clean_pattern = [^A-Z0-9]` after upper-casing, then
`re.match(r"\A[A-Z]{2}[0-9]{2}", clean)`. -/
def is_likely_iban (iban : Str) : Bool :=
  if iban = [] then false
  else
    match (pyUpper iban).filter isUpperDigit with
    | a :: b :: c :: d :: _ =>
      isUpperAZ a && isUpperAZ b && isDigit09 c && isDigit09 d
    | _ => false

/-- `Validator._iban_format_pattern`: `\A[A-Z]{2}[0-9]{2}[A-Z0-9]{11,30}\Z`. -/
def ibanFormatMatch (s : Str) : Bool :=
  (s.take 2).all isUpperAZ && ((s.drop 2).take 2).all isDigit09 &&
    (s.drop 4).all isUpperDigit &&
    decide (15 ≤ s.length) && decide (s.length ≤ 34)

/-- `Validator._validate_iban_checksum`: sanitize (strip, upper, remove
`[ \-\.]`), check the ISO 13616 shape, move the first four characters
to the end, replace each letter by `ord(letter) - 55`, and require the
resulting numeral to be `1 mod 97`. -/
def validate_iban_checksum (iban : Str) : Option Str :=
  if iban = [] then none
  else if 100 < iban.length then
    some ("Invalid IBAN structure: excessively long string rejected.".toList)
  else
    let formatted :=
      (pyUpper (pyStrip iban)).filter (fun c => !(c == ' ' || c == '-' || c == '.'))
    if !ibanFormatMatch formatted ||
        containsSub ['\n'] formatted || containsSub ['\r'] formatted then
      some ("Invalid IBAN format: '".toList ++ pyStrip iban ++
        "' does not meet ISO 13616 standards or contains illegal characters.".toList)
    else
      let rearranged := formatted.drop 4 ++ formatted.take 4
      let numeric :=
        (rearranged.map (fun c =>
          if pyIsAlphaChar c then natToStr (c.toNat - 55) else [c])).flatten
      match pyIntNat numeric with
      | some n =>
        if n % 97 ≠ 1 then
          some ("Invalid IBAN checksum: '".toList ++ formatted ++
            "'. Failed international Modulo-97 algorithm.".toList)
        else none
      | none =>
        some ("Invalid IBAN structure: '".toList ++ formatted ++
          "'. Could not evaluate checksum.".toList)

/-- Prefix an optional error with a field label, as the `validate`
error-accumulation does. -/
def labeled (pre : Str) : Option Str → List Str
  | some e => [pre ++ e]
  | none => []

/-- The IBAN check `validate` runs on a scalar account field
(`if acct and Validator._is_likely_iban(acct): …`). -/
def accountIbanErrors (pre : Str) (acct : Option Str) : List Str :=
  match acct with
  | some a =>
    if a ≠ [] && is_likely_iban a then labeled pre (validate_iban_checksum a)
    else []
  | none => []

/-- The IBAN check `validate` runs on one account key of a nested
transaction dict (`if "…_account" in tx: … if value and is-likely-iban: …`;
an `.addr` value is never produced under these keys by the source, so
the truthiness test treats only `.s` values as usable strings). -/
def txAccountIbanErrors (pre : Str) (v : Option DVal) : List Str :=
  match v with
  | some (.s (some a)) =>
    if a ≠ [] && is_likely_iban a then labeled pre (validate_iban_checksum a)
    else []
  | _ => []

/-- The IBAN checks `validate` runs on one nested transaction dict. -/
def txIbanErrors (i : Nat) (tx : Dict) : List Str :=
  txAccountIbanErrors
    ("[Transaction ".toList ++ natToStr i ++ " Debtor Account] ".toList)
    (dictGet tx ("debtor_account".toList)) ++
  txAccountIbanErrors
    ("[Transaction ".toList ++ natToStr i ++ " Creditor Account] ".toList)
    (dictGet tx ("creditor_account".toList))

/-- The error list accumulated by `Validator.validate`, in source order. -/
def validateErrors (message : Message) : List Str :=
  labeled ("[Sender] ".toList) (validate_bic message.sender_bic) ++
    labeled ("[Receiver] ".toList) (validate_bic message.receiver_bic) ++
    labeled ("[UETR] ".toList) (validate_uetr message.uetr) ++
    (match message.end_to_end_id with
     | some v => if pyStrip v = [] then
         ["end_to_end_id is present but is an empty string.".toList] else []
     | none => []) ++
    (match message.amount with
     | some v => if pyStrip v = [] then
         ["amount is present but is an empty string.".toList] else []
     | none => []) ++
    (match message.currency with
     | some v =>
       let c := pyStrip v
       if c = [] then ["currency is present but is an empty string.".toList]
       else if !(c.length == 3 && pyIsAlpha c) then
         ["currency must be exactly 3 alphabetical characters, found: '".toList ++
           c ++ "'".toList]
       else []
     | none => []) ++
    accountIbanErrors ("[Debtor Account] ".toList) message.debtor_account ++
    accountIbanErrors ("[Creditor Account] ".toList) message.creditor_account ++
    (if hasTransactionsAttr message.kind then
       match message.transactions with
       | some txs => (txs.enum.map (fun p => txIbanErrors p.1 p.2)).flatten
       | none => []
     else [])

/-- `Validator.validate`: the full business-rule suite; the report is
valid exactly when the accumulated error list is empty. -/
def validate (message : Message) : ValidationReport :=
  { is_valid := (validateErrors message).length == 0
    errors := validateErrors message }

end Validator
end OpenPurse

namespace OpenPurse

/-! ## Shared helper lemmas -/

theorem char_eq_of_toNat {c d : Char} (h : c.toNat = d.toNat) : c = d :=
  Char.ext (UInt32.ext h)

theorem isDigit09_cases {c : Char} (h : isDigit09 c = true) :
    c = '0' ∨ c = '1' ∨ c = '2' ∨ c = '3' ∨ c = '4' ∨ c = '5' ∨
    c = '6' ∨ c = '7' ∨ c = '8' ∨ c = '9' := by
  simp only [isDigit09, Bool.and_eq_true, decide_eq_true_eq] at h
  obtain ⟨h1, h2⟩ := h
  have n1 : (48 : Nat) ≤ c.toNat := h1
  have n2 : c.toNat ≤ 57 := h2
  have hd : c.toNat = 48 ∨ c.toNat = 49 ∨ c.toNat = 50 ∨ c.toNat = 51 ∨
      c.toNat = 52 ∨ c.toNat = 53 ∨ c.toNat = 54 ∨ c.toNat = 55 ∨
      c.toNat = 56 ∨ c.toNat = 57 := by omega
  have lift : ∀ d : Char, c.toNat = d.toNat → c = d := fun _ h => char_eq_of_toNat h
  rcases hd with h | h | h | h | h | h | h | h | h | h
  · simp [lift '0' (h.trans (by decide))]
  · simp [lift '1' (h.trans (by decide))]
  · simp [lift '2' (h.trans (by decide))]
  · simp [lift '3' (h.trans (by decide))]
  · simp [lift '4' (h.trans (by decide))]
  · simp [lift '5' (h.trans (by decide))]
  · simp [lift '6' (h.trans (by decide))]
  · simp [lift '7' (h.trans (by decide))]
  · simp [lift '8' (h.trans (by decide))]
  · simp [lift '9' (h.trans (by decide))]

theorem toNat_le_of_digit {c : Char} (h : isDigit09 c = true) :
    48 ≤ c.toNat ∧ c.toNat ≤ 57 := by
  simp only [isDigit09, Bool.and_eq_true, decide_eq_true_eq] at h
  exact ⟨h.1, h.2⟩

theorem isUpperAZ_false_of_digit {c : Char} (h : isDigit09 c = true) :
    isUpperAZ c = false := by
  obtain ⟨n1, n2⟩ := toNat_le_of_digit h
  simp only [isUpperAZ, Bool.and_eq_false_iff, decide_eq_false_iff_not]
  left
  intro hc
  have : (65 : Nat) ≤ c.toNat := hc
  omega

theorem isLowerAZ_false_of_digit {c : Char} (h : isDigit09 c = true) :
    isLowerAZ c = false := by
  obtain ⟨n1, n2⟩ := toNat_le_of_digit h
  simp only [isLowerAZ, Bool.and_eq_false_iff, decide_eq_false_iff_not]
  left
  intro hc
  have : (97 : Nat) ≤ c.toNat := hc
  omega

theorem isUpperDigit_true_of_digit {c : Char} (h : isDigit09 c = true) :
    isUpperDigit c = true := by
  simp [isUpperDigit, h]

theorem pyUpper_of_digits {s : Str} (h : s.all isDigit09 = true) :
    pyUpper s = s := by
  induction s with
  | nil => rfl
  | cons a t ih =>
    simp only [List.all_cons, Bool.and_eq_true] at h
    have ht := ih h.2
    simp only [pyUpper, List.map_cons] at ht ⊢
    simp [isLowerAZ_false_of_digit h.1, ht]

theorem filter_upperDigit_of_digits {s : Str} (h : s.all isDigit09 = true) :
    s.filter isUpperDigit = s := by
  induction s with
  | nil => rfl
  | cons a t ih =>
    simp only [List.all_cons, Bool.and_eq_true] at h
    simp [List.filter, isUpperDigit_true_of_digit h.1, ih h.2]

theorem prefix_getD {p : Str} :
    ∀ {t : Str}, p.isPrefixOf t = true → ∀ i, i < p.length → ∀ d : Char,
      p.getD i d = t.getD i d := by
  induction p with
  | nil => intro t _ i hi; simp at hi
  | cons a p' ih =>
    intro t h i hi d
    cases t with
    | nil => simp [List.isPrefixOf] at h
    | cons b t' =>
      simp only [List.isPrefixOf, Bool.and_eq_true, beq_iff_eq] at h
      cases i with
      | zero => simpa [List.getD] using h.1
      | succ j =>
        simp only [List.length_cons, Nat.succ_lt_succ_iff] at hi
        simpa [List.getD] using ih h.2 j hi d

end OpenPurse

namespace OpenPurse

theorem prefix_false_of_getD_ne {p t : Str} (i : Nat) (hi : i < p.length)
    (d : Char) (hne : p.getD i d ≠ t.getD i d) : p.isPrefixOf t = false := by
  cases hb : p.isPrefixOf t
  · rfl
  · exact absurd (prefix_getD hb i hi d) hne

theorem not_prefix_append {pre lab : Str} (x : Str) (i : Nat)
    (hi : i < pre.length) (hlab : i < lab.length)
    (hne : pre.getD i ' ' ≠ lab.getD i ' ') :
    pre.isPrefixOf (lab ++ x) = false := by
  apply prefix_false_of_getD_ne i hi ' '
  rw [List.getD_append _ _ _ _ hlab]
  exact hne

theorem mem_labeled {pre : Str} {o : Option Str} {e : Str} :
    e ∈ Validator.labeled pre o ↔ ∃ e0, o = some e0 ∧ e = pre ++ e0 := by
  cases o <;> simp [Validator.labeled, eq_comm]

theorem mem_txAccountIbanErrors {pre : Str} {v : Option DVal} {e : Str}
    (h : e ∈ Validator.txAccountIbanErrors pre v) :
    ∃ e0, e = pre ++ e0 := by
  unfold Validator.txAccountIbanErrors at h
  split at h
  · split at h
    · rcases mem_labeled.mp h with ⟨e0, _, he⟩
      exact ⟨e0, he⟩
    · simp at h
  · simp at h

theorem txIbanErrors_shape {i : Nat} {tx : Dict} {e : Str}
    (h : e ∈ Validator.txIbanErrors i tx) :
    ∃ tail, e = "[Transaction ".toList ++ tail := by
  unfold Validator.txIbanErrors at h
  rcases List.mem_append.mp h with h | h <;>
    rcases mem_txAccountIbanErrors h with ⟨e0, he⟩ <;>
    exact ⟨_, by rw [he, List.append_assoc, List.append_assoc]⟩

theorem is_likely_iban_nine {s : Str} (hl : s.length = 9)
    (hd : s.all isDigit09 = true) : Validator.is_likely_iban s = false := by
  have h2 : (pyUpper s).filter isUpperDigit = s := by
    rw [pyUpper_of_digits hd]
    exact filter_upperDigit_of_digits hd
  unfold Validator.is_likely_iban
  rw [if_neg (by intro h; rw [h] at hl; simp at hl)]
  rw [h2]
  rcases s with _ | ⟨a, _ | ⟨b, _ | ⟨c2, _ | ⟨d4, t⟩⟩⟩⟩
  · simp at hl
  · simp at hl
  · simp at hl
  · simp at hl
  · simp only [List.all_cons, Bool.and_eq_true] at hd
    simp [isUpperAZ_false_of_digit hd.1]

end OpenPurse

namespace OpenPurse

theorem no_label_prefix {pre lab : Str} {o : Option Str} {e : Str}
    (h : e ∈ Validator.labeled lab o) (i : Nat)
    (hi : i < pre.length) (hlab : i < lab.length)
    (hne : pre.getD i ' ' ≠ lab.getD i ' ') :
    pre.isPrefixOf e = false := by
  rcases mem_labeled.mp h with ⟨e0, _, he⟩
  rw [he]
  exact not_prefix_append e0 i hi hlab hne

theorem mem_accountIbanErrors {pre : Str} {acct : Option Str} {e : Str}
    (h : e ∈ Validator.accountIbanErrors pre acct) :
    ∃ e0, e = pre ++ e0 := by
  unfold Validator.accountIbanErrors at h
  split at h
  · split at h
    · rcases mem_labeled.mp h with ⟨e0, _, he⟩
      exact ⟨e0, he⟩
    · simp at h
  · simp at h

/-- Classification of every element of the `validate` error list by the
segment that produced it. -/
theorem validate_mem_shapes {r : Message} {e : Str}
    (he : e ∈ Validator.validateErrors r) :
    (∃ e0, Validator.validate_bic r.sender_bic = some e0 ∧
      e = "[Sender] ".toList ++ e0) ∨
    (∃ e0, Validator.validate_bic r.receiver_bic = some e0 ∧
      e = "[Receiver] ".toList ++ e0) ∨
    (∃ e0, Validator.validate_uetr r.uetr = some e0 ∧
      e = "[UETR] ".toList ++ e0) ∨
    e = "end_to_end_id is present but is an empty string.".toList ∨
    e = "amount is present but is an empty string.".toList ∨
    e = "currency is present but is an empty string.".toList ∨
    (∃ c, e = "currency must be exactly 3 alphabetical characters, found: '".toList ++
      (c ++ "'".toList)) ∨
    (e ∈ Validator.accountIbanErrors ("[Debtor Account] ".toList) r.debtor_account ∧
      ∃ e0, e = "[Debtor Account] ".toList ++ e0) ∨
    (e ∈ Validator.accountIbanErrors ("[Creditor Account] ".toList) r.creditor_account ∧
      ∃ e0, e = "[Creditor Account] ".toList ++ e0) ∨
    (∃ tail, e = "[Transaction ".toList ++ tail) := by
  unfold Validator.validateErrors at he
  simp only [List.append_assoc] at he
  rcases List.mem_append.mp he with h | he
  · rcases mem_labeled.mp h with ⟨e0, ho, hee⟩
    exact Or.inl ⟨e0, ho, hee⟩
  rcases List.mem_append.mp he with h | he
  · rcases mem_labeled.mp h with ⟨e0, ho, hee⟩
    exact Or.inr (Or.inl ⟨e0, ho, hee⟩)
  rcases List.mem_append.mp he with h | he
  · rcases mem_labeled.mp h with ⟨e0, ho, hee⟩
    exact Or.inr (Or.inr (Or.inl ⟨e0, ho, hee⟩))
  rcases List.mem_append.mp he with h | he
  · split at h
    · split at h
      · simp_all only [List.mem_singleton]
        subst_vars
        simp
      · simp_all only [List.not_mem_nil]
    · exact absurd h (List.not_mem_nil e)
  rcases List.mem_append.mp he with h | he
  · split at h
    · split at h
      · simp_all only [List.mem_singleton]
        subst_vars
        simp
      · simp_all only [List.not_mem_nil]
    · exact absurd h (List.not_mem_nil e)
  rcases List.mem_append.mp he with h | he
  · split at h
    · split at h
      · simp_all only [List.mem_singleton]
        subst_vars
        simp
      · split at h
        · simp_all only [List.mem_singleton]
          subst_vars
          refine Or.inr (Or.inr (Or.inr (Or.inr (Or.inr (Or.inr (Or.inl ?_))))))
          exact ⟨_, rfl⟩
        · simp_all only [List.not_mem_nil]
    · exact absurd h (List.not_mem_nil e)
  rcases List.mem_append.mp he with h | he
  · rcases mem_accountIbanErrors h with ⟨e0, he0⟩
    exact Or.inr (Or.inr (Or.inr (Or.inr (Or.inr (Or.inr (Or.inr (Or.inl ⟨h, e0, he0⟩)))))))
  rcases List.mem_append.mp he with h | he
  · rcases mem_accountIbanErrors h with ⟨e0, he0⟩
    exact Or.inr (Or.inr (Or.inr (Or.inr (Or.inr (Or.inr (Or.inr (Or.inr (Or.inl ⟨h, e0, he0⟩))))))))
  · split at he
    · split at he
      · simp only [List.mem_flatten, List.mem_map] at he
        rcases he with ⟨l, ⟨p, _, hpl⟩, hel⟩
        rw [← hpl] at hel
        rcases txIbanErrors_shape hel with ⟨tail, htail⟩
        exact Or.inr (Or.inr (Or.inr (Or.inr (Or.inr (Or.inr (Or.inr (Or.inr (Or.inr ⟨tail, htail⟩))))))))
      · exact absurd he (List.not_mem_nil e)
    · exact absurd he (List.not_mem_nil e)

end OpenPurse

namespace OpenPurse

/-- The canonical valid IBAN example from the spec. -/
def gbIban : Str := "GB29NWBK60161331926819".toList

/-- A record with a 9-digit numeric debtor account and an
invalid-checksum IBAN in the creditor account. -/
def recMixedAccounts : Message :=
  { debtor_account := some ("123456789".toList)
    creditor_account := some ("GB29NWBK60161331926818".toList) }

/-- C3 (counterexample): the claim asserts that a record whose debtor or
creditor account is a 9-digit numeric string produces no IBAN-related
error at all; `recMixedAccounts` has a 9-digit numeric debtor account,
yet `validate` reports an IBAN-checksum error (for the creditor
account). -/
theorem C3_counterexample :
    (("123456789".toList).length = 9 ∧ ("123456789".toList).all isDigit09 = true) ∧
    ((Validator.validate recMixedAccounts).errors.any
      (fun e => containsSub ("Invalid IBAN checksum".toList) e)) = true := by
  constructor
  · constructor <;> decide
  · decide

/-- C3 (amended): the IBAN checksum check accepts
`GB29NWBK60161331926819` (and `validate` reports no error for a record
carrying it); every single-digit mutation of its two check digits
fails with an error containing `Invalid IBAN checksum`; and an account
field holding a 9-digit numeric string contributes no IBAN error for
that field (the heuristic skips non-IBAN-shaped accounts), though
other fields of the same record may still produce IBAN errors. -/
theorem C3_iban_validation :
    (Validator.validate_iban_checksum gbIban = none) ∧
    ((Validator.validate { debtor_account := some gbIban }).errors = []) ∧
    (∀ c : Char, isDigit09 c = true →
      (c ≠ '2' →
        ((Validator.validate_iban_checksum (gbIban.set 2 c)).any
          (fun e => containsSub ("Invalid IBAN checksum".toList) e)) = true) ∧
      (c ≠ '9' →
        ((Validator.validate_iban_checksum (gbIban.set 3 c)).any
          (fun e => containsSub ("Invalid IBAN checksum".toList) e)) = true)) ∧
    (∀ (r : Message) (s : Str), r.debtor_account = some s →
      s.length = 9 → s.all isDigit09 = true →
      ∀ e ∈ (Validator.validate r).errors,
        (("[Debtor Account] ".toList).isPrefixOf e) = false) ∧
    (∀ (r : Message) (s : Str), r.creditor_account = some s →
      s.length = 9 → s.all isDigit09 = true →
      ∀ e ∈ (Validator.validate r).errors,
        (("[Creditor Account] ".toList).isPrefixOf e) = false) := by
  refine ⟨by decide, by decide, ?_, ?_, ?_⟩
  · intro c hc
    rcases isDigit09_cases hc with h | h | h | h | h | h | h | h | h | h <;>
      subst h <;>
      exact ⟨fun hne => by first | exact absurd rfl hne | decide,
             fun hne => by first | exact absurd rfl hne | decide⟩
  · intro r s hacc hl hd e he
    have he' : e ∈ Validator.validateErrors r := he
    rcases validate_mem_shapes he' with
      ⟨e0, _, hee⟩ | ⟨e0, _, hee⟩ | ⟨e0, _, hee⟩ | hee | hee | hee |
      ⟨c, hee⟩ | ⟨hmem, e0, hee⟩ | ⟨hmem, e0, hee⟩ | ⟨tail, hee⟩
    · rw [hee]; exact not_prefix_append e0 1 (by decide) (by decide) (by decide)
    · rw [hee]; exact not_prefix_append e0 1 (by decide) (by decide) (by decide)
    · rw [hee]; exact not_prefix_append e0 1 (by decide) (by decide) (by decide)
    · rw [hee]; decide
    · rw [hee]; decide
    · rw [hee]; decide
    · rw [hee]; exact not_prefix_append _ 0 (by decide) (by decide) (by decide)
    · rw [hacc] at hmem
      simp only [Validator.accountIbanErrors] at hmem
      rw [is_likely_iban_nine hl hd] at hmem
      simp at hmem
    · rw [hee]; exact not_prefix_append e0 1 (by decide) (by decide) (by decide)
    · rw [hee]; exact not_prefix_append tail 1 (by decide) (by decide) (by decide)
  · intro r s hacc hl hd e he
    have he' : e ∈ Validator.validateErrors r := he
    rcases validate_mem_shapes he' with
      ⟨e0, _, hee⟩ | ⟨e0, _, hee⟩ | ⟨e0, _, hee⟩ | hee | hee | hee |
      ⟨c, hee⟩ | ⟨hmem, e0, hee⟩ | ⟨hmem, e0, hee⟩ | ⟨tail, hee⟩
    · rw [hee]; exact not_prefix_append e0 1 (by decide) (by decide) (by decide)
    · rw [hee]; exact not_prefix_append e0 1 (by decide) (by decide) (by decide)
    · rw [hee]; exact not_prefix_append e0 1 (by decide) (by decide) (by decide)
    · rw [hee]; decide
    · rw [hee]; decide
    · rw [hee]; decide
    · rw [hee]; exact not_prefix_append _ 0 (by decide) (by decide) (by decide)
    · rw [hee]; exact not_prefix_append e0 1 (by decide) (by decide) (by decide)
    · rw [hacc] at hmem
      simp only [Validator.accountIbanErrors] at hmem
      rw [is_likely_iban_nine hl hd] at hmem
      simp at hmem
    · rw [hee]; exact not_prefix_append tail 1 (by decide) (by decide) (by decide)

/-- A record with a 9-digit numeric debtor account only. -/
def recNineDigit : Message := { debtor_account := some ("123456789".toList) }

/-- C3 (witness): the amended theorem applied at concrete inputs. -/
theorem C3_iban_validation_witness :
    (Validator.validate_iban_checksum gbIban = none) ∧
    ((Validator.validate_iban_checksum (gbIban.set 2 '7')).any
      (fun e => containsSub ("Invalid IBAN checksum".toList) e)) = true ∧
    ((Validator.validate recNineDigit).errors.all
      (fun e => !(("[Debtor Account] ".toList).isPrefixOf e))) = true := by
  have h := C3_iban_validation
  refine ⟨h.1, (h.2.2.1 '7' (by decide)).1 (by decide), ?_⟩
  apply List.all_eq_true.mpr
  intro e he
  rw [h.2.2.2.1 recNineDigit ("123456789".toList) rfl (by decide) (by decide) e he]
  rfl

end OpenPurse

namespace OpenPurse

theorem isUpperAZ_isAlphanum {c : Char} (h : isUpperAZ c = true) :
    c.isAlphanum = true := by
  simp only [isUpperAZ, Bool.and_eq_true, decide_eq_true_eq] at h
  have n1 : (65 : Nat) ≤ c.toNat := h.1
  have n2 : c.toNat ≤ 90 := h.2
  simp only [Char.isAlphanum, Char.isAlpha, Char.isUpper, Char.isLower, Char.isDigit,
    Bool.or_eq_true, Bool.and_eq_true, decide_eq_true_eq]
  left; left
  exact ⟨n1, n2⟩

theorem isDigit09_isAlphanum {c : Char} (h : isDigit09 c = true) :
    c.isAlphanum = true := by
  obtain ⟨n1, n2⟩ := toNat_le_of_digit h
  simp only [Char.isAlphanum, Char.isAlpha, Char.isUpper, Char.isLower, Char.isDigit,
    Bool.or_eq_true, Bool.and_eq_true, decide_eq_true_eq]
  right
  exact ⟨n1, n2⟩

theorem isUpperDigit_isAlphanum {c : Char} (h : isUpperDigit c = true) :
    c.isAlphanum = true := by
  simp only [isUpperDigit, Bool.or_eq_true] at h
  rcases h with h | h
  · exact isUpperAZ_isAlphanum h
  · exact isDigit09_isAlphanum h

theorem validate_bic_of_not_match {s : Str} (hne : s ≠ [])
    (hb : Validator.bicPatternMatch s = false) :
    Validator.validate_bic (some s) =
      some ("Invalid BIC format: '".toList ++ s ++
        "'. Must securely match ISO 9362 standard 8 or 11 characters.".toList) := by
  simp only [Validator.validate_bic, if_neg hne, hb]
  simp

theorem validate_bic_some_imp {s e0 : Str} (hne : s ≠ [])
    (ho : Validator.validate_bic (some s) = some e0) :
    Validator.bicPatternMatch s = false := by
  simp only [Validator.validate_bic, if_neg hne] at ho
  cases hb : Validator.bicPatternMatch s
  · rfl
  · rw [hb] at ho; simp at ho

theorem prefix_true_absurd {pre lab x : Str} (i : Nat)
    (hpre : pre.isPrefixOf (lab ++ x) = true)
    (hi : i < pre.length) (hlab : i < lab.length)
    (hne : pre.getD i ' ' ≠ lab.getD i ' ') : False := by
  rw [not_prefix_append x i hi hlab hne] at hpre
  exact absurd hpre (by simp)

/-- C4 (counterexample): the claim asserts a BIC is flagged exactly when
it fails the pattern; a present-but-empty sender BIC fails the pattern
yet `validate` reports nothing (Python truthiness skips it). -/
theorem C4_counterexample :
    ((Validator.validate { sender_bic := some ([] : Str) }).errors = []) ∧
    Validator.bicPatternMatch [] = false := by
  constructor <;> decide

/-- C4 (amended): `validate` flags a present, non-empty sender or
receiver BIC exactly when it fails the BIC pattern (a present-but-empty
BIC is skipped like an absent one); a string of exactly 8 or 11
characters of the letter/digit shape passes the pattern; a string of 7
or of 12+ characters fails it, as does any string containing a
non-alphanumeric character. -/
theorem C4_bic_boundary :
    (∀ (r : Message) (s : Str), r.sender_bic = some s → s ≠ [] →
      ((∃ e ∈ (Validator.validate r).errors,
          ("[Sender] ".toList).isPrefixOf e = true) ↔
        Validator.bicPatternMatch s = false)) ∧
    (∀ (r : Message) (s : Str), r.receiver_bic = some s → s ≠ [] →
      ((∃ e ∈ (Validator.validate r).errors,
          ("[Receiver] ".toList).isPrefixOf e = true) ↔
        Validator.bicPatternMatch s = false)) ∧
    (∀ s : Str, (s.length = 8 ∨ s.length = 11) →
      (s.take 6).all isUpperAZ = true → (s.drop 6).all isUpperDigit = true →
      Validator.bicPatternMatch s = true) ∧
    (∀ s : Str, (s.length = 7 ∨ 12 ≤ s.length) →
      Validator.bicPatternMatch s = false) ∧
    (∀ s : Str, ∀ c ∈ s, c.isAlphanum = false →
      Validator.bicPatternMatch s = false) := by
  refine ⟨?_, ?_, ?_, ?_, ?_⟩
  · intro r s hacc hne
    constructor
    · rintro ⟨e, he, hpre⟩
      have he' : e ∈ Validator.validateErrors r := he
      rcases validate_mem_shapes he' with
        ⟨e0, ho, hee⟩ | ⟨e0, _, hee⟩ | ⟨e0, _, hee⟩ | hee | hee | hee |
        ⟨c, hee⟩ | ⟨_, e0, hee⟩ | ⟨_, e0, hee⟩ | ⟨tail, hee⟩
      · rw [hacc] at ho
        exact validate_bic_some_imp hne ho
      · rw [hee] at hpre
        exact absurd (prefix_true_absurd 1 hpre (by decide) (by decide) (by decide)) id
      · rw [hee] at hpre
        exact absurd (prefix_true_absurd 1 hpre (by decide) (by decide) (by decide)) id
      · rw [hee] at hpre; exact absurd hpre (by decide)
      · rw [hee] at hpre; exact absurd hpre (by decide)
      · rw [hee] at hpre; exact absurd hpre (by decide)
      · rw [hee] at hpre
        exact absurd (prefix_true_absurd 0 hpre (by decide) (by decide) (by decide)) id
      · rw [hee] at hpre
        exact absurd (prefix_true_absurd 1 hpre (by decide) (by decide) (by decide)) id
      · rw [hee] at hpre
        exact absurd (prefix_true_absurd 1 hpre (by decide) (by decide) (by decide)) id
      · rw [hee] at hpre
        exact absurd (prefix_true_absurd 1 hpre (by decide) (by decide) (by decide)) id
    · intro hb
      refine ⟨"[Sender] ".toList ++ ("Invalid BIC format: '".toList ++ s ++
        "'. Must securely match ISO 9362 standard 8 or 11 characters.".toList),
        ?_, ?_⟩
      · show _ ∈ Validator.validateErrors r
        unfold Validator.validateErrors
        simp only [List.append_assoc]
        apply List.mem_append_left
        rw [hacc, validate_bic_of_not_match hne hb]
        simp [Validator.labeled]
      · rw [List.isPrefixOf_iff_prefix]
        exact List.prefix_append _ _
  · intro r s hacc hne
    constructor
    · rintro ⟨e, he, hpre⟩
      have he' : e ∈ Validator.validateErrors r := he
      rcases validate_mem_shapes he' with
        ⟨e0, _, hee⟩ | ⟨e0, ho, hee⟩ | ⟨e0, _, hee⟩ | hee | hee | hee |
        ⟨c, hee⟩ | ⟨_, e0, hee⟩ | ⟨_, e0, hee⟩ | ⟨tail, hee⟩
      · rw [hee] at hpre
        exact absurd (prefix_true_absurd 1 hpre (by decide) (by decide) (by decide)) id
      · rw [hacc] at ho
        exact validate_bic_some_imp hne ho
      · rw [hee] at hpre
        exact absurd (prefix_true_absurd 1 hpre (by decide) (by decide) (by decide)) id
      · rw [hee] at hpre; exact absurd hpre (by decide)
      · rw [hee] at hpre; exact absurd hpre (by decide)
      · rw [hee] at hpre; exact absurd hpre (by decide)
      · rw [hee] at hpre
        exact absurd (prefix_true_absurd 0 hpre (by decide) (by decide) (by decide)) id
      · rw [hee] at hpre
        exact absurd (prefix_true_absurd 1 hpre (by decide) (by decide) (by decide)) id
      · rw [hee] at hpre
        exact absurd (prefix_true_absurd 1 hpre (by decide) (by decide) (by decide)) id
      · rw [hee] at hpre
        exact absurd (prefix_true_absurd 1 hpre (by decide) (by decide) (by decide)) id
    · intro hb
      refine ⟨"[Receiver] ".toList ++ ("Invalid BIC format: '".toList ++ s ++
        "'. Must securely match ISO 9362 standard 8 or 11 characters.".toList),
        ?_, ?_⟩
      · show _ ∈ Validator.validateErrors r
        unfold Validator.validateErrors
        simp only [List.append_assoc]
        apply List.mem_append_right
        apply List.mem_append_left
        rw [hacc, validate_bic_of_not_match hne hb]
        simp [Validator.labeled]
      · rw [List.isPrefixOf_iff_prefix]
        exact List.prefix_append _ _
  · intro s hlen h6 hrest
    unfold Validator.bicPatternMatch
    rw [h6, hrest]
    rcases hlen with h | h <;> simp [h]
  · intro s hlen
    have h8 : (s.length == 8) = false := by
      rcases hlen with h | h <;> · simp only [beq_eq_false_iff_ne, ne_eq]; omega
    have h11 : (s.length == 11) = false := by
      rcases hlen with h | h <;> · simp only [beq_eq_false_iff_ne, ne_eq]; omega
    unfold Validator.bicPatternMatch
    rw [h8, h11]
    simp
  · intro s c hc hnal
    cases hb : Validator.bicPatternMatch s
    · rfl
    · exfalso
      unfold Validator.bicPatternMatch at hb
      simp only [Bool.and_eq_true, List.all_eq_true] at hb
      obtain ⟨⟨h6, hrest⟩, _⟩ := hb
      rw [← List.take_append_drop 6 s] at hc
      rcases List.mem_append.mp hc with h | h
      · exact absurd (isUpperAZ_isAlphanum (h6 c h)) (by rw [hnal]; simp)
      · exact absurd (isUpperDigit_isAlphanum (hrest c h)) (by rw [hnal]; simp)

/-- C4 (witness): the amended theorem applied at concrete inputs. -/
theorem C4_bic_boundary_witness :
    Validator.bicPatternMatch ("DEUTDEFF".toList) = true ∧
    Validator.bicPatternMatch ("DEUTDEF".toList) = false ∧
    ((Validator.validate { sender_bic := some ("DEUTDEF".toList) }).errors.any
      (fun e => ("[Sender] ".toList).isPrefixOf e)) = true := by
  have h := C4_bic_boundary
  refine ⟨h.2.2.1 _ (Or.inl (by decide)) (by decide) (by decide),
    h.2.2.2.1 _ (Or.inl (by decide)), ?_⟩
  obtain ⟨e, he, hpre⟩ :=
    (h.1 { sender_bic := some ("DEUTDEF".toList) } _ rfl (by decide)).mpr (by decide)
  exact List.any_eq_true.mpr ⟨e, he, hpre⟩

end OpenPurse

namespace OpenPurse

/-! ## Translator (`openpurse/translator.py`)

`datetime.now().strftime("%y%m%d")` and `str(uuid.uuid4())` are passed
in as the `dateStr` / `freshUuid` parameters; the two `float` calls of
`_build_mx_camt054` are modelled by a `FloatSem` parameter whose value
at `amt` carries the sign test `float(amt) > 0` and the rendering
`str(abs(float(amt)))`, with `none` modelling the `ValueError` raised
on a non-numeric string. -/

/-- Python `repr` of an optional string (dataclass field repr). -/
def pyReprOptStr : Option Str → Str
  | none => "None".toList
  | some s => '\'' :: (s ++ ['\''])

/-- Python `repr` of a list of strings. -/
def pyReprStrList (l : List Str) : Str :=
  '[' :: ((l.map (fun s => '\'' :: (s ++ ['\'']))).intersperse (", ".toList)).flatten ++ [']']

/-- Python `str`/`repr` of a `PostalAddress` dataclass instance. -/
def pyReprAddr (a : PostalAddress) : Str :=
  "PostalAddress(country=".toList ++ pyReprOptStr a.country ++
  ", town_name=".toList ++ pyReprOptStr a.town_name ++
  ", post_code=".toList ++ pyReprOptStr a.post_code ++
  ", street_name=".toList ++ pyReprOptStr a.street_name ++
  ", building_number=".toList ++ pyReprOptStr a.building_number ++
  ", address_lines=".toList ++
    (match a.address_lines with
     | none => "None".toList
     | some l => pyReprStrList l) ++ ")".toList

/-- Python `str(v)` for a dict value. -/
def pyStrDV : DVal → Str
  | .s (some t) => t
  | .s none => "None".toList
  | .addr none => "None".toList
  | .addr (some a) => pyReprAddr a

/-- `str(d.get(k, dflt))` (the f-string interpolation applies `str`). -/
def strOfGetD (d : Dict) (k dflt : Str) : Str :=
  match dictGet d k with
  | none => dflt
  | some v => pyStrDV v

/-- `d.get(k) or dflt`, rendered as a string (Python truthiness: a
missing key, `None` and the empty string all fall back to `dflt`). -/
def dvalOr (v : Option DVal) (dflt : Str) : Str :=
  match v with
  | none => dflt
  | some (.s none) => dflt
  | some (.s (some t)) => if t = [] then dflt else t
  | some (.addr none) => dflt
  | some (.addr (some a)) => pyReprAddr a

/-- Truthiness of `d.get("remittance")`. -/
def dvalTruthy (v : Option DVal) : Bool :=
  match v with
  | some (.s (some t)) => t ≠ []
  | some (.addr (some _)) => true
  | _ => false

/-- `hasattr(message, "initiating_party")`. -/
def hasInitiatingPartyAttr : MsgKind → Bool
  | .pain001 | .pain008 | .pain002 => true
  | _ => false

namespace Translator

/-- The behaviour of `float(amt)` in `_build_mx_camt054`: `pos` is
`float(amt) > 0` and `absStr` is `str(abs(float(amt)))`. -/
structure FloatV where
  pos : Bool
  absStr : Str

/-- Model of Python float parsing (`none` = `ValueError`). -/
abbrev FloatSem := Str → Option FloatV

/-- Exceptions escaping the translator. -/
inductive PyErr where
  | notImplemented (msg : Str)
  | valueError (arg : Str)
  | nameError

/-- `mt_type in ("101", "103", "202", "900", "910", "940", "942", "950")`. -/
def mtSupported (t : Str) : Bool :=
  t == "101".toList || t == "103".toList || t == "202".toList ||
  t == "900".toList || t == "910".toList || t == "940".toList ||
  t == "942".toList || t == "950".toList

/-- `mx_type in ("pacs.008", "pacs.009", "camt.053", "camt.054", "camt.052", "camt.004")`. -/
def mxSupported (t : Str) : Bool :=
  t == "pacs.008".toList || t == "pacs.009".toList || t == "camt.053".toList ||
  t == "camt.054".toList || t == "camt.052".toList || t == "camt.004".toList

/-- `Translator._get_mt_common_fields` (the `date_str` component, built
from `datetime.now()`, is the `dateStr` parameter of `to_mt`). -/
def get_mt_common_fields (message : Message) : Str × Str × Str :=
  let msg_id := pyOr message.message_id ("NONREF".toList)
  let curr := pyOr message.currency ("USD".toList)
  let amt0 := pyOr message.amount ("0.00".toList)
  let amt_str :=
    if containsSub (".".toList) amt0 then pyReplace (".".toList) (",".toList) amt0
    else amt0 ++ ",".toList
  (msg_id, curr, amt_str)

/-- One `:21:`/`:32B:`/`:59:` transaction chunk of `_build_mt101_block4`. -/
def mt101TxChunk (curr receiver : Str) (tx : PmDict) : Str :=
  let end_to_end := dvalOr (dictGet tx.fields ("end_to_end_id".toList)) ("NONREF".toList)
  let tx_amt0 := dvalOr (dictGet tx.fields ("amount".toList)) ("0.00".toList)
  let tx_amt :=
    if containsSub (".".toList) tx_amt0 then pyReplace (".".toList) (",".toList) tx_amt0
    else tx_amt0 ++ ",".toList
  let tx_curr := dvalOr (dictGet tx.fields ("currency".toList)) curr
  let creditor := dvalOr (dictGet tx.fields ("creditor_name".toList)) ("N/A".toList)
  ":21:".toList ++ end_to_end ++ "\n:32B:".toList ++ tx_curr ++ tx_amt ++
    "\n:59:/".toList ++ receiver ++ "\n".toList ++ creditor ++ "\n".toList

/-- `Translator._build_mt101_block4`. -/
def build_mt101_block4 (message : Message) (msg_id curr amt_str date_str sender receiver : Str) :
    Str :=
  let ip0 : Option Str :=
    if hasInitiatingPartyAttr message.kind then message.initiating_party
    else some ("N/A".toList)
  let initiating_party := pyOr ip0 ("N/A".toList)
  let head := "\x7b4:\n:20:".toList ++ msg_id ++ "\n:50H:/".toList ++ sender ++
    "\n".toList ++ initiating_party ++ "\n:30:".toList ++ date_str ++ "\n".toList
  let transactions : List PmDict :=
    if hasPaymentInformationAttr message.kind then
      (message.payment_information).getD []
    else []
  let body :=
    if transactions = [] then
      let end_to_end := pyOr message.end_to_end_id ("NONREF".toList)
      let creditor := pyOr message.creditor_name ("N/A".toList)
      ":21:".toList ++ end_to_end ++ "\n:32B:".toList ++ curr ++ amt_str ++
        "\n:59:/".toList ++ receiver ++ "\n".toList ++ creditor ++ "\n".toList
    else
      ((transactions.map (mt101TxChunk curr receiver)).flatten)
  head ++ body ++ "-\x7d".toList

/-- `Translator._build_mt103_block4`. -/
def build_mt103_block4 (message : Message) (msg_id curr amt_str date_str sender receiver : Str) :
    Str :=
  let debtor := pyOr message.debtor_name ("N/A".toList)
  let creditor := pyOr message.creditor_name ("N/A".toList)
  "\x7b4:\n:20:".toList ++ msg_id ++ "\n:32A:".toList ++ date_str ++ curr ++ amt_str ++
    "\n:50K:/".toList ++ sender ++ "\n".toList ++ debtor ++
    "\n:59:/".toList ++ receiver ++ "\n".toList ++ creditor ++ "\n-\x7d".toList

/-- `Translator._build_mt202_block4`. -/
def build_mt202_block4 (msg_id curr amt_str date_str receiver : Str) : Str :=
  "\x7b4:\n:20:".toList ++ msg_id ++ "\n:32A:".toList ++ date_str ++ curr ++ amt_str ++
    "\n:58A:/".toList ++ receiver ++ "\n-\x7d".toList

/-- `Translator._build_mt900_block4`. -/
def build_mt900_block4 (message : Message) (msg_id curr amt_str date_str sender : Str) : Str :=
  let debtor := pyOr message.debtor_name ("N/A".toList)
  "\x7b4:\n:20:".toList ++ msg_id ++ "\n:52A:/".toList ++ sender ++ "\n".toList ++ debtor ++
    "\n:32A:".toList ++ date_str ++ curr ++ amt_str ++ "\n-\x7d".toList

/-- `Translator._build_mt910_block4`. -/
def build_mt910_block4 (message : Message) (msg_id curr amt_str date_str sender : Str) : Str :=
  let creditor := pyOr message.creditor_name ("N/A".toList)
  "\x7b4:\n:20:".toList ++ msg_id ++ "\n:52A:/".toList ++ sender ++ "\n".toList ++ creditor ++
    "\n:32A:".toList ++ date_str ++ curr ++ amt_str ++ "\n-\x7d".toList

/-- One `:61:` (plus optional `:86:`) line pair of
`_build_mt940_block4` / `_build_mt942_block4`. -/
def mtStatementLine (date_str : Str) (with86 : Bool) (entry : Dict) : Str :=
  let e_amt := pyReplace (".".toList) (",".toList)
    (strOfGetD entry ("amount".toList) ("0.00".toList))
  let e_cd :=
    if dictGet entry ("credit_debit_indicator".toList) == some (.s (some ("CRDT".toList)))
    then 'C' else 'D'
  let e_ref := strOfGetD entry ("reference".toList) ("NONREF".toList)
  let line61 := ":61:".toList ++ date_str ++ date_str.drop 2 ++ [e_cd] ++ e_amt ++
    "NTRF".toList ++ e_ref ++ "\n".toList
  if with86 then
    let remit := dictGet entry ("remittance".toList)
    if dvalTruthy remit then
      line61 ++ ":86:".toList ++ pyStrDV (remit.getD (.s none)) ++ "\n".toList
    else line61
  else line61

/-- The `entries` loop shared by the MT statement builders. -/
def mtStatementsLoop (message : Message) (date_str : Str) (with86 : Bool) : Str :=
  if hasEntriesAttr message.kind then
    match message.entries with
    | some l => (l.map (mtStatementLine date_str with86)).flatten
    | none => []
  else []

/-- `Translator._build_mt940_block4`. -/
def build_mt940_block4 (message : Message) (msg_id curr amt_str date_str sender : Str) : Str :=
  let statements_loop := mtStatementsLoop message date_str true
  let open_bal := ":60F:C".toList ++ date_str ++ curr ++ amt_str
  let close_bal := ":62F:C".toList ++ date_str ++ curr ++ amt_str
  "\x7b4:\n:20:".toList ++ msg_id ++ "\n:25:/".toList ++ sender ++ "\n:28C:1/1\n".toList ++
    open_bal ++ "\n".toList ++ statements_loop ++ close_bal ++ "\n-\x7d".toList

/-- `Translator._build_mt942_block4`. -/
def build_mt942_block4 (message : Message) (msg_id curr amt_str date_str sender : Str) : Str :=
  let statements_loop := mtStatementsLoop message date_str true
  let interim_bal := ":34F:C".toList ++ curr ++ amt_str
  "\x7b4:\n:20:".toList ++ msg_id ++ "\n:25:/".toList ++ sender ++ "\n".toList ++
    interim_bal ++ "\n".toList ++ statements_loop ++ "-\x7d".toList

/-- `Translator._build_mt950_block4`. -/
def build_mt950_block4 (message : Message) (msg_id curr amt_str date_str sender : Str) : Str :=
  let statements_loop := mtStatementsLoop message date_str false
  let open_bal := ":60F:C".toList ++ date_str ++ curr ++ amt_str
  let close_bal := ":62F:C".toList ++ date_str ++ curr ++ amt_str
  "\x7b4:\n:20:".toList ++ msg_id ++ "\n:25:/".toList ++ sender ++ "\n".toList ++
    open_bal ++ "\n".toList ++ statements_loop ++ close_bal ++ "\n-\x7d".toList

/-- `Translator.to_mt` (the UTF-8 encoding of the result is the
identity on this ASCII data; a fall-through of the block-4 dispatch
would leave `block_4` unbound, modelled by `nameError`). -/
def to_mt (message : Message) (mt_type : Str) (dateStr freshUuid : Str) :
    Except PyErr Str :=
  if !mtSupported mt_type then
    .error (.notImplemented ("Translation to MT".toList ++ mt_type ++
      " is not yet supported.".toList))
  else
    let sender := (pyLjust (pyOr message.sender_bic ("XXXXXXXXXXXX".toList)) 12 'X').take 12
    let receiver := (pyLjust (pyOr message.receiver_bic ("XXXXXXXXXXXX".toList)) 12 'X').take 12
    let block_1 := "\x7b1:F01".toList ++ sender ++ "0000000000\x7d".toList
    let block_2 := "\x7b2:I".toList ++ mt_type ++ receiver ++ "N\x7d".toList
    let msg_uetr := pyOr message.uetr freshUuid
    let block_3 := "\x7b3:\x7b121:".toList ++ msg_uetr ++ "\x7d\x7d".toList
    let common := get_mt_common_fields message
    let msg_id := common.1
    let curr := common.2.1
    let amt_str := common.2.2
    let block_4 : Except PyErr Str :=
      if mt_type = "101".toList then
        .ok (build_mt101_block4 message msg_id curr amt_str dateStr sender receiver)
      else if mt_type = "103".toList then
        .ok (build_mt103_block4 message msg_id curr amt_str dateStr sender receiver)
      else if mt_type = "202".toList then
        .ok (build_mt202_block4 msg_id curr amt_str dateStr receiver)
      else if mt_type = "900".toList then
        .ok (build_mt900_block4 message msg_id curr amt_str dateStr sender)
      else if mt_type = "910".toList then
        .ok (build_mt910_block4 message msg_id curr amt_str dateStr sender)
      else if mt_type = "940".toList then
        .ok (build_mt940_block4 message msg_id curr amt_str dateStr sender)
      else if mt_type = "942".toList then
        .ok (build_mt942_block4 message msg_id curr amt_str dateStr sender)
      else if mt_type = "950".toList then
        .ok (build_mt950_block4 message msg_id curr amt_str dateStr sender)
      else .error .nameError
    block_4.map (fun b4 => block_1 ++ block_2 ++ block_3 ++ b4)

end Translator
end OpenPurse

namespace OpenPurse
namespace Translator

/-- `Translator._get_mx_common_fields` (the fresh UUID for a missing
UETR is the `freshUuid` parameter). -/
def get_mx_common_fields (message : Message) (freshUuid : Str) :
    Str × Str × Str × Str × Str × Str × Str × Str × Str :=
  let msg_id := pyOr message.message_id ("NONREF".toList)
  let e2e := pyOr message.end_to_end_id msg_id
  let uetr := pyOr message.uetr freshUuid
  let amt := pyOr message.amount ("0.00".toList)
  let curr := pyOr message.currency ("USD".toList)
  let sender := pyOr message.sender_bic ("UNKNOWN".toList)
  let receiver := pyOr message.receiver_bic ("UNKNOWN".toList)
  let debtor := pyOr message.debtor_name ("UNKNOWN".toList)
  let creditor := pyOr message.creditor_name ("UNKNOWN".toList)
  (msg_id, e2e, uetr, amt, curr, sender, receiver, debtor, creditor)

/-- One optional sub-element of `_build_addr_xml` (skipped when the
field is absent or empty, per Python truthiness). -/
def addrPiece (openTag closeTag : Str) (v : Option Str) : Str :=
  match v with
  | some t => if t = [] then [] else openTag ++ t ++ closeTag
  | none => []

/-- `Translator._build_addr_xml`. -/
def build_addr_xml (addr : Option PostalAddress) : Str :=
  match addr with
  | none => []
  | some a =>
    let inner :=
      addrPiece ("<Ctry>".toList) ("</Ctry>".toList) a.country ++
      addrPiece ("<TwnNm>".toList) ("</TwnNm>".toList) a.town_name ++
      addrPiece ("<PstCd>".toList) ("</PstCd>".toList) a.post_code ++
      addrPiece ("<StrtNm>".toList) ("</StrtNm>".toList) a.street_name ++
      addrPiece ("<BldgNb>".toList) ("</BldgNb>".toList) a.building_number ++
      (match a.address_lines with
       | some lines =>
         if lines = [] then []
         else (lines.map (fun l => "<AdrLine>".toList ++ l ++ "</AdrLine>".toList)).flatten
       | none => [])
    if inner = [] then [] else "<PstlAdr>".toList ++ inner ++ "</PstlAdr>".toList

/-- `Translator._build_mx_pacs008` (the exact f-string template,
newlines and indentation included). -/
def build_mx_pacs008 (msg_id sender receiver e2e uetr curr amt debtor dbtr_addr_xml
    creditor cdtr_addr_xml : Str) : Str :=
  "<?xml version=\"1.0\" encoding=\"UTF-8\"?>\n<Document xmlns=\"urn:iso:std:iso:20022:tech:xsd:pacs.008.001.08\">\n    <FIToFICstmrCdtTrf>\n        <GrpHdr>\n            <MsgId>".toList ++ msg_id ++
  "</MsgId>\n            <InstgAgt><FinInstnId><BICFI>".toList ++ sender ++
  "</BICFI></FinInstnId></InstgAgt>\n            <InstdAgt><FinInstnId><BICFI>".toList ++ receiver ++
  "</BICFI></FinInstnId></InstdAgt>\n        </GrpHdr>\n        <CdtTrfTxInf>\n            <PmtId>\n                <EndToEndId>".toList ++ e2e ++
  "</EndToEndId>\n                <UETR>".toList ++ uetr ++
  "</UETR>\n            </PmtId>\n            <IntrBkSttlmAmt Ccy=\"".toList ++ curr ++
  "\">".toList ++ amt ++
  "</IntrBkSttlmAmt>\n            <Dbtr><Nm>".toList ++ debtor ++ "</Nm>".toList ++ dbtr_addr_xml ++
  "</Dbtr>\n            <Cdtr><Nm>".toList ++ creditor ++ "</Nm>".toList ++ cdtr_addr_xml ++
  "</Cdtr>\n        </CdtTrfTxInf>\n    </FIToFICstmrCdtTrf>\n</Document>".toList

/-- `Translator._build_mx_pacs009`. -/
def build_mx_pacs009 (msg_id sender receiver e2e uetr curr amt : Str) : Str :=
  "<?xml version=\"1.0\" encoding=\"UTF-8\"?>\n<Document xmlns=\"urn:iso:std:iso:20022:tech:xsd:pacs.009.001.08\">\n    <FICdtTrf>\n        <GrpHdr>\n            <MsgId>".toList ++ msg_id ++
  "</MsgId>\n            <InstgAgt><FinInstnId><BICFI>".toList ++ sender ++
  "</BICFI></FinInstnId></InstgAgt>\n            <InstdAgt><FinInstnId><BICFI>".toList ++ receiver ++
  "</BICFI></FinInstnId></InstdAgt>\n        </GrpHdr>\n        <CdtTrfTxInf>\n            <PmtId>\n                <EndToEndId>".toList ++ e2e ++
  "</EndToEndId>\n                <UETR>".toList ++ uetr ++
  "</UETR>\n            </PmtId>\n            <IntrBkSttlmAmt Ccy=\"".toList ++ curr ++
  "\">".toList ++ amt ++
  "</IntrBkSttlmAmt>\n            <Dbtr><FinInstnId><BICFI>".toList ++ sender ++
  "</BICFI></FinInstnId></Dbtr>\n            <Cdtr><FinInstnId><BICFI>".toList ++ receiver ++
  "</BICFI></FinInstnId></Cdtr>\n        </CdtTrfTxInf>\n    </FICdtTrf>\n</Document>".toList

/-- `Translator._build_mx_camt054`: note the amount is re-rendered
through `float` — `c_d_ind = "CRDT" if float(amt) > 0 else "DBIT"` and
`abs_amt = str(abs(float(amt)))`. -/
def build_mx_camt054 (fs : FloatSem) (msg_id receiver curr amt e2e : Str) :
    Except PyErr Str :=
  match fs amt with
  | none => .error (.valueError amt)
  | some v =>
    let c_d_ind := if v.pos then "CRDT".toList else "DBIT".toList
    let abs_amt := v.absStr
    .ok ("<?xml version=\"1.0\" encoding=\"UTF-8\"?>\n<Document xmlns=\"urn:iso:std:iso:20022:tech:xsd:camt.054.001.08\">\n    <BkToCstmrDbtCdtNtfctn>\n        <GrpHdr>\n            <MsgId>".toList ++ msg_id ++
    "</MsgId>\n        </GrpHdr>\n        <Ntfctn>\n            <Id>".toList ++ msg_id ++
    "-NTF</Id>\n            <Acct>\n                <Id><Othr><Id>".toList ++ receiver ++
    "</Id></Othr></Id>\n            </Acct>\n            <Ntry>\n                <Amt Ccy=\"".toList ++ curr ++
    "\">".toList ++ abs_amt ++
    "</Amt>\n                <CdtDbtInd>".toList ++ c_d_ind ++
    "</CdtDbtInd>\n                <Sts>BOOK</Sts>\n                <NtryDtls>\n                    <TxDtls>\n                        <Refs><EndToEndId>".toList ++ e2e ++
    "</EndToEndId></Refs>\n                    </TxDtls>\n                </NtryDtls>\n            </Ntry>\n        </Ntfctn>\n    </BkToCstmrDbtCdtNtfctn>\n</Document>".toList)

/-- One `<Ntry>` block of `_build_mx_camt053`. -/
def camt053EntryXml (curr : Str) (entry : Dict) : Str :=
  let e_amt := strOfGetD entry ("amount".toList) ("0.00".toList)
  let e_cd := strOfGetD entry ("credit_debit_indicator".toList) ("CRDT".toList)
  let e_ref := strOfGetD entry ("reference".toList) ("NONREF".toList)
  "\n            <Ntry>\n                <NtryRef>".toList ++ e_ref ++
  "</NtryRef>\n                <Amt Ccy=\"".toList ++ curr ++
  "\">".toList ++ e_amt ++
  "</Amt>\n                <CdtDbtInd>".toList ++ e_cd ++
  "</CdtDbtInd>\n                <Sts>BOOK</Sts>\n                <BkTxCd><Prtry><Cd>NTRF</Cd></Prtry></BkTxCd>\n            </Ntry>".toList

/-- `Translator._build_mx_camt053`. -/
def build_mx_camt053 (message : Message) (msg_id receiver curr : Str) : Str :=
  let entries_xml :=
    if hasEntriesAttr message.kind then
      match message.entries with
      | some l => (l.map (camt053EntryXml curr)).flatten
      | none => []
    else []
  "<?xml version=\"1.0\" encoding=\"UTF-8\"?>\n<Document xmlns=\"urn:iso:std:iso:20022:tech:xsd:camt.053.001.08\">\n    <BkToCstmrStmt>\n        <GrpHdr>\n            <MsgId>".toList ++ msg_id ++
  "</MsgId>\n        </GrpHdr>\n        <Stmt>\n            <Id>".toList ++ msg_id ++
  "-STMT</Id>\n            <Acct>\n                <Id><Othr><Id>".toList ++ receiver ++
  "</Id></Othr></Id>\n            </Acct>".toList ++ entries_xml ++
  "\n        </Stmt>\n    </BkToCstmrStmt>\n</Document>".toList

/-- `Translator.to_mx` (UTF-8 encoding is the identity on this ASCII
data; the unmatched supported keys `camt.052`/`camt.004` leave
`xml_template` as the initial empty string). -/
def to_mx (fs : FloatSem) (message : Message) (mx_type : Str) (freshUuid : Str) :
    Except PyErr Str :=
  if !mxSupported mx_type then
    .error (.notImplemented ("Translation to ".toList ++ mx_type ++
      " is not yet supported.".toList))
  else
    let common := get_mx_common_fields message freshUuid
    let msg_id := common.1
    let e2e := common.2.1
    let uetr := common.2.2.1
    let amt := common.2.2.2.1
    let curr := common.2.2.2.2.1
    let sender := common.2.2.2.2.2.1
    let receiver := common.2.2.2.2.2.2.1
    let debtor := common.2.2.2.2.2.2.2.1
    let creditor := common.2.2.2.2.2.2.2.2
    let dbtr_addr_xml := build_addr_xml message.debtor_address
    let cdtr_addr_xml := build_addr_xml message.creditor_address
    if mx_type = "pacs.008".toList then
      .ok (build_mx_pacs008 msg_id sender receiver e2e uetr curr amt debtor dbtr_addr_xml
        creditor cdtr_addr_xml)
    else if mx_type = "pacs.009".toList then
      .ok (build_mx_pacs009 msg_id sender receiver e2e uetr curr amt)
    else if mx_type = "camt.054".toList then
      build_mx_camt054 fs msg_id receiver curr amt e2e
    else if mx_type = "camt.053".toList then
      .ok (build_mx_camt053 message msg_id receiver curr)
    else
      .ok []

end Translator
end OpenPurse

namespace OpenPurse

/-- C10: for every record, `to_mx` with target `camt.052` or `camt.004`
passes the supported-set guard, raises nothing, and returns the empty
byte string, because no rendering branch exists for these two keys. -/
theorem C10_empty_mx_targets (fs : Translator.FloatSem) (m : Message) (u : Str) :
    Translator.to_mx fs m ("camt.052".toList) u = .ok [] ∧
    Translator.to_mx fs m ("camt.004".toList) u = .ok [] := by
  constructor <;> rfl

/-- C5: `to_mt` fails with a not-implemented error naming the target for
every code outside its closed set and succeeds inside it; `to_mx` fails
the same way outside its closed set and never raises a not-implemented
error inside it (though `camt.054` can still raise the `float`
conversion's `ValueError`). -/
theorem C5_closed_target_sets (m : Message) (t d u : Str) (fs : Translator.FloatSem) :
    (Translator.mtSupported t = false →
      Translator.to_mt m t d u =
        .error (.notImplemented ("Translation to MT".toList ++ t ++
          " is not yet supported.".toList))) ∧
    (Translator.mtSupported t = true → ∃ b, Translator.to_mt m t d u = .ok b) ∧
    (Translator.mxSupported t = false →
      Translator.to_mx fs m t u =
        .error (.notImplemented ("Translation to ".toList ++ t ++
          " is not yet supported.".toList))) ∧
    (Translator.mxSupported t = true →
      ∀ e, Translator.to_mx fs m t u ≠ .error (.notImplemented e)) := by
  refine ⟨?_, ?_, ?_, ?_⟩
  · intro hf
    unfold Translator.to_mt
    rw [hf]
    rfl
  · intro ht
    unfold Translator.to_mt
    rw [ht]
    simp only [Bool.not_true, Bool.false_eq_true, if_false]
    simp only [Translator.mtSupported, Bool.or_eq_true, beq_iff_eq] at ht
    rcases ht with ((((((h | h) | h) | h) | h) | h) | h) | h <;> subst h <;> exact ⟨_, rfl⟩
  · intro hf
    unfold Translator.to_mx
    rw [hf]
    rfl
  · intro ht e hcon
    rw [Translator.to_mx.eq_def] at hcon
    rw [ht] at hcon
    simp only [Bool.not_true, Bool.false_eq_true, if_false] at hcon
    split at hcon
    · exact Except.noConfusion hcon
    · split at hcon
      · exact Except.noConfusion hcon
      · split at hcon
        · rw [Translator.build_mx_camt054.eq_def] at hcon
          split at hcon
          · injection hcon with h54
            exact Translator.PyErr.noConfusion h54
          · exact Except.noConfusion hcon
        · split at hcon
          · exact Except.noConfusion hcon
          · exact Except.noConfusion hcon

/-- C5 (witness): the closed-set theorem applied at concrete targets. -/
theorem C5_closed_target_sets_witness :
    (Translator.to_mt {} ("104".toList) [] [] =
      .error (.notImplemented ("Translation to MT".toList ++ "104".toList ++
        " is not yet supported.".toList))) ∧
    (∃ b, Translator.to_mt {} ("103".toList) [] [] = .ok b) ∧
    (Translator.to_mx (fun _ => none) {} ("camt.055".toList) [] =
      .error (.notImplemented ("Translation to ".toList ++ "camt.055".toList ++
        " is not yet supported.".toList))) ∧
    (∀ e, Translator.to_mx (fun _ => none) {} ("camt.054".toList) [] ≠
      .error (.notImplemented e)) := by
  have h1 := C5_closed_target_sets {} ("104".toList) [] [] (fun _ => none)
  have h2 := C5_closed_target_sets {} ("103".toList) [] [] (fun _ => none)
  have h3 := C5_closed_target_sets {} ("camt.055".toList) [] [] (fun _ => none)
  have h4 := C5_closed_target_sets {} ("camt.054".toList) [] [] (fun _ => none)
  exact ⟨h1.1 (by decide), h2.2.1 (by decide), h3.2.2.1 (by decide),
    h4.2.2.2 (by decide)⟩

end OpenPurse

namespace OpenPurse

/-! ## MT branch of the parser (`OpenPurseParser._parse_mt`)

Each `re` call is embedded as a dedicated matcher with Python
`re.search` semantics: `reSearch` tries successive start positions
left to right, and each `matchAt…` function implements the pattern at
one start position with the pattern's own greedy/lazy repetition
order.  The input text is the UTF-8 decode (with `errors="ignore"`) of
the message bytes, which is the identity on the ASCII data exchanged
with the translator. -/

/-- `re.search`: try the pattern at each start position, leftmost
match wins (the empty position at the end of input included). -/
def reSearch {α : Type} (matchAt : Str → Option α) : Str → Option α
  | [] => matchAt []
  | c :: r =>
    match matchAt (c :: r) with
    | some a => some a
    | none => reSearch matchAt r

/-- Take exactly `n` characters satisfying `p`, returning the taken
run and the remainder. -/
def takeExact (n : Nat) (p : Char → Bool) (s : Str) : Option (Str × Str) :=
  if (s.take n).length = n && (s.take n).all p then some (s.take n, s.drop n)
  else none

/-- `\{1:F01([A-Z0-9]{12,14})` (first Block-1 pattern, greedy). -/
def matchAtB1a (s : Str) : Option Str :=
  match s with
  | '\x7b' :: '1' :: ':' :: 'F' :: '0' :: '1' :: rest =>
    let run := rest.takeWhile isUpperDigit
    if 12 ≤ run.length then some (run.take 14) else none
  | _ => none

/-- The lookahead `(?=[0-9]{10}\})`. -/
def lookAheadB1 (r : Str) : Bool :=
  (r.take 10).length = 10 && (r.take 10).all isDigit09 &&
    (match r.drop 10 with
     | '\x7d' :: _ => true
     | _ => false)

/-- One lazy width `k` of `([A-Z0-9]{8,14}?)(?=[0-9]{10}\})`. -/
def b1TryK (rest : Str) (k : Nat) : Option Str :=
  if (rest.take k).length = k && (rest.take k).all isUpperDigit &&
      lookAheadB1 (rest.drop k) then
    some (rest.take k)
  else none

/-- `\{1:F01([A-Z0-9]{8,14}?)(?=[0-9]{10}\})` (second Block-1 pattern,
lazy: smallest width first). -/
def matchAtB1b (s : Str) : Option Str :=
  match s with
  | '\x7b' :: '1' :: ':' :: 'F' :: '0' :: '1' :: rest =>
    b1TryK rest 8 <|> b1TryK rest 9 <|> b1TryK rest 10 <|> b1TryK rest 11 <|>
      b1TryK rest 12 <|> b1TryK rest 13 <|> b1TryK rest 14
  | _ => none

/-- `\{1:F01([A-Z0-9]{8,14})` (third Block-1 pattern, greedy). -/
def matchAtB1c (s : Str) : Option Str :=
  match s with
  | '\x7b' :: '1' :: ':' :: 'F' :: '0' :: '1' :: rest =>
    let run := rest.takeWhile isUpperDigit
    if 8 ≤ run.length then some (run.take 14) else none
  | _ => none

/-- `\{2:[IO]([0-9]{3})([A-Z0-9]{12})` (first Block-2 pattern). -/
def matchAtB2a (s : Str) : Option (Str × Str) :=
  match s with
  | '\x7b' :: '2' :: ':' :: c :: rest =>
    if c = 'I' || c = 'O' then
      match takeExact 3 isDigit09 rest with
      | some (t, r1) =>
        match takeExact 12 isUpperDigit r1 with
        | some (b, _) => some (t, b)
        | none => none
      | none => none
    else none
  | _ => none

/-- `\{2:[IO]([0-9]{3})([A-Z0-9]{8,14})` (fallback Block-2 pattern,
greedy second group). -/
def matchAtB2b (s : Str) : Option (Str × Str) :=
  match s with
  | '\x7b' :: '2' :: ':' :: c :: rest =>
    if c = 'I' || c = 'O' then
      match takeExact 3 isDigit09 rest with
      | some (t, r1) =>
        let run := r1.takeWhile isUpperDigit
        if 8 ≤ run.length then some (t, run.take 14) else none
      | none => none
    else none
  | _ => none

/-- `\{3:.*\{121:(.*?)\}.*?\}`, stage after `\{121:` (lazy capture up
to a `\}`, then a lazy `.*?\}`; `.` does not cross newlines — the
pattern is compiled without `re.DOTALL`). -/
def b3After (r : Str) : Option Str :=
  match r with
  | '\x7b' :: '1' :: '2' :: '1' :: ':' :: rest =>
    (List.range (rest.length + 1)).findSome? (fun m =>
      let cap := rest.take m
      if cap.all (fun c => c ≠ '\n') then
        match rest.drop m with
        | '\x7d' :: after =>
          if (List.range (after.length + 1)).any (fun q =>
              (after.take q).all (fun c => c ≠ '\n') &&
              (match after.drop q with
               | '\x7d' :: _ => true
               | _ => false)) then
            some cap
          else none
        | _ => none
      else none)
  | _ => none

/-- `\{3:.*\{121:(.*?)\}.*?\}` at one start position: the leading `.*`
is greedy, so the longest newline-free prefix whose remainder matches
is tried first. -/
def b3MatchAt (s : Str) : Option Str :=
  match s with
  | '\x7b' :: '3' :: ':' :: rest =>
    ((List.range (rest.length + 1)).reverse).findSome? (fun j =>
      let b := rest.take j
      if b.all (fun c => c ≠ '\n') then b3After (rest.drop j) else none)
  | _ => none

/-- Characters allowed in a Block-4 tag by `extract_tag`
(`[0-9A-Z]`). -/
def isTagChar (c : Char) : Bool := isDigit09 c || isUpperAZ c

/-- The lookahead `\r?\n:[0-9A-Z]{2,3}:` of `extract_tag`. -/
def nlTagAhead (r : Str) : Bool :=
  let inner : Str → Bool := fun r2 =>
    match r2 with
    | ':' :: a :: b :: c :: _ =>
      isTagChar a && isTagChar b &&
        (c = ':' || (isTagChar c &&
          (match r2 with
           | _ :: _ :: _ :: _ :: d :: _ => d = ':'
           | _ => false)))
    | _ => false
  match r with
  | '\r' :: '\n' :: rest => inner rest
  | '\n' :: rest => inner rest
  | _ => false

/-- The lookahead `\r?\n-` of `extract_tag`. -/
def nlDashAhead (r : Str) : Bool :=
  match r with
  | '\r' :: '\n' :: '-' :: _ => true
  | '\n' :: '-' :: _ => true
  | _ => false

/-- The lookahead alternation `(?=\r?\n:[0-9A-Z]{2,3}:|\r?\n-|\Z)`. -/
def tagLookahead (r : Str) : Bool :=
  nlTagAhead r || nlDashAhead r || r.isEmpty

/-- The lazy `(.*?)` of `extract_tag` (compiled with `re.DOTALL`):
capture up to the first lookahead position. -/
def tagCapture : Str → Str
  | [] => []
  | c :: rest =>
    if tagLookahead (c :: rest) then [] else c :: tagCapture rest

/-- `extract_tag`'s pattern at one line start. -/
def matchAtTag (tag : Str) (s : Str) : Option Str :=
  if tag.isPrefixOf s then some (tagCapture (s.drop tag.length)) else none

/-- Scan positions anchored by `re.MULTILINE` `^`: position `0` and
every position following a newline. -/
def lineSearchAux {α : Type} (matchAt : Str → Option α) : Str → Option α
  | [] => none
  | c :: r =>
    if c = '\n' then
      match matchAt r with
      | some a => some a
      | none => lineSearchAux matchAt r
    else lineSearchAux matchAt r

/-- `re.search` with a `^`-anchored multiline pattern. -/
def lineSearch {α : Type} (matchAt : Str → Option α) (s : Str) : Option α :=
  match matchAt s with
  | some a => some a
  | none => lineSearchAux matchAt s

/-- `extract_tag(tag)`: match from the tag to the next tag, the block
terminator, or the end of input, then `strip()` the value. -/
def extract_tag (tag : Str) (text : Str) : Option Str :=
  (lineSearch (matchAtTag tag) text).map pyStrip

/-- `\{4:(.*?)-}` (DOTALL, lazy): the Block-4 body up to the first
`-}`. -/
def b4Capture : Str → Option Str
  | [] => none
  | '-' :: '\x7d' :: _ => some []
  | c :: rest => (b4Capture rest).map (fun v => c :: v)

/-- `\{4:(.*?)-}` at one start position. -/
def matchAtB4 (s : Str) : Option Str :=
  match s with
  | '\x7b' :: '4' :: ':' :: rest => b4Capture rest
  | _ => none

/-- The lookahead `(?=\n:[0-9]{2}[A-Z]?:|\n-\Z|\n-\})` of the
tag-pair `finditer`. -/
def entryLookahead (r : Str) : Bool :=
  (match r with
   | '\n' :: ':' :: a :: b :: rest =>
     isDigit09 a && isDigit09 b &&
       (match rest with
        | ':' :: _ => true
        | c :: ':' :: _ => isUpperAZ c
        | _ => false)
   | _ => false) ||
  (match r with
   | '\n' :: '-' :: rest =>
     rest.isEmpty ||
       (match rest with
        | '\x7d' :: _ => true
        | _ => false)
   | _ => false)

/-- The lazy DOTALL `(.*?)` of the tag-pair `finditer`: capture up to
the first lookahead position, returning the capture and the remainder
(the match ends at the zero-width lookahead). -/
def entryCapture : Str → Option (Str × Str)
  | [] => none
  | c :: rest =>
    if entryLookahead (c :: rest) then some ([], c :: rest)
    else (entryCapture rest).map (fun p => (c :: p.1, p.2))

theorem entryCapture_rest_length :
    ∀ {r v rest}, entryCapture r = some (v, rest) → rest.length ≤ r.length := by
  intro r
  induction r with
  | nil =>
    intro v rest h
    simp [entryCapture] at h
  | cons c cr ih =>
    intro v rest h
    unfold entryCapture at h
    split at h
    · rw [Option.some_inj] at h
      have h2 : rest = c :: cr := by
        have := congrArg Prod.snd h
        exact (by simpa using this : c :: cr = rest).symm
      rw [h2]
    · cases he : entryCapture cr with
      | none => rw [he] at h; simp at h
      | some p =>
        obtain ⟨pv, pr⟩ := p
        rw [he] at h
        simp only [Option.map_some', Option.some_inj] at h
        have hr := ih he
        have h2 : rest = pr := by
          have := congrArg Prod.snd h
          exact (by simpa using this : pr = rest).symm
        rw [h2]
        simp only [List.length_cons]
        omega

/-- Wrap `entryCapture` with the tag group. -/
def entryTagVal (tag : Str) (r : Str) : Option (Str × Str × Str) :=
  (entryCapture r).map (fun p => (tag, p.1, p.2))

theorem entryTagVal_rest_length {tag r t v rest}
    (h : entryTagVal tag r = some (t, v, rest)) : rest.length ≤ r.length := by
  unfold entryTagVal at h
  cases he : entryCapture r with
  | none => rw [he] at h; simp at h
  | some p =>
    obtain ⟨pv, pr⟩ := p
    rw [he] at h
    simp only [Option.map_some', Option.some_inj] at h
    have hr := entryCapture_rest_length he
    have h2 : rest = pr := by
      have := congrArg (fun x => x.2.2) h
      exact (by simpa using this : pr = rest).symm
    rw [h2]
    exact hr

/-- `\n:([0-9]{2}[A-Z]?):(.*?)(?=…)` at one start position: two digits
then a greedy optional capital, then `:`, then the lazy value. -/
def matchAtEntryTag (s : Str) : Option (Str × Str × Str) :=
  match s with
  | '\n' :: ':' :: a :: b :: rest =>
    if isDigit09 a && isDigit09 b then
      match rest with
      | c :: ':' :: r2 =>
        if isUpperAZ c then entryTagVal [a, b, c] r2
        else if c = ':' then entryTagVal [a, b] (':' :: r2)
        else none
      | ':' :: r2 => entryTagVal [a, b] r2
      | _ => none
    else none
  | _ => none

theorem matchAtEntryTag_rest_length {s tag v rest} :
    matchAtEntryTag s = some (tag, v, rest) → rest.length + 4 ≤ s.length := by
  intro h
  unfold matchAtEntryTag at h
  split at h
  case _ a b r =>
    split at h
    · split at h
      · split at h
        · have := entryTagVal_rest_length h
          simp_all only [List.length_cons]
          omega
        · split at h
          · have := entryTagVal_rest_length h
            simp_all only [List.length_cons]
            omega
          · simp at h
      · have := entryTagVal_rest_length h
        simp_all only [List.length_cons]
        omega
      · simp at h
    · simp at h
  case _ => simp at h

end OpenPurse

namespace OpenPurse

/-- `re.finditer` of the tag-pair pattern: leftmost non-overlapping
matches, resuming at each match end.  Fueled (`s.length` suffices:
every step consumes at least one character) so that the definition
reduces in the kernel. -/
def findAllTagsF : Nat → Str → List (Str × Str)
  | _, [] => []
  | 0, _ => []
  | fuel + 1, c :: rest =>
    match matchAtEntryTag (c :: rest) with
    | some (tag, v, after) => (tag, v) :: findAllTagsF fuel after
    | none => findAllTagsF fuel rest

/-- `re.finditer` of the tag-pair pattern over the whole string. -/
def findAllTags (s : Str) : List (Str × Str) := findAllTagsF s.length s

theorem findAllTagsF_fuel_irrel :
    ∀ fuel s, List.length s ≤ fuel → findAllTagsF fuel s = findAllTags s := by
  have main : ∀ fuel1 fuel2 s, s.length ≤ fuel1 → s.length ≤ fuel2 →
      findAllTagsF fuel1 s = findAllTagsF fuel2 s := by
    intro fuel1
    induction fuel1 with
    | zero =>
      intro fuel2 s h1 _
      have : s = [] := List.eq_nil_of_length_eq_zero (by omega)
      subst this
      cases fuel2 <;> rfl
    | succ f1 ih =>
      intro fuel2 s h1 h2
      cases s with
      | nil => cases fuel2 <;> rfl
      | cons c rest =>
        cases fuel2 with
        | zero => simp at h2
        | succ f2 =>
          simp only [findAllTagsF]
          cases hm : matchAtEntryTag (c :: rest) with
          | none =>
            have hr1 : rest.length ≤ f1 := by simp at h1; omega
            have h2r : rest.length ≤ f2 := by simp at h2; omega
            show findAllTagsF f1 rest = findAllTagsF f2 rest
            rw [ih f2 rest hr1 h2r]
          | some p =>
            obtain ⟨tag, v, after⟩ := p
            have hlen := matchAtEntryTag_rest_length hm
            simp only [List.length_cons] at hlen h1 h2
            have ha1 : after.length ≤ f1 := by omega
            have ha2 : after.length ≤ f2 := by omega
            show (tag, v) :: findAllTagsF f1 after = (tag, v) :: findAllTagsF f2 after
            rw [ih f2 after ha1 ha2]
  intro fuel s h
  exact main fuel s.length s h (Nat.le_refl _)

theorem findAllTags_nil : findAllTags [] = [] := rfl

theorem findAllTags_cons (c : Char) (rest : Str) :
    findAllTags (c :: rest) =
      (match matchAtEntryTag (c :: rest) with
       | some p => (p.1, p.2.1) :: findAllTags p.2.2
       | none => findAllTags rest) := by
  show findAllTagsF (rest.length + 1) (c :: rest) = _
  simp only [findAllTagsF]
  cases hm : matchAtEntryTag (c :: rest) with
  | none =>
    show findAllTagsF rest.length rest = findAllTags rest
    rw [findAllTagsF_fuel_irrel _ _ (Nat.le_refl _)]
  | some p =>
    obtain ⟨tag, v, after⟩ := p
    have hlen := matchAtEntryTag_rest_length hm
    simp only [List.length_cons] at hlen
    show (tag, v) :: findAllTagsF rest.length after = (tag, v) :: findAllTags after
    rw [findAllTagsF_fuel_irrel _ _ (by omega)]

/-- `([A-Z]{1,2})([0-9]+,[0-9]*)`, second group: one-or-more digits, a
comma, zero-or-more digits; returns the group and the remainder after
the whole match. -/
def cdAmountGroup (r : Str) : Option (Str × Str) :=
  let ds := r.takeWhile isDigit09
  if ds = [] then none
  else
    match r.drop ds.length with
    | ',' :: r2 =>
      let ds2 := r2.takeWhile isDigit09
      some (ds ++ ',' :: ds2, r2.drop ds2.length)
    | _ => none

/-- `([A-Z]{1,2})([0-9]+,[0-9]*)` at one start position (greedy
letter group: two letters preferred over one). -/
def matchAtCd (s : Str) : Option (Str × Str × Str) :=
  match s with
  | a :: rest1 =>
    if isUpperAZ a then
      (match rest1 with
       | b :: rest2 =>
         if isUpperAZ b then
           (cdAmountGroup rest2).map (fun p => ([a, b], p.1, p.2))
         else none
       | [] => none) <|>
      (cdAmountGroup rest1).map (fun p => ([a], p.1, p.2))
    else none
  | [] => none

/-- Python `d[k] = v`: replace in place, else append. -/
def dictSet (d : Dict) (k : Str) (v : DVal) : Dict :=
  if (d.find? (fun p => p.1 == k)).isSome then
    d.map (fun p => if p.1 == k then (p.1, v) else p)
  else d ++ [(k, v)]

/-- The `:61:` sub-grammar of `_parse_mt` (credit/debit indicator,
comma-decimal amount, reference), yielding the new entry dict. -/
def parse61Val (val : Str) : Dict :=
  match reSearch matchAtCd val with
  | none =>
    [(("amount".toList : Str), DVal.s (some ("0.00".toList))),
     (("credit_debit_indicator".toList : Str), DVal.s (some ("CRDT".toList))),
     (("reference".toList : Str), DVal.s (some ("NONREF".toList)))]
  | some (cd_str, amt_str, rest) =>
    let cd_ind := if containsSub ("D".toList) cd_str then "DBIT".toList else "CRDT".toList
    let amount_str := pyReplace (",".toList) (".".toList) amt_str
    let ref :=
      if 4 ≤ rest.length && pyIsAlpha (rest.take 4) then rest.drop 4 else rest
    [(("amount".toList : Str), DVal.s (some amount_str)),
     (("credit_debit_indicator".toList : Str), DVal.s (some cd_ind)),
     (("reference".toList : Str), DVal.s (some ref))]

/-- The `:61:`/`:86:` grouping loop over the scanned tag pairs. -/
def entriesLoop : List (Str × Str) → Option Dict → List Dict
  | [], current =>
    match current with
    | some e => [e]
    | none => []
  | (tag, valRaw) :: more, current =>
    let val := pyStrip valRaw
    if tag = "61".toList then
      match current with
      | some e => e :: entriesLoop more (some (parse61Val val))
      | none => entriesLoop more (some (parse61Val val))
    else if tag = "86".toList then
      match current with
      | some e =>
        entriesLoop more (some (dictSet e ("remittance".toList)
          (DVal.s (some (pyReplace ("\n".toList) (" ".toList) val)))))
      | none => entriesLoop more none
    else entriesLoop more current

/-- The statement-entry extraction of `_parse_mt` for types
940/942/950: find Block 4, re-scan `"\n" + b4.strip() + "\n-}"` for
tag pairs, and group `:61:`/`:86:` into entries. -/
def scanEntries (text : Str) : List Dict :=
  match reSearch matchAtB4 text with
  | none => []
  | some b4 =>
    entriesLoop (findAllTags ('\n' :: (pyStrip b4 ++ "\n-\x7d".toList))) none

/-- The Block-1 sender extraction of `_parse_mt` (primary pattern with
trailing-`00` trim, then the lookahead pattern, then the loose
fallback). -/
def mtSender (text : Str) : Option Str :=
  let sender0 : Option Str :=
    (reSearch matchAtB1a text).map (fun g =>
      let s14 := g.take 14
      if ("00".toList).isSuffixOf s14 then s14.dropLast.dropLast else s14)
  match reSearch matchAtB1b text with
  | some g => some g
  | none =>
    match reSearch matchAtB1c text with
    | some g => some (g.take 12)
    | none => sender0

/-- The Block-2 type/receiver extraction of `_parse_mt`. -/
def mtTypeReceiver (text : Str) : Option Str × Option Str :=
  match reSearch matchAtB2a text with
  | some (t, r) => (some t, some r)
  | none =>
    match reSearch matchAtB2b text with
    | some (t, r) => (some t, some (r.take 12))
    | none => (none, none)

/-- `value.replace("\\n", " ")` applied by `_parse_mt` when the
two-character sequence backslash-`n` occurs in an extracted name. -/
def fixBackslashN (v : Option Str) : Option Str :=
  v.map (fun t =>
    if containsSub ['\\', 'n'] t then pyReplace ['\\', 'n'] [' '] t else t)

/-- `OpenPurseParser._parse_mt`. -/
def parse_mt (text : Str) : Message :=
  let sender := mtSender text
  let tr := mtTypeReceiver text
  let mt_type := tr.1
  let receiver := tr.2
  let uetr := (reSearch b3MatchAt text).map pyStrip
  let msg_id := extract_tag (":20:".toList) text
  if mt_type = some ("101".toList) then
    let initiating_party := fixBackslashN
      (match extract_tag (":50H:".toList) text with
       | some v => if v = [] then
           (match extract_tag (":50C:".toList) text with
            | some w => if w = [] then extract_tag (":50L:".toList) text else some w
            | none => extract_tag (":50L:".toList) text)
         else some v
       | none =>
         (match extract_tag (":50C:".toList) text with
          | some w => if w = [] then extract_tag (":50L:".toList) text else some w
          | none => extract_tag (":50L:".toList) text))
    let tag_32b := extract_tag (":32B:".toList) text
    let currency : Option Str :=
      match tag_32b with
      | some t => if 3 ≤ t.length then some (t.take 3) else none
      | none => none
    let amount : Option Str :=
      match tag_32b with
      | some t => if 3 ≤ t.length then
          some (pyReplace (",".toList) (".".toList) (t.drop 3))
        else none
      | none => none
    let end_to_end_id := extract_tag (":21:".toList) text
    let creditor_name := fixBackslashN
      (match extract_tag (":59:".toList) text with
       | some v => if v = [] then extract_tag (":59A:".toList) text else some v
       | none => extract_tag (":59A:".toList) text)
    let tx_info : Dict :=
      [(("end_to_end_id".toList : Str), DVal.s end_to_end_id),
       (("amount".toList : Str), DVal.s amount),
       (("currency".toList : Str), DVal.s currency),
       (("creditor_name".toList : Str), DVal.s creditor_name)]
    let truthy : Option Str → Bool := fun o =>
      match o with
      | some v => v ≠ []
      | none => false
    let transactions : List PmDict :=
      if truthy end_to_end_id || truthy amount || truthy creditor_name then
        [{ fields := tx_info }]
      else []
    { kind := .pain001
      message_id := msg_id
      end_to_end_id := none
      uetr := uetr
      amount := amount
      currency := currency
      sender_bic := sender
      receiver_bic := receiver
      initiating_party := initiating_party
      payment_information := some transactions
      number_of_transactions := some (Int.ofNat transactions.length) }
  else if mt_type = some ("940".toList) || mt_type = some ("942".toList) ||
      mt_type = some ("950".toList) then
    let account_id := extract_tag (":25:".toList) text
    let entries := scanEntries text
    if mt_type = some ("942".toList) then
      { kind := .camt052
        message_id := msg_id
        account_id := account_id
        entries := some entries
        sender_bic := sender
        receiver_bic := receiver }
    else
      { kind := .camt053
        message_id := msg_id
        account_id := account_id
        entries := some entries
        sender_bic := sender
        receiver_bic := receiver }
  else
    let tag_32a := extract_tag (":32A:".toList) text
    let currency : Option Str :=
      match tag_32a with
      | some t => if 9 ≤ t.length then some ((t.drop 6).take 3) else none
      | none => none
    let amount : Option Str :=
      match tag_32a with
      | some t => if 9 ≤ t.length then
          some (pyReplace (",".toList) (".".toList) (t.drop 9))
        else none
      | none => none
    let debtor := fixBackslashN
      (match extract_tag (":50K:".toList) text with
       | some v => if v = [] then extract_tag (":50A:".toList) text else some v
       | none => extract_tag (":50A:".toList) text)
    let creditor := fixBackslashN
      (match extract_tag (":59:".toList) text with
       | some v => if v = [] then extract_tag (":59A:".toList) text else some v
       | none => extract_tag (":59A:".toList) text)
    { kind := .base
      message_id := msg_id
      end_to_end_id := none
      uetr := uetr
      amount := amount
      currency := currency
      sender_bic := sender
      receiver_bic := receiver
      debtor_name := debtor
      creditor_name := creditor }

end OpenPurse

namespace OpenPurse

/-! ## Symbolic-evaluation toolkit for the embedded scanners -/

theorem reSearch_cons_none {α : Type} (matchAt : Str → Option α) {c : Char} {r : Str}
    (h : matchAt (c :: r) = none) :
    reSearch matchAt (c :: r) = reSearch matchAt r := by
  show (match matchAt (c :: r) with
        | some a => some a
        | none => reSearch matchAt r) = reSearch matchAt r
  rw [h]

theorem reSearch_cons_some {α : Type} (matchAt : Str → Option α) {c : Char} {r : Str}
    {a : α} (h : matchAt (c :: r) = some a) :
    reSearch matchAt (c :: r) = some a := by
  show (match matchAt (c :: r) with
        | some a2 => some a2
        | none => reSearch matchAt r) = some a
  rw [h]

theorem reSearch_append {α : Type} (matchAt : Str → Option α) {s : Str} (t : Str)
    (hm : ∀ c r, c ∈ s → matchAt (c :: r) = none) :
    reSearch matchAt (s ++ t) = reSearch matchAt t := by
  induction s with
  | nil => rfl
  | cons c s' ih =>
    rw [List.cons_append, reSearch_cons_none matchAt (hm c _ (by simp))]
    exact ih (fun c2 r hc2 => hm c2 r (by simp [hc2]))

theorem lineSearchAux_append {α : Type} (matchAt : Str → Option α) {s : Str} (t : Str)
    (h : ∀ c ∈ s, c ≠ '\n') :
    lineSearchAux matchAt (s ++ t) = lineSearchAux matchAt t := by
  induction s with
  | nil => rfl
  | cons c s' ih =>
    rw [List.cons_append]
    show (if c = '\n' then
            match matchAt (s' ++ t) with
            | some a => some a
            | none => lineSearchAux matchAt (s' ++ t)
          else lineSearchAux matchAt (s' ++ t)) = lineSearchAux matchAt t
    rw [if_neg (h c (by simp))]
    exact ih (fun c2 hc2 => h c2 (by simp [hc2]))

theorem lineSearchAux_newline {α : Type} (matchAt : Str → Option α) (r : Str) :
    lineSearchAux matchAt ('\n' :: r) =
      (match matchAt r with
       | some a => some a
       | none => lineSearchAux matchAt r) := by
  show (if ('\n' : Char) = '\n' then
          match matchAt r with
          | some a => some a
          | none => lineSearchAux matchAt r
        else lineSearchAux matchAt r) = _
  rw [if_pos rfl]

/-- Characters that may appear in the symbolic free-text fields of a
generated MT message without disturbing any scanner. -/
def mtSafeChar (c : Char) : Bool :=
  isUpperAZ c || isLowerAZ c || isDigit09 c ||
    c == '.' || c == '-' || c == ' ' || c == '/'

/-- Characters of the token-like fields (identifiers, amounts,
currencies): these additionally survive `strip()` unchanged. -/
def mtTokenChar (c : Char) : Bool :=
  isUpperAZ c || isDigit09 c || c == '.'

theorem mtSafeChar_bounds {c : Char} (h : mtSafeChar c = true) :
    (65 ≤ c.toNat ∧ c.toNat ≤ 90) ∨ (97 ≤ c.toNat ∧ c.toNat ≤ 122) ∨
    (48 ≤ c.toNat ∧ c.toNat ≤ 57) ∨ c.toNat = 46 ∨ c.toNat = 45 ∨
    c.toNat = 32 ∨ c.toNat = 47 := by
  simp only [mtSafeChar, isUpperAZ, isLowerAZ, isDigit09, Bool.or_eq_true,
    Bool.and_eq_true, decide_eq_true_eq, beq_iff_eq] at h
  rcases h with ((((((⟨a, b⟩ | ⟨a, b⟩) | ⟨a, b⟩) | h1) | h1) | h1) | h1)
  · exact Or.inl ⟨a, b⟩
  · exact Or.inr (Or.inl ⟨a, b⟩)
  · exact Or.inr (Or.inr (Or.inl ⟨a, b⟩))
  · rw [h1]; simp
  · rw [h1]; simp
  · rw [h1]; simp
  · rw [h1]; simp

theorem mtTokenChar_safe {c : Char} (h : mtTokenChar c = true) : mtSafeChar c = true := by
  simp only [mtTokenChar, Bool.or_eq_true] at h
  simp only [mtSafeChar, Bool.or_eq_true]
  tauto

theorem isUpperDigit_token {c : Char} (h : isUpperDigit c = true) : mtTokenChar c = true := by
  simp only [isUpperDigit, Bool.or_eq_true] at h
  simp only [mtTokenChar, Bool.or_eq_true]
  tauto

theorem mtSafeChar_ne {c : Char} (h : mtSafeChar c = true) :
    c ≠ '\x7b' ∧ c ≠ '\x7d' ∧ c ≠ '\n' ∧ c ≠ '\r' ∧ c ≠ ':' := by
  have hb := mtSafeChar_bounds h
  refine ⟨?_, ?_, ?_, ?_, ?_⟩ <;> (intro hc; rw [hc] at hb; revert hb; decide)

theorem mtTokenChar_bounds {c : Char} (h : mtTokenChar c = true) :
    (65 ≤ c.toNat ∧ c.toNat ≤ 90) ∨ (48 ≤ c.toNat ∧ c.toNat ≤ 57) ∨ c.toNat = 46 := by
  simp only [mtTokenChar, isUpperAZ, isDigit09, Bool.or_eq_true,
    Bool.and_eq_true, decide_eq_true_eq, beq_iff_eq] at h
  rcases h with (⟨a, b⟩ | ⟨a, b⟩) | h1
  · exact Or.inl ⟨a, b⟩
  · exact Or.inr (Or.inl ⟨a, b⟩)
  · rw [h1]; simp

theorem mtTokenChar_not_space {c : Char} (h : mtTokenChar c = true) :
    isPySpace c = false := by
  have hb := mtTokenChar_bounds h
  simp only [isPySpace, Bool.or_eq_false_iff, decide_eq_false_iff_not]
  refine ⟨⟨⟨⟨⟨?_, ?_⟩, ?_⟩, ?_⟩, ?_⟩, ?_⟩ <;> (intro hc; rw [hc] at hb; revert hb; decide)

theorem pyStrip_id {s : Str} (h : s.all (fun c => !isPySpace c) = true) :
    pyStrip s = s := by
  rw [List.all_eq_true] at h
  have h1 : s.dropWhile isPySpace = s := by
    cases s with
    | nil => rfl
    | cons c r =>
      rw [List.dropWhile_cons_of_neg]
      have := h c (by simp)
      simpa using this
  rw [pyStrip, h1]
  have h2 : s.reverse.dropWhile isPySpace = s.reverse := by
    cases hr : s.reverse with
    | nil => rfl
    | cons c r =>
      rw [List.dropWhile_cons_of_neg]
      have hc : c ∈ s := by
        rw [← List.mem_reverse, hr]
        simp
      have := h c hc
      simpa using this
  rw [h2, List.reverse_reverse]

theorem mtToken_strip {s : Str} (h : s.all mtTokenChar = true) : pyStrip s = s := by
  apply pyStrip_id
  rw [List.all_eq_true] at h ⊢
  intro c hc
  have := mtTokenChar_not_space (h c hc)
  simp [this]

theorem tagLookahead_false_of_head {c : Char} {r : Str}
    (h1 : c ≠ '\n') (h2 : c ≠ '\r') :
    tagLookahead (c :: r) = false := by
  have ha : nlTagAhead (c :: r) = false := by
    unfold nlTagAhead
    split
    · rename_i rest heq
      exact absurd (by injection heq) h2
    · rename_i rest heq
      exact absurd (by injection heq) h1
    · rfl
  have hd : nlDashAhead (c :: r) = false := by
    unfold nlDashAhead
    split
    · rename_i rest heq
      exact absurd (by injection heq) h2
    · rename_i rest heq
      exact absurd (by injection heq) h1
    · rfl
  unfold tagLookahead
  rw [ha, hd]
  simp

theorem tagCapture_eval {v rest : Str}
    (hv : ∀ c ∈ v, c ≠ '\n' ∧ c ≠ '\r') (hr : tagLookahead rest = true) :
    tagCapture (v ++ rest) = v := by
  induction v with
  | nil =>
    cases rest with
    | nil => rfl
    | cons c r =>
      show (if tagLookahead (c :: r) then [] else c :: tagCapture r) = []
      rw [if_pos hr]
  | cons c v' ih =>
    rw [List.cons_append]
    show (if tagLookahead (c :: (v' ++ rest)) then []
          else c :: tagCapture (v' ++ rest)) = c :: v'
    have hc := hv c (by simp)
    rw [tagLookahead_false_of_head hc.1 hc.2]
    rw [ih (fun c2 hc2 => hv c2 (by simp [hc2]))]
    rfl

end OpenPurse

namespace OpenPurse

theorem matchAtB1a_ne {c : Char} {r : Str} (h : c ≠ '\x7b') :
    matchAtB1a (c :: r) = none := by
  unfold matchAtB1a
  split
  · rename_i rest heq
    exact absurd (by injection heq) h
  · rfl

theorem matchAtB1b_ne {c : Char} {r : Str} (h : c ≠ '\x7b') :
    matchAtB1b (c :: r) = none := by
  unfold matchAtB1b
  split
  · rename_i rest heq
    exact absurd (by injection heq) h
  · rfl

theorem matchAtB1c_ne {c : Char} {r : Str} (h : c ≠ '\x7b') :
    matchAtB1c (c :: r) = none := by
  unfold matchAtB1c
  split
  · rename_i rest heq
    exact absurd (by injection heq) h
  · rfl

theorem matchAtB2a_ne {c : Char} {r : Str} (h : c ≠ '\x7b') :
    matchAtB2a (c :: r) = none := by
  unfold matchAtB2a
  split
  · rename_i c2 rest heq
    exact absurd (by injection heq) h
  · rfl

theorem matchAtB2b_ne {c : Char} {r : Str} (h : c ≠ '\x7b') :
    matchAtB2b (c :: r) = none := by
  unfold matchAtB2b
  split
  · rename_i c2 rest heq
    exact absurd (by injection heq) h
  · rfl

theorem b3MatchAt_ne {c : Char} {r : Str} (h : c ≠ '\x7b') :
    b3MatchAt (c :: r) = none := by
  unfold b3MatchAt
  split
  · rename_i rest heq
    exact absurd (by injection heq) h
  · rfl

theorem matchAtB4_ne {c : Char} {r : Str} (h : c ≠ '\x7b') :
    matchAtB4 (c :: r) = none := by
  unfold matchAtB4
  split
  · rename_i rest heq
    exact absurd (by injection heq) h
  · rfl

/-- Skip a scanner whose pattern can only begin with `{` across a
segment of safe characters. -/
theorem reSearch_skip_safe {α : Type} (matchAt : Str → Option α)
    (hne : ∀ (c : Char) (r : Str), c ≠ '\x7b' → matchAt (c :: r) = none)
    {s : Str} (t : Str) (hs : s.all mtSafeChar = true) :
    reSearch matchAt (s ++ t) = reSearch matchAt t := by
  apply reSearch_append
  intro c r hc
  rw [List.all_eq_true] at hs
  exact hne c r (mtSafeChar_ne (hs c hc)).1

theorem takeExact_eval {n : Nat} {p : Char → Bool} {a : Str} (b : Str)
    (hl : a.length = n) (ha : a.all p = true) :
    takeExact n p (a ++ b) = some (a, b) := by
  unfold takeExact
  have ht : (a ++ b).take n = a := by
    rw [← hl]
    rw [List.take_append_of_le_length (Nat.le_refl _)]
    simp
  have hd : (a ++ b).drop n = b := by
    rw [← hl]
    simp [List.drop_left]
  rw [ht, hd, hl]
  simp [ha]

end OpenPurse
namespace OpenPurse

theorem drop_ge_append {a b : List Char} {n : Nat} (h : a.length ≤ n) :
    (a ++ b).drop n = b.drop (n - a.length) := by
  have h2 : n = a.length + (n - a.length) := by omega
  conv_lhs => rw [h2]
  rw [List.drop_append]

theorem zeros_toList : "0000000000".toList = List.replicate 10 '0' := by decide

theorem lookAheadB1_false_zeros {w rr : Str} (hw : 1 ≤ w.length) (hw2 : w.length ≤ 4) :
    lookAheadB1 (w ++ ("0000000000".toList ++ '\x7d' :: rr)) = false := by
  have hd : (w ++ ("0000000000".toList ++ '\x7d' :: rr)).drop 10 =
      '0' :: (List.replicate (10 - (10 - w.length) - 1) '0' ++ '\x7d' :: rr) := by
    rw [drop_ge_append (by omega)]
    rw [zeros_toList]
    rw [List.drop_append_of_le_length (by simp only [List.length_replicate]; omega)]
    rw [List.drop_replicate]
    have h3 : 10 - (10 - w.length) = (10 - (10 - w.length) - 1) + 1 := by omega
    conv_lhs => rw [h3]
    rw [List.replicate_succ, List.cons_append]
  unfold lookAheadB1
  rw [hd]
  simp

theorem b1TryK_small {s12 rr : Str} {k : Nat}
    (_hs : s12.all isUpperDigit = true) (h12 : s12.length = 12)
    (hk : 8 ≤ k) (hk2 : k ≤ 11) :
    b1TryK (s12 ++ ("0000000000\x7d".toList ++ rr)) k = none := by
  unfold b1TryK
  have hdrop : (s12 ++ ("0000000000\x7d".toList ++ rr)).drop k =
      s12.drop k ++ ("0000000000".toList ++ '\x7d' :: rr) := by
    rw [List.drop_append_of_le_length (by omega)]
    simp
  have hla : lookAheadB1 ((s12 ++ ("0000000000\x7d".toList ++ rr)).drop k) = false := by
    rw [hdrop]
    apply lookAheadB1_false_zeros
    · simp only [List.length_drop, h12]
      omega
    · simp only [List.length_drop, h12]
      omega
  rw [hla]
  simp

theorem b1TryK_twelve {s12 rr : Str}
    (hs : s12.all isUpperDigit = true) (h12 : s12.length = 12) :
    b1TryK (s12 ++ ("0000000000\x7d".toList ++ rr)) 12 = some s12 := by
  unfold b1TryK
  have htake : (s12 ++ ("0000000000\x7d".toList ++ rr)).take 12 = s12 := by
    rw [← h12, List.take_append_of_le_length (Nat.le_refl _)]
    simp
  have hdrop : (s12 ++ ("0000000000\x7d".toList ++ rr)).drop 12 =
      "0000000000".toList ++ '\x7d' :: rr := by
    rw [← h12, List.drop_left]
    simp
  have hla : lookAheadB1 ((s12 ++ ("0000000000\x7d".toList ++ rr)).drop 12) = true := by
    rw [hdrop]
    unfold lookAheadB1
    have h10 : ("0000000000".toList : Str).length = 10 := by decide
    rw [List.take_append_of_le_length (by rw [h10])]
    rw [show ("0000000000".toList : Str).take 10 = "0000000000".toList from by decide]
    rw [← h10, List.drop_left]
    rfl
  rw [hla, htake, h12]
  simp [hs]

theorem matchAtB1b_eval {s12 rr : Str}
    (hs : s12.all isUpperDigit = true) (h12 : s12.length = 12) :
    matchAtB1b ("\x7b1:F01".toList ++ s12 ++ ("0000000000\x7d".toList ++ rr)) = some s12 := by
  have h0 : matchAtB1b ("\x7b1:F01".toList ++ s12 ++ ("0000000000\x7d".toList ++ rr)) =
      (b1TryK (s12 ++ ("0000000000\x7d".toList ++ rr)) 8 <|>
       b1TryK (s12 ++ ("0000000000\x7d".toList ++ rr)) 9 <|>
       b1TryK (s12 ++ ("0000000000\x7d".toList ++ rr)) 10 <|>
       b1TryK (s12 ++ ("0000000000\x7d".toList ++ rr)) 11 <|>
       b1TryK (s12 ++ ("0000000000\x7d".toList ++ rr)) 12 <|>
       b1TryK (s12 ++ ("0000000000\x7d".toList ++ rr)) 13 <|>
       b1TryK (s12 ++ ("0000000000\x7d".toList ++ rr)) 14) := by
    rfl
  rw [h0]
  rw [b1TryK_small hs h12 (by omega) (by omega),
    b1TryK_small hs h12 (by omega) (by omega),
    b1TryK_small hs h12 (by omega) (by omega),
    b1TryK_small hs h12 (by omega) (by omega),
    b1TryK_twelve hs h12]
  rfl

theorem mtSender_eval {s12 rr : Str}
    (hs : s12.all isUpperDigit = true) (h12 : s12.length = 12) :
    mtSender ("\x7b1:F01".toList ++ s12 ++ ("0000000000\x7d".toList ++ rr)) = some s12 := by
  unfold mtSender
  have hm : reSearch matchAtB1b
      ("\x7b1:F01".toList ++ s12 ++ ("0000000000\x7d".toList ++ rr)) = some s12 := by
    have he : ("\x7b1:F01".toList ++ s12 ++ ("0000000000\x7d".toList ++ rr)) =
        '\x7b' :: ('1' :: ':' :: 'F' :: '0' :: '1' ::
          (s12 ++ ("0000000000\x7d".toList ++ rr))) := by simp
    rw [he]
    apply reSearch_cons_some
    rw [← he]
    exact matchAtB1b_eval hs h12
  rw [hm]

end OpenPurse
namespace OpenPurse

theorem upperDigit_ne_brace {c : Char} (h : isUpperDigit c = true) : c ≠ '\x7b' := by
  intro hc
  rw [hc] at h
  revert h
  decide

theorem reSearch_skip {α : Type} (matchAt : Str → Option α)
    (hne : ∀ (c : Char) (r : Str), c ≠ '\x7b' → matchAt (c :: r) = none)
    {s : Str} (t : Str) (hs : ∀ c ∈ s, c ≠ '\x7b') :
    reSearch matchAt (s ++ t) = reSearch matchAt t :=
  reSearch_append _ _ (fun c r hc => hne c r (hs c hc))

theorem matchAtB2a_b1 {r : Str} : matchAtB2a ('\x7b' :: '1' :: r) = none := rfl

theorem matchAtB2a_eval {T R rr : Str}
    (hT : T.length = 3) (hTd : T.all isDigit09 = true)
    (hR : R.length = 12) (hRd : R.all isUpperDigit = true) :
    matchAtB2a ('\x7b' :: '2' :: ':' :: 'I' :: (T ++ (R ++ rr))) = some (T, R) := by
  show (if ('I' : Char) = 'I' || ('I' : Char) = 'O' then
          match takeExact 3 isDigit09 (T ++ (R ++ rr)) with
          | some (t, r1) =>
            match takeExact 12 isUpperDigit r1 with
            | some (b, _) => some (t, b)
            | none => none
          | none => none
        else none) = some (T, R)
  rw [if_pos (by decide)]
  rw [takeExact_eval (R ++ rr) hT hTd]
  show (match takeExact 12 isUpperDigit (R ++ rr) with
        | some (b, _) => some (T, b)
        | none => none) = some (T, R)
  rw [takeExact_eval rr hR hRd]

theorem mtTypeReceiver_eval {S T R rr : Str}
    (hS : S.all isUpperDigit = true)
    (hT : T.length = 3) (hTd : T.all isDigit09 = true)
    (hR : R.length = 12) (hRd : R.all isUpperDigit = true) :
    mtTypeReceiver ("\x7b1:F01".toList ++ S ++
      ("0000000000\x7d".toList ++ ("\x7b2:I".toList ++ (T ++ (R ++ rr))))) =
      (some T, some R) := by
  have hb2 : reSearch matchAtB2a ("\x7b1:F01".toList ++ S ++
      ("0000000000\x7d".toList ++ ("\x7b2:I".toList ++ (T ++ (R ++ rr))))) =
      some (T, R) := by
    have h1 : ("\x7b1:F01".toList ++ S ++
        ("0000000000\x7d".toList ++ ("\x7b2:I".toList ++ (T ++ (R ++ rr))))) =
        '\x7b' :: ("1:F01".toList ++ (S ++
          ("0000000000\x7d".toList ++ ("\x7b2:I".toList ++ (T ++ (R ++ rr)))))) := by
      simp
    rw [h1]
    rw [reSearch_cons_none matchAtB2a (by rfl)]
    rw [reSearch_skip matchAtB2a (fun c r h => matchAtB2a_ne h) _ (by decide)]
    rw [reSearch_skip matchAtB2a (fun c r h => matchAtB2a_ne h) _
      (fun c hc => upperDigit_ne_brace (by
        rw [List.all_eq_true] at hS
        exact hS c hc))]
    rw [reSearch_skip matchAtB2a (fun c r h => matchAtB2a_ne h) _ (by decide)]
    have h2 : ("\x7b2:I".toList ++ (T ++ (R ++ rr))) =
        '\x7b' :: '2' :: ':' :: 'I' :: (T ++ (R ++ rr)) := by simp
    rw [h2]
    exact reSearch_cons_some matchAtB2a (matchAtB2a_eval hT hTd hR hRd)
  unfold mtTypeReceiver
  rw [hb2]

end OpenPurse
namespace OpenPurse

theorem upperDigit_safe_all {s : Str} (h : s.all isUpperDigit = true) :
    s.all mtSafeChar = true := by
  rw [List.all_eq_true] at h ⊢
  exact fun c hc => mtTokenChar_safe (isUpperDigit_token (h c hc))

theorem token_safe_all {s : Str} (h : s.all mtTokenChar = true) :
    s.all mtSafeChar = true := by
  rw [List.all_eq_true] at h ⊢
  exact fun c hc => mtTokenChar_safe (h c hc)

theorem safeAll_ne_nl {s : Str} (h : s.all mtSafeChar = true) :
    ∀ c ∈ s, c ≠ '\n' := by
  rw [List.all_eq_true] at h
  exact fun c hc => (mtSafeChar_ne (h c hc)).2.2.1

theorem safeAll_ne_brace {s : Str} (h : s.all mtSafeChar = true) :
    ∀ c ∈ s, c ≠ '\x7b' := by
  rw [List.all_eq_true] at h
  exact fun c hc => (mtSafeChar_ne (h c hc)).1

theorem pyOr_some_ne {v : Str} (d : Str) (h : v ≠ []) : pyOr (some v) d = v := by
  simp [pyOr, h]

theorem pyOr_none (d : Str) : pyOr none d = d := rfl

theorem pyReplace_single_hit (p : Char) (rep rest : Str) :
    pyReplace [p] rep (p :: rest) = rep ++ pyReplace [p] rep rest := by
  rw [pyReplace_cons]
  rw [if_pos]
  · rfl
  · simp [List.isPrefixOf]

theorem pyReplace_single_miss {p c : Char} (rep : Str) (rest : Str) (h : c ≠ p) :
    pyReplace [p] rep (c :: rest) = c :: pyReplace [p] rep rest := by
  rw [pyReplace_cons]
  rw [if_neg]
  simp [List.isPrefixOf]
  intro hc
  exact absurd hc.symm h

theorem mtTokenChar_ne_comma {c : Char} (h : mtTokenChar c = true) : c ≠ ',' := by
  intro hc
  rw [hc] at h
  revert h
  decide

/-- Replacing `.` by `,` and back is the identity on token strings
(no commas present). -/
theorem replace_dot_comma_inv {A : Str} (h : A.all mtTokenChar = true) :
    pyReplace (",".toList) (".".toList)
      (pyReplace (".".toList) (",".toList) A) = A := by
  induction A with
  | nil => rfl
  | cons c rest ih =>
    rw [List.all_cons, Bool.and_eq_true] at h
    have hrest := ih h.2
    by_cases hc : c = '.'
    · subst hc
      have h1 : (".".toList : Str) = ['.'] := by decide
      have h2 : (",".toList : Str) = [','] := by decide
      rw [h1, h2]
      rw [pyReplace_single_hit]
      show pyReplace [','] ['.'] (',' :: pyReplace ['.'] [','] rest) = '.' :: rest
      rw [pyReplace_single_hit]
      show '.' :: pyReplace [','] ['.'] (pyReplace ['.'] [','] rest) = '.' :: rest
      rw [h1, h2] at hrest
      rw [hrest]
    · have h1 : (".".toList : Str) = ['.'] := by decide
      have h2 : (",".toList : Str) = [','] := by decide
      rw [h1, h2]
      rw [pyReplace_single_miss _ _ hc]
      rw [pyReplace_single_miss _ _ (mtTokenChar_ne_comma h.1)]
      rw [h1, h2] at hrest
      rw [hrest]

theorem pad12_len (SB : Str) : ((pyLjust SB 12 'X').take 12).length = 12 := by
  simp [pyLjust]
  omega

theorem pad12_upperDigit {SB : Str} (h : SB.all isUpperDigit = true) :
    ((pyLjust SB 12 'X').take 12).all isUpperDigit = true := by
  rw [List.all_eq_true]
  intro c hc
  have hc2 := List.take_subset 12 _ hc
  rw [pyLjust] at hc2
  rcases List.mem_append.mp hc2 with hm | hm
  · rw [List.all_eq_true] at h
    exact h c hm
  · have := List.eq_of_mem_replicate hm
    rw [this]
    decide

theorem matchAtTag_eval (tag x : Str) :
    matchAtTag tag (tag ++ x) = some (tagCapture x) := by
  unfold matchAtTag
  rw [if_pos (List.isPrefixOf_iff_prefix.mpr (List.prefix_append tag x))]
  rw [List.drop_left]

theorem matchAtTag_colon_ne {t : Str} {c : Char} (h : c ≠ ':') (r : Str) :
    matchAtTag (':' :: t) (c :: r) = none := by
  unfold matchAtTag
  rw [if_neg]
  simp only [List.isPrefixOf, Bool.and_eq_true, beq_iff_eq]
  intro hc
  exact absurd hc.1.symm h

/-- The `^`-anchored line starts of the generated wire, as a list of
line bodies. -/
def linesFlat : List Str → Str → Str
  | [], t => t
  | l :: ls, t => '\n' :: (l ++ linesFlat ls t)

theorem lineSearchAux_lines {α : Type} (m : Str → Option α) (ls : List Str) (tail : Str)
    (hls : ∀ l ∈ ls, (∀ c ∈ l, c ≠ '\n') ∧ (∀ x, m (l ++ x) = none)) :
    lineSearchAux m (linesFlat ls tail) = lineSearchAux m tail := by
  induction ls with
  | nil => rfl
  | cons l ls ih =>
    have hl := hls l (by simp)
    show lineSearchAux m ('\n' :: (l ++ linesFlat ls tail)) = _
    rw [lineSearchAux_newline]
    rw [hl.2 (linesFlat ls tail)]
    rw [lineSearchAux_append m _ hl.1]
    exact ih (fun l2 h2 => hls l2 (by simp [h2]))

/-- Evaluate `extract_tag` on a wire whose first matching line start is
the `tag` line: skip the newline-free prefix `P`, skip the earlier
lines `ls`, capture `V` up to the lookahead `REST`. -/
theorem extract_tag_hit {tag P V REST : Str} (ls : List Str)
    (h0 : ∀ x, matchAtTag tag (P ++ x) = none)
    (hP : ∀ c ∈ P, c ≠ '\n')
    (hls : ∀ l ∈ ls, (∀ c ∈ l, c ≠ '\n') ∧ (∀ x, matchAtTag tag (l ++ x) = none))
    (hV : ∀ c ∈ V, c ≠ '\n' ∧ c ≠ '\r')
    (hREST : tagLookahead REST = true) :
    extract_tag tag (P ++ linesFlat ls ('\n' :: (tag ++ (V ++ REST)))) =
      some (pyStrip V) := by
  have h1 : lineSearch (matchAtTag tag)
      (P ++ linesFlat ls ('\n' :: (tag ++ (V ++ REST)))) = some V := by
    unfold lineSearch
    rw [h0 (linesFlat ls ('\n' :: (tag ++ (V ++ REST))))]
    show lineSearchAux (matchAtTag tag)
      (P ++ linesFlat ls ('\n' :: (tag ++ (V ++ REST)))) = some V
    rw [lineSearchAux_append _ _ hP, lineSearchAux_lines _ ls _ hls,
      lineSearchAux_newline]
    rw [matchAtTag_eval]
    show some (tagCapture (V ++ REST)) = some V
    rw [tagCapture_eval hV hREST]
  unfold extract_tag
  rw [h1]
  rfl

end OpenPurse
namespace OpenPurse

/-- `_parse_mt` on a message whose Block-2 type is none of 101, 940,
942, 950: the generic `PaymentMessage` branch, spelled out. -/
theorem parse_mt_else {text T R : Str}
    (htr : mtTypeReceiver text = (some T, some R))
    (h1 : T ≠ "101".toList) (h2 : T ≠ "940".toList)
    (h3 : T ≠ "942".toList) (h4 : T ≠ "950".toList) :
    parse_mt text =
      { kind := .base
        message_id := extract_tag (":20:".toList) text
        end_to_end_id := none
        uetr := (reSearch b3MatchAt text).map pyStrip
        amount :=
          (match extract_tag (":32A:".toList) text with
           | some t => if 9 ≤ t.length then
               some (pyReplace (",".toList) (".".toList) (t.drop 9))
             else none
           | none => none)
        currency :=
          (match extract_tag (":32A:".toList) text with
           | some t => if 9 ≤ t.length then some ((t.drop 6).take 3) else none
           | none => none)
        sender_bic := mtSender text
        receiver_bic := some R
        debtor_name := fixBackslashN
          (match extract_tag (":50K:".toList) text with
           | some v => if v = [] then extract_tag (":50A:".toList) text else some v
           | none => extract_tag (":50A:".toList) text)
        creditor_name := fixBackslashN
          (match extract_tag (":59:".toList) text with
           | some v => if v = [] then extract_tag (":59A:".toList) text else some v
           | none => extract_tag (":59A:".toList) text) } := by
  unfold parse_mt
  rw [htr]
  rw [if_neg (by simpa using h1)]
  rw [if_neg (by
    simp only [Option.some.injEq, decide_eq_true_eq, Bool.or_eq_true, not_or]
    exact ⟨⟨by simpa using h2, by simpa using h3⟩, by simpa using h4⟩)]

end OpenPurse

namespace OpenPurse

/-- `_parse_mt` on Block-2 type 101: the `Pain001Message` branch,
projected to the claim fields. -/
theorem parse_mt_101_fields {text R : Str}
    (htr : mtTypeReceiver text = (some ("101".toList), some R)) :
    (parse_mt text).message_id = extract_tag (":20:".toList) text ∧
    (parse_mt text).currency =
      (match extract_tag (":32B:".toList) text with
       | some t => if 3 ≤ t.length then some (t.take 3) else none
       | none => none) ∧
    (parse_mt text).amount =
      (match extract_tag (":32B:".toList) text with
       | some t => if 3 ≤ t.length then
           some (pyReplace (",".toList) (".".toList) (t.drop 3))
         else none
       | none => none) ∧
    (parse_mt text).sender_bic = mtSender text ∧
    (parse_mt text).receiver_bic = some R ∧
    (parse_mt text).kind = MsgKind.pain001 := by
  unfold parse_mt
  rw [htr]
  rw [if_pos rfl]
  exact ⟨rfl, rfl, rfl, rfl, rfl, rfl⟩

/-- `_parse_mt` on Block-2 type 940: the `Camt053Message` branch,
projected. -/
theorem parse_mt_940_fields {text R : Str}
    (htr : mtTypeReceiver text = (some ("940".toList), some R)) :
    (parse_mt text).entries = some (scanEntries text) ∧
    (parse_mt text).amount = none ∧
    (parse_mt text).kind = MsgKind.camt053 := by
  unfold parse_mt
  rw [htr]
  have c1 : ¬ ((some ("940".toList), some R).1 = some ("101".toList)) := by simp
  rw [if_neg c1]
  have c2 : (decide ((some ("940".toList), some R).1 = some ("940".toList)) ||
      decide ((some ("940".toList), some R).1 = some ("942".toList)) ||
      decide ((some ("940".toList), some R).1 = some ("950".toList))) = true := by simp
  rw [if_pos c2]
  have c3 : ¬ ((some ("940".toList), some R).1 = some ("942".toList)) := by simp
  rw [if_neg c3]
  exact ⟨rfl, rfl, rfl⟩

/-- The hypotheses under which a Typed Record round-trips through the
MT wire: the five claim fields are present and token-shaped, and the
remaining free-text fields are absent. -/
def mtCleanBase (m : Message) (M A C SB RB : Str) : Prop :=
  m.message_id = some M ∧ M ≠ [] ∧ M.all mtTokenChar = true ∧
  m.amount = some A ∧ A.all mtTokenChar = true ∧
    containsSub (".".toList) A = true ∧
  m.currency = some C ∧ C.length = 3 ∧ C.all isUpperAZ = true ∧
  m.sender_bic = some SB ∧ SB ≠ [] ∧ SB.all isUpperDigit = true ∧
  m.receiver_bic = some RB ∧ RB ≠ [] ∧ RB.all isUpperDigit = true ∧
  m.uetr = none ∧ m.end_to_end_id = none ∧ m.debtor_name = none ∧
  m.creditor_name = none ∧ m.initiating_party = none ∧
  m.payment_information = none

/-- The shared Blocks 1–3 of every generated MT message. -/
def mtWirePre (S T R U B4 : Str) : Str :=
  "\x7b1:F01".toList ++ S ++ ("0000000000\x7d".toList ++
    ("\x7b2:I".toList ++ (T ++ (R ++ ("N\x7d".toList ++
      ("\x7b3:\x7b121:".toList ++ (U ++ ("\x7d\x7d".toList ++ B4))))))))

/-- Normal form of the generated MT103 Block 4. -/
def mtB4_103 (M A C S R d : Str) : Str :=
  "\x7b4:\n:20:".toList ++ M ++ "\n:32A:".toList ++ d ++ C ++
    pyReplace (".".toList) (",".toList) A ++
    "\n:50K:/".toList ++ S ++ "\n".toList ++ "N/A".toList ++
    "\n:59:/".toList ++ R ++ "\n".toList ++ "N/A".toList ++ "\n-\x7d".toList

theorem containsSub_ne_nil {A : Str} (h : containsSub (".".toList) A = true) :
    A ≠ [] := by
  intro hA
  rw [hA] at h
  revert h
  decide

theorem to_mt_103_wire {m : Message} {M A C SB RB : Str}
    (h : mtCleanBase m M A C SB RB) (d u : Str) :
    Translator.to_mt m ("103".toList) d u =
      .ok (mtWirePre ((pyLjust SB 12 'X').take 12) ("103".toList)
        ((pyLjust RB 12 'X').take 12) u
        (mtB4_103 M A C ((pyLjust SB 12 'X').take 12)
          ((pyLjust RB 12 'X').take 12) d)) := by
  obtain ⟨hM, hMne, hMtok, hA, hAtok, hAdot, hC, hClen, hCup,
    hSB, hSBne, hSBud, hRB, hRBne, hRBud, hU, hE2E, hDeb, hCred, hIP, hPI⟩ := h
  have hCne : C ≠ [] := by
    intro hnil
    rw [hnil] at hClen
    simp at hClen
  have hcom : Translator.get_mt_common_fields m =
      (M, C, pyReplace (".".toList) (",".toList) A) := by
    unfold Translator.get_mt_common_fields
    rw [hM, hA, hC]
    rw [pyOr_some_ne _ hMne, pyOr_some_ne _ (containsSub_ne_nil hAdot),
      pyOr_some_ne _ hCne]
    simp [hAdot]
    intro hf
    have h2 : containsSub ['.'] A = true := hAdot
    rw [h2] at hf
    cases hf
  have hb4 : Translator.build_mt103_block4 m M C
      (pyReplace (".".toList) (",".toList) A) d
      ((pyLjust SB 12 'X').take 12) ((pyLjust RB 12 'X').take 12) =
      mtB4_103 M A C ((pyLjust SB 12 'X').take 12)
        ((pyLjust RB 12 'X').take 12) d := by
    unfold Translator.build_mt103_block4 mtB4_103
    rw [hDeb, hCred]
    rfl
  unfold Translator.to_mt
  rw [if_neg (show ¬ ((!Translator.mtSupported ("103".toList)) = true) from by decide)]
  simp only [hcom, hSB, hRB, hU, pyOr_some_ne _ hSBne, pyOr_some_ne _ hRBne,
    pyOr_none, Except.map]
  simp only [reduceIte]
  rw [hb4]
  show Except.ok _ = Except.ok _
  congr 1
  unfold mtWirePre
  simp [List.append_assoc]

end OpenPurse
namespace OpenPurse

theorem forall_mem_append2 {p : Char → Prop} {a b : Str}
    (ha : ∀ c ∈ a, p c) (hb : ∀ c ∈ b, p c) : ∀ c ∈ a ++ b, p c := by
  intro c hc
  rcases List.mem_append.mp hc with h | h
  · exact ha c h
  · exact hb c h

/-- Characters of an amount after the `.`→`,` rewrite. -/
def wireValChar (c : Char) : Bool := mtTokenChar c || c == ','

theorem pyReplace_single_all {p r : Char} {s : Str} (P : Char → Bool)
    (hs : s.all P = true) (hr : P r = true) :
    (pyReplace [p] [r] s).all P = true := by
  induction s with
  | nil => rfl
  | cons c rest ih =>
    rw [List.all_cons, Bool.and_eq_true] at hs
    by_cases hc : c = p
    · subst hc
      rw [pyReplace_single_hit]
      simp only [List.cons_append, List.nil_append, List.all_cons, Bool.and_eq_true]
      exact ⟨hr, ih hs.2⟩
    · rw [pyReplace_single_miss _ _ hc]
      simp only [List.all_cons, Bool.and_eq_true]
      exact ⟨hs.1, ih hs.2⟩

theorem amtWire_all {A : Str} (h : A.all mtTokenChar = true) :
    (pyReplace (".".toList) (",".toList) A).all wireValChar = true := by
  have h1 : (".".toList : Str) = ['.'] := by decide
  have h2 : (",".toList : Str) = [','] := by decide
  rw [h1, h2]
  apply pyReplace_single_all wireValChar
  · rw [List.all_eq_true] at h ⊢
    intro c hc
    simp only [wireValChar, Bool.or_eq_true]
    exact Or.inl (h c hc)
  · decide

theorem wireValChar_bounds {c : Char} (h : wireValChar c = true) :
    (65 ≤ c.toNat ∧ c.toNat ≤ 90) ∨ (48 ≤ c.toNat ∧ c.toNat ≤ 57) ∨
    c.toNat = 46 ∨ c.toNat = 44 := by
  simp only [wireValChar, Bool.or_eq_true, beq_iff_eq] at h
  rcases h with h | h
  · rcases mtTokenChar_bounds h with h2 | h2 | h2
    · exact Or.inl h2
    · exact Or.inr (Or.inl h2)
    · exact Or.inr (Or.inr (Or.inl h2))
  · rw [h]
    simp

theorem wireValChar_ne {c : Char} (h : wireValChar c = true) :
    c ≠ '\n' ∧ c ≠ '\r' := by
  have hb := wireValChar_bounds h
  constructor <;> (intro hc; rw [hc] at hb; revert hb; decide)

theorem wireValChar_not_space {c : Char} (h : wireValChar c = true) :
    isPySpace c = false := by
  have hb := wireValChar_bounds h
  simp only [isPySpace, Bool.or_eq_false_iff, decide_eq_false_iff_not]
  refine ⟨⟨⟨⟨⟨?_, ?_⟩, ?_⟩, ?_⟩, ?_⟩, ?_⟩ <;> (intro hc; rw [hc] at hb; revert hb; decide)

theorem wireVal_strip {s : Str} (h : s.all wireValChar = true) : pyStrip s = s := by
  apply pyStrip_id
  rw [List.all_eq_true] at h ⊢
  intro c hc
  have := wireValChar_not_space (h c hc)
  simp [this]

theorem tokenAll_nlcr {s : Str} (h : s.all mtTokenChar = true) :
    ∀ c ∈ s, c ≠ '\n' ∧ c ≠ '\r' := by
  rw [List.all_eq_true] at h
  intro c hc
  have h2 := mtSafeChar_ne (mtTokenChar_safe (h c hc))
  exact ⟨h2.2.2.1, h2.2.2.2.1⟩

theorem wireValAll_nlcr {s : Str} (h : s.all wireValChar = true) :
    ∀ c ∈ s, c ≠ '\n' ∧ c ≠ '\r' := by
  rw [List.all_eq_true] at h
  intro c hc
  exact wireValChar_ne (h c hc)

theorem upperAll_nlcr {s : Str} (h : s.all isUpperDigit = true) :
    ∀ c ∈ s, c ≠ '\n' ∧ c ≠ '\r' := by
  apply tokenAll_nlcr
  rw [List.all_eq_true] at h ⊢
  exact fun c hc => isUpperDigit_token (h c hc)

theorem digitsAll_token {s : Str} (h : s.all isDigit09 = true) :
    s.all mtTokenChar = true := by
  rw [List.all_eq_true] at h ⊢
  exact fun c hc => isUpperDigit_token (by simp [isUpperDigit, h c hc])

theorem upperAZAll_token {s : Str} (h : s.all isUpperAZ = true) :
    s.all mtTokenChar = true := by
  rw [List.all_eq_true] at h ⊢
  exact fun c hc => isUpperDigit_token (by simp [isUpperDigit, h c hc])

end OpenPurse
namespace OpenPurse

theorem allb_ne_nl {s : Str} (h : s.all (fun c => !(c == '\n')) = true) :
    ∀ c ∈ s, c ≠ '\n' := by
  rw [List.all_eq_true] at h
  intro c hc
  simpa using h c hc

theorem safeAll_nlb {s : Str} (h : s.all mtSafeChar = true) :
    s.all (fun c => !(c == '\n')) = true := by
  rw [List.all_eq_true] at h ⊢
  intro c hc
  simpa using (mtSafeChar_ne (h c hc)).2.2.1

theorem tagLookahead_32A (x : Str) :
    tagLookahead ('\n' :: (":32A:".toList ++ x)) = true := rfl

theorem tagLookahead_50K (x : Str) :
    tagLookahead ('\n' :: (":50K:/".toList ++ x)) = true := rfl

theorem tagLookahead_59 (x : Str) :
    tagLookahead ('\n' :: (":59:/".toList ++ x)) = true := rfl

/-- `extract_tag ":20:"` on the generated MT103 wire. -/
theorem wire103_tag20 {M A C S R d u : Str}
    (hMtok : M.all mtTokenChar = true)
    (hSud : S.all isUpperDigit = true) (hRud : R.all isUpperDigit = true)
    (hu : u.all mtSafeChar = true) :
    extract_tag (":20:".toList)
      (mtWirePre S ("103".toList) R u (mtB4_103 M A C S R d)) =
      some (pyStrip M) := by
  have heq : mtWirePre S ("103".toList) R u (mtB4_103 M A C S R d) =
      ("\x7b1:F01".toList ++ (S ++ ("0000000000\x7d".toList ++ ("\x7b2:I".toList ++
        ("103".toList ++ (R ++ ("N\x7d".toList ++ ("\x7b3:\x7b121:".toList ++
        (u ++ ("\x7d\x7d".toList ++ "\x7b4:".toList)))))))))) ++
      linesFlat [] ('\n' :: (":20:".toList ++ (M ++
        ('\n' :: (":32A:".toList ++ (d ++ (C ++
          (pyReplace (".".toList) (",".toList) A ++
        ('\n' :: (":50K:/".toList ++ (S ++
        ('\n' :: ("N/A".toList ++
        ('\n' :: (":59:/".toList ++ (R ++
        ('\n' :: ("N/A".toList ++
        ('\n' :: "-\x7d".toList))))))))))))))))))) := by
    unfold mtWirePre mtB4_103
    rw [show ("\x7b4:\n:20:".toList : Str) =
        "\x7b4:".toList ++ '\n' :: ":20:".toList from by decide]
    rw [show ("\n:32A:".toList : Str) = '\n' :: ":32A:".toList from by decide]
    rw [show ("\n:50K:/".toList : Str) = '\n' :: ":50K:/".toList from by decide]
    rw [show ("\n:59:/".toList : Str) = '\n' :: ":59:/".toList from by decide]
    rw [show ("\n-\x7d".toList : Str) = '\n' :: "-\x7d".toList from by decide]
    rw [show ("\n".toList : Str) = ['\n'] from by decide]
    simp [linesFlat, List.append_assoc]
  rw [heq]
  apply extract_tag_hit
  · intro x
    exact matchAtTag_colon_ne (by decide) _
  · apply allb_ne_nl
    simp only [List.all_append, Bool.and_eq_true]
    refine ⟨by decide, safeAll_nlb (upperDigit_safe_all hSud), by decide, by decide,
      by decide, safeAll_nlb (upperDigit_safe_all hRud), by decide, by decide,
      safeAll_nlb hu, by decide, by decide⟩
  · intro l hl
    simp at hl
  · exact tokenAll_nlcr hMtok
  · exact tagLookahead_32A _

end OpenPurse

namespace OpenPurse

/-- `extract_tag ":32A:"` on the generated MT103 wire. -/
theorem wire103_tag32A {M A C S R d u : Str}
    (hMtok : M.all mtTokenChar = true)
    (hAtok : A.all mtTokenChar = true)
    (hCup : C.all isUpperAZ = true)
    (hdd : d.all isDigit09 = true)
    (hSud : S.all isUpperDigit = true) (hRud : R.all isUpperDigit = true)
    (hu : u.all mtSafeChar = true) :
    extract_tag (":32A:".toList)
      (mtWirePre S ("103".toList) R u (mtB4_103 M A C S R d)) =
      some (pyStrip (d ++ (C ++ pyReplace (".".toList) (",".toList) A))) := by
  have heq : mtWirePre S ("103".toList) R u (mtB4_103 M A C S R d) =
      ("\x7b1:F01".toList ++ (S ++ ("0000000000\x7d".toList ++ ("\x7b2:I".toList ++
        ("103".toList ++ (R ++ ("N\x7d".toList ++ ("\x7b3:\x7b121:".toList ++
        (u ++ ("\x7d\x7d".toList ++ "\x7b4:".toList)))))))))) ++
      linesFlat [":20:".toList ++ M]
        ('\n' :: (":32A:".toList ++ ((d ++ (C ++
          pyReplace (".".toList) (",".toList) A)) ++
        ('\n' :: (":50K:/".toList ++ (S ++
        ('\n' :: ("N/A".toList ++
        ('\n' :: (":59:/".toList ++ (R ++
        ('\n' :: ("N/A".toList ++
        ('\n' :: "-\x7d".toList)))))))))))))) := by
    unfold mtWirePre mtB4_103
    rw [show ("\x7b4:\n:20:".toList : Str) =
        "\x7b4:".toList ++ '\n' :: ":20:".toList from by decide]
    rw [show ("\n:32A:".toList : Str) = '\n' :: ":32A:".toList from by decide]
    rw [show ("\n:50K:/".toList : Str) = '\n' :: ":50K:/".toList from by decide]
    rw [show ("\n:59:/".toList : Str) = '\n' :: ":59:/".toList from by decide]
    rw [show ("\n-\x7d".toList : Str) = '\n' :: "-\x7d".toList from by decide]
    rw [show ("\n".toList : Str) = ['\n'] from by decide]
    simp [linesFlat, List.append_assoc]
  rw [heq]
  apply extract_tag_hit
  · intro x
    exact matchAtTag_colon_ne (by decide) _
  · apply allb_ne_nl
    simp only [List.all_append, Bool.and_eq_true]
    refine ⟨by decide, safeAll_nlb (upperDigit_safe_all hSud), by decide, by decide,
      by decide, safeAll_nlb (upperDigit_safe_all hRud), by decide, by decide,
      safeAll_nlb hu, by decide, by decide⟩
  · intro l hl
    rw [List.mem_singleton] at hl
    subst hl
    constructor
    · apply allb_ne_nl
      simp only [List.all_append, Bool.and_eq_true]
      exact ⟨by decide, safeAll_nlb (token_safe_all hMtok)⟩
    · intro x
      rw [List.append_assoc]
      rfl
  · apply forall_mem_append2
    · exact tokenAll_nlcr (digitsAll_token hdd)
    · apply forall_mem_append2
      · exact tokenAll_nlcr (upperAZAll_token hCup)
      · exact wireValAll_nlcr (amtWire_all hAtok)
  · exact tagLookahead_50K _

end OpenPurse
namespace OpenPurse

/-- Parsing the generated MT103 wire recovers the claim fields. -/
theorem parse103_fields {M A C S R d u : Str}
    (hMtok : M.all mtTokenChar = true)
    (hAtok : A.all mtTokenChar = true)
    (hClen : C.length = 3) (hCup : C.all isUpperAZ = true)
    (hS12 : S.length = 12) (hSud : S.all isUpperDigit = true)
    (hR12 : R.length = 12) (hRud : R.all isUpperDigit = true)
    (hd6 : d.length = 6) (hdd : d.all isDigit09 = true)
    (hu : u.all mtSafeChar = true) :
    (parse_mt (mtWirePre S ("103".toList) R u (mtB4_103 M A C S R d))).message_id
        = some M ∧
    (parse_mt (mtWirePre S ("103".toList) R u (mtB4_103 M A C S R d))).amount
        = some A ∧
    (parse_mt (mtWirePre S ("103".toList) R u (mtB4_103 M A C S R d))).currency
        = some C ∧
    (parse_mt (mtWirePre S ("103".toList) R u (mtB4_103 M A C S R d))).sender_bic
        = some S ∧
    (parse_mt (mtWirePre S ("103".toList) R u (mtB4_103 M A C S R d))).receiver_bic
        = some R := by
  have hsend : mtSender (mtWirePre S ("103".toList) R u (mtB4_103 M A C S R d)) =
      some S := mtSender_eval hSud hS12
  have htr : mtTypeReceiver (mtWirePre S ("103".toList) R u (mtB4_103 M A C S R d)) =
      (some ("103".toList), some R) :=
    mtTypeReceiver_eval hSud (by decide) (by decide) hR12 hRud
  have h20 := @wire103_tag20 M A C S R d u hMtok hSud hRud hu
  have h32 := @wire103_tag32A M A C S R d u hMtok hAtok hCup hdd hSud hRud hu
  rw [mtToken_strip hMtok] at h20
  have hVall : (d ++ (C ++ pyReplace (".".toList) (",".toList) A)).all
      wireValChar = true := by
    simp only [List.all_append, Bool.and_eq_true]
    refine ⟨?_, ?_, amtWire_all hAtok⟩
    · rw [List.all_eq_true]
      intro c hc
      have := (List.all_eq_true.mp (digitsAll_token hdd)) c hc
      simp [wireValChar, this]
    · rw [List.all_eq_true]
      intro c hc
      have := (List.all_eq_true.mp (upperAZAll_token hCup)) c hc
      simp [wireValChar, this]
  rw [wireVal_strip hVall] at h32
  have hdrop9 : (d ++ (C ++ pyReplace (".".toList) (",".toList) A)).drop 9 =
      pyReplace (".".toList) (",".toList) A := by
    rw [drop_ge_append (by omega), hd6]
    rw [drop_ge_append (by omega), hClen]
    rfl
  have hdrop6 : (d ++ (C ++ pyReplace (".".toList) (",".toList) A)).drop 6 =
      C ++ pyReplace (".".toList) (",".toList) A := by
    rw [drop_ge_append (by omega), hd6]
    rfl
  have htake3 : (C ++ pyReplace (".".toList) (",".toList) A).take 3 = C := by
    rw [← hClen, List.take_append_of_le_length (Nat.le_refl _), List.take_length]
  have hlen9 : 9 ≤ (d ++ (C ++ pyReplace (".".toList) (",".toList) A)).length := by
    simp only [List.length_append]
    omega
  rw [parse_mt_else htr (by decide) (by decide) (by decide) (by decide)]
  refine ⟨h20, ?_, ?_, hsend, rfl⟩
  · show (match extract_tag (":32A:".toList)
        (mtWirePre S ("103".toList) R u (mtB4_103 M A C S R d)) with
      | some t => if 9 ≤ t.length then
          some (pyReplace (",".toList) (".".toList) (t.drop 9))
        else none
      | none => none) = some A
    rw [h32]
    show (if 9 ≤ (d ++ (C ++ pyReplace (".".toList) (",".toList) A)).length then
        some (pyReplace (",".toList) (".".toList)
          ((d ++ (C ++ pyReplace (".".toList) (",".toList) A)).drop 9))
      else none) = some A
    rw [if_pos hlen9, hdrop9, replace_dot_comma_inv hAtok]
  · show (match extract_tag (":32A:".toList)
        (mtWirePre S ("103".toList) R u (mtB4_103 M A C S R d)) with
      | some t => if 9 ≤ t.length then some ((t.drop 6).take 3) else none
      | none => none) = some C
    rw [h32]
    show (if 9 ≤ (d ++ (C ++ pyReplace (".".toList) (",".toList) A)).length then
        some (((d ++ (C ++ pyReplace (".".toList) (",".toList) A)).drop 6).take 3)
      else none) = some C
    rw [if_pos hlen9, hdrop6, htake3]

end OpenPurse
namespace OpenPurse

theorem tagLookahead_58A (x : Str) :
    tagLookahead ('\n' :: (":58A:/".toList ++ x)) = true := rfl

theorem tagLookahead_52A (x : Str) :
    tagLookahead ('\n' :: (":52A:/".toList ++ x)) = true := rfl

theorem tagLookahead_50H (x : Str) :
    tagLookahead ('\n' :: (":50H:/".toList ++ x)) = true := rfl

theorem tagLookahead_dash : tagLookahead ('\n' :: "-\x7d".toList) = true := by decide

/-- Normal form of the generated MT202 Block 4. -/
def mtB4_202 (M A C R d : Str) : Str :=
  "\x7b4:\n:20:".toList ++ M ++ "\n:32A:".toList ++ d ++ C ++
    pyReplace (".".toList) (",".toList) A ++
    "\n:58A:/".toList ++ R ++ "\n-\x7d".toList

/-- Normal form of the generated MT900/MT910 Block 4 for a record with
no debtor or creditor name. -/
def mtB4_90x (M A C S d : Str) : Str :=
  "\x7b4:\n:20:".toList ++ M ++ "\n:52A:/".toList ++ S ++ "\n".toList ++
    "N/A".toList ++ "\n:32A:".toList ++ d ++ C ++
    pyReplace (".".toList) (",".toList) A ++ "\n-\x7d".toList

/-- Normal form of the generated MT101 Block 4 for a record with no
payment-information block. -/
def mtB4_101 (M A C S R d : Str) : Str :=
  "\x7b4:\n:20:".toList ++ M ++ "\n:50H:/".toList ++ S ++ "\n".toList ++
    "N/A".toList ++ "\n:30:".toList ++ d ++ "\n".toList ++
    (":21:".toList ++ "NONREF".toList ++ "\n:32B:".toList ++ C ++
      pyReplace (".".toList) (",".toList) A ++
      "\n:59:/".toList ++ R ++ "\n".toList ++ "N/A".toList ++ "\n".toList) ++
    "-\x7d".toList

theorem to_mt_202_wire {m : Message} {M A C SB RB : Str}
    (h : mtCleanBase m M A C SB RB) (d u : Str) :
    Translator.to_mt m ("202".toList) d u =
      .ok (mtWirePre ((pyLjust SB 12 'X').take 12) ("202".toList)
        ((pyLjust RB 12 'X').take 12) u
        (mtB4_202 M A C ((pyLjust RB 12 'X').take 12) d)) := by
  obtain ⟨hM, hMne, hMtok, hA, hAtok, hAdot, hC, hClen, hCup,
    hSB, hSBne, hSBud, hRB, hRBne, hRBud, hU, hE2E, hDeb, hCred, hIP, hPI⟩ := h
  have hCne : C ≠ [] := by
    intro hnil
    rw [hnil] at hClen
    simp at hClen
  have hcom : Translator.get_mt_common_fields m =
      (M, C, pyReplace (".".toList) (",".toList) A) := by
    unfold Translator.get_mt_common_fields
    rw [hM, hA, hC]
    rw [pyOr_some_ne _ hMne, pyOr_some_ne _ (containsSub_ne_nil hAdot),
      pyOr_some_ne _ hCne]
    simp [hAdot]
    intro hf
    have h2 : containsSub ['.'] A = true := hAdot
    rw [h2] at hf
    cases hf
  have hb4 : Translator.build_mt202_block4 M C
      (pyReplace (".".toList) (",".toList) A) d
      ((pyLjust RB 12 'X').take 12) =
      mtB4_202 M A C ((pyLjust RB 12 'X').take 12) d := by
    unfold Translator.build_mt202_block4 mtB4_202
    rfl
  unfold Translator.to_mt
  rw [if_neg (show ¬ ((!Translator.mtSupported ("202".toList)) = true) from by decide)]
  simp only [hcom, hSB, hRB, hU, pyOr_some_ne _ hSBne, pyOr_some_ne _ hRBne,
    pyOr_none, Except.map]
  simp only [reduceIte]
  rw [hb4]
  show Except.ok _ = Except.ok _
  congr 1
  unfold mtWirePre
  simp [List.append_assoc]

theorem to_mt_90x_wire {m : Message} {M A C SB RB : Str}
    (h : mtCleanBase m M A C SB RB) (d u : Str) {T : Str}
    (hT : T = "900".toList ∨ T = "910".toList) :
    Translator.to_mt m T d u =
      .ok (mtWirePre ((pyLjust SB 12 'X').take 12) T
        ((pyLjust RB 12 'X').take 12) u
        (mtB4_90x M A C ((pyLjust SB 12 'X').take 12) d)) := by
  obtain ⟨hM, hMne, hMtok, hA, hAtok, hAdot, hC, hClen, hCup,
    hSB, hSBne, hSBud, hRB, hRBne, hRBud, hU, hE2E, hDeb, hCred, hIP, hPI⟩ := h
  have hCne : C ≠ [] := by
    intro hnil
    rw [hnil] at hClen
    simp at hClen
  have hcom : Translator.get_mt_common_fields m =
      (M, C, pyReplace (".".toList) (",".toList) A) := by
    unfold Translator.get_mt_common_fields
    rw [hM, hA, hC]
    rw [pyOr_some_ne _ hMne, pyOr_some_ne _ (containsSub_ne_nil hAdot),
      pyOr_some_ne _ hCne]
    simp [hAdot]
    intro hf
    have h2 : containsSub ['.'] A = true := hAdot
    rw [h2] at hf
    cases hf
  have hb900 : Translator.build_mt900_block4 m M C
      (pyReplace (".".toList) (",".toList) A) d
      ((pyLjust SB 12 'X').take 12) =
      mtB4_90x M A C ((pyLjust SB 12 'X').take 12) d := by
    unfold Translator.build_mt900_block4 mtB4_90x
    rw [hDeb]
    rfl
  have hb910 : Translator.build_mt910_block4 m M C
      (pyReplace (".".toList) (",".toList) A) d
      ((pyLjust SB 12 'X').take 12) =
      mtB4_90x M A C ((pyLjust SB 12 'X').take 12) d := by
    unfold Translator.build_mt910_block4 mtB4_90x
    rw [hCred]
    rfl
  rcases hT with hT | hT <;> subst hT
  · unfold Translator.to_mt
    rw [if_neg (show ¬ ((!Translator.mtSupported ("900".toList)) = true) from by decide)]
    simp only [hcom, hSB, hRB, hU, pyOr_some_ne _ hSBne, pyOr_some_ne _ hRBne,
      pyOr_none, Except.map]
    simp only [reduceIte]
    rw [hb900]
    show Except.ok _ = Except.ok _
    congr 1
    unfold mtWirePre
    simp [List.append_assoc]
  · unfold Translator.to_mt
    rw [if_neg (show ¬ ((!Translator.mtSupported ("910".toList)) = true) from by decide)]
    simp only [hcom, hSB, hRB, hU, pyOr_some_ne _ hSBne, pyOr_some_ne _ hRBne,
      pyOr_none, Except.map]
    simp only [reduceIte]
    rw [hb910]
    show Except.ok _ = Except.ok _
    congr 1
    unfold mtWirePre
    simp [List.append_assoc]

end OpenPurse
namespace OpenPurse

theorem to_mt_101_wire {m : Message} {M A C SB RB : Str}
    (h : mtCleanBase m M A C SB RB) (d u : Str) :
    Translator.to_mt m ("101".toList) d u =
      .ok (mtWirePre ((pyLjust SB 12 'X').take 12) ("101".toList)
        ((pyLjust RB 12 'X').take 12) u
        (mtB4_101 M A C ((pyLjust SB 12 'X').take 12)
          ((pyLjust RB 12 'X').take 12) d)) := by
  obtain ⟨hM, hMne, hMtok, hA, hAtok, hAdot, hC, hClen, hCup,
    hSB, hSBne, hSBud, hRB, hRBne, hRBud, hU, hE2E, hDeb, hCred, hIP, hPI⟩ := h
  have hCne : C ≠ [] := by
    intro hnil
    rw [hnil] at hClen
    simp at hClen
  have hcom : Translator.get_mt_common_fields m =
      (M, C, pyReplace (".".toList) (",".toList) A) := by
    unfold Translator.get_mt_common_fields
    rw [hM, hA, hC]
    rw [pyOr_some_ne _ hMne, pyOr_some_ne _ (containsSub_ne_nil hAdot),
      pyOr_some_ne _ hCne]
    simp [hAdot]
    intro hf
    have h2 : containsSub ['.'] A = true := hAdot
    rw [h2] at hf
    cases hf
  have hb4 : Translator.build_mt101_block4 m M C
      (pyReplace (".".toList) (",".toList) A) d
      ((pyLjust SB 12 'X').take 12) ((pyLjust RB 12 'X').take 12) =
      mtB4_101 M A C ((pyLjust SB 12 'X').take 12)
        ((pyLjust RB 12 'X').take 12) d := by
    unfold Translator.build_mt101_block4 mtB4_101
    rw [hIP, hPI, hE2E, hCred]
    cases hip : hasInitiatingPartyAttr m.kind <;>
      cases hpi : hasPaymentInformationAttr m.kind <;>
      simp [pyOr, List.append_assoc]
  unfold Translator.to_mt
  rw [if_neg (show ¬ ((!Translator.mtSupported ("101".toList)) = true) from by decide)]
  simp only [hcom, hSB, hRB, hU, pyOr_some_ne _ hSBne, pyOr_some_ne _ hRBne,
    pyOr_none, Except.map]
  simp only [reduceIte]
  rw [hb4]
  show Except.ok _ = Except.ok _
  congr 1
  unfold mtWirePre
  simp [List.append_assoc]

end OpenPurse
namespace OpenPurse

/-- `extract_tag ":20:"` on the generated MT202 wire. -/
theorem wire202_tag20 {M A C R d u : Str}
    (hMtok : M.all mtTokenChar = true)
    (hSud : S.all isUpperDigit = true) (hRud : R.all isUpperDigit = true)
    (hu : u.all mtSafeChar = true) :
    extract_tag (":20:".toList)
      (mtWirePre S ("202".toList) R u (mtB4_202 M A C R d)) =
      some (pyStrip M) := by
  have heq : mtWirePre S ("202".toList) R u (mtB4_202 M A C R d) =
      ("\x7b1:F01".toList ++ (S ++ ("0000000000\x7d".toList ++ ("\x7b2:I".toList ++
        ("202".toList ++ (R ++ ("N\x7d".toList ++ ("\x7b3:\x7b121:".toList ++
        (u ++ ("\x7d\x7d".toList ++ "\x7b4:".toList)))))))))) ++
      linesFlat [] ('\n' :: (":20:".toList ++ (M ++
        ('\n' :: (":32A:".toList ++ (d ++ (C ++
          (pyReplace (".".toList) (",".toList) A ++
        ('\n' :: (":58A:/".toList ++ (R ++
        ('\n' :: "-\x7d".toList)))))))))))) := by
    unfold mtWirePre mtB4_202
    rw [show ("\x7b4:\n:20:".toList : Str) =
        "\x7b4:".toList ++ '\n' :: ":20:".toList from by decide]
    rw [show ("\n:32A:".toList : Str) = '\n' :: ":32A:".toList from by decide]
    rw [show ("\n:58A:/".toList : Str) = '\n' :: ":58A:/".toList from by decide]
    rw [show ("\n-\x7d".toList : Str) = '\n' :: "-\x7d".toList from by decide]
    simp [linesFlat, List.append_assoc]
  rw [heq]
  apply extract_tag_hit
  · intro x
    exact matchAtTag_colon_ne (by decide) _
  · apply allb_ne_nl
    simp only [List.all_append, Bool.and_eq_true]
    refine ⟨by decide, safeAll_nlb (upperDigit_safe_all hSud), by decide, by decide,
      by decide, safeAll_nlb (upperDigit_safe_all hRud), by decide, by decide,
      safeAll_nlb hu, by decide, by decide⟩
  · intro l hl
    simp at hl
  · exact tokenAll_nlcr hMtok
  · exact tagLookahead_32A _

/-- `extract_tag ":32A:"` on the generated MT202 wire. -/
theorem wire202_tag32A {M A C R d u : Str}
    (hMtok : M.all mtTokenChar = true)
    (hAtok : A.all mtTokenChar = true)
    (hCup : C.all isUpperAZ = true)
    (hdd : d.all isDigit09 = true)
    (hSud : S.all isUpperDigit = true) (hRud : R.all isUpperDigit = true)
    (hu : u.all mtSafeChar = true) :
    extract_tag (":32A:".toList)
      (mtWirePre S ("202".toList) R u (mtB4_202 M A C R d)) =
      some (pyStrip (d ++ (C ++ pyReplace (".".toList) (",".toList) A))) := by
  have heq : mtWirePre S ("202".toList) R u (mtB4_202 M A C R d) =
      ("\x7b1:F01".toList ++ (S ++ ("0000000000\x7d".toList ++ ("\x7b2:I".toList ++
        ("202".toList ++ (R ++ ("N\x7d".toList ++ ("\x7b3:\x7b121:".toList ++
        (u ++ ("\x7d\x7d".toList ++ "\x7b4:".toList)))))))))) ++
      linesFlat [":20:".toList ++ M]
        ('\n' :: (":32A:".toList ++ ((d ++ (C ++
          pyReplace (".".toList) (",".toList) A)) ++
        ('\n' :: (":58A:/".toList ++ (R ++
        ('\n' :: "-\x7d".toList))))))) := by
    unfold mtWirePre mtB4_202
    rw [show ("\x7b4:\n:20:".toList : Str) =
        "\x7b4:".toList ++ '\n' :: ":20:".toList from by decide]
    rw [show ("\n:32A:".toList : Str) = '\n' :: ":32A:".toList from by decide]
    rw [show ("\n:58A:/".toList : Str) = '\n' :: ":58A:/".toList from by decide]
    rw [show ("\n-\x7d".toList : Str) = '\n' :: "-\x7d".toList from by decide]
    simp [linesFlat, List.append_assoc]
  rw [heq]
  apply extract_tag_hit
  · intro x
    exact matchAtTag_colon_ne (by decide) _
  · apply allb_ne_nl
    simp only [List.all_append, Bool.and_eq_true]
    refine ⟨by decide, safeAll_nlb (upperDigit_safe_all hSud), by decide, by decide,
      by decide, safeAll_nlb (upperDigit_safe_all hRud), by decide, by decide,
      safeAll_nlb hu, by decide, by decide⟩
  · intro l hl
    rw [List.mem_singleton] at hl
    subst hl
    constructor
    · apply allb_ne_nl
      simp only [List.all_append, Bool.and_eq_true]
      exact ⟨by decide, safeAll_nlb (token_safe_all hMtok)⟩
    · intro x
      rw [List.append_assoc]
      rfl
  · apply forall_mem_append2
    · exact tokenAll_nlcr (digitsAll_token hdd)
    · apply forall_mem_append2
      · exact tokenAll_nlcr (upperAZAll_token hCup)
      · exact wireValAll_nlcr (amtWire_all hAtok)
  · exact tagLookahead_58A _

end OpenPurse
namespace OpenPurse

theorem digitsAll_upper {s : Str} (h : s.all isDigit09 = true) :
    s.all isUpperDigit = true := by
  rw [List.all_eq_true] at h ⊢
  intro c hc
  simp [isUpperDigit, h c hc]

end OpenPurse
namespace OpenPurse

/-- `extract_tag ":20:"` on the generated MT900/MT910 wire. -/
theorem wire90x_tag20 {M A C S d u T : Str}
    (hMtok : M.all mtTokenChar = true)
    (hSud : S.all isUpperDigit = true) (hRud : R.all isUpperDigit = true)
    (hTd : T.all isDigit09 = true)
    (hu : u.all mtSafeChar = true) :
    extract_tag (":20:".toList)
      (mtWirePre S T R u (mtB4_90x M A C S d)) =
      some (pyStrip M) := by
  have heq : mtWirePre S T R u (mtB4_90x M A C S d) =
      ("\x7b1:F01".toList ++ (S ++ ("0000000000\x7d".toList ++ ("\x7b2:I".toList ++
        (T ++ (R ++ ("N\x7d".toList ++ ("\x7b3:\x7b121:".toList ++
        (u ++ ("\x7d\x7d".toList ++ "\x7b4:".toList)))))))))) ++
      linesFlat [] ('\n' :: (":20:".toList ++ (M ++
        ('\n' :: (":52A:/".toList ++ (S ++
        ('\n' :: ("N/A".toList ++
        ('\n' :: (":32A:".toList ++ (d ++ (C ++
          (pyReplace (".".toList) (",".toList) A ++
        ('\n' :: "-\x7d".toList)))))))))))))) := by
    unfold mtWirePre mtB4_90x
    rw [show ("\x7b4:\n:20:".toList : Str) =
        "\x7b4:".toList ++ '\n' :: ":20:".toList from by decide]
    rw [show ("\n:52A:/".toList : Str) = '\n' :: ":52A:/".toList from by decide]
    rw [show ("\n:32A:".toList : Str) = '\n' :: ":32A:".toList from by decide]
    rw [show ("\n-\x7d".toList : Str) = '\n' :: "-\x7d".toList from by decide]
    rw [show ("\n".toList : Str) = ['\n'] from by decide]
    simp [linesFlat, List.append_assoc]
  rw [heq]
  apply extract_tag_hit
  · intro x
    exact matchAtTag_colon_ne (by decide) _
  · apply allb_ne_nl
    simp only [List.all_append, Bool.and_eq_true]
    refine ⟨by decide, safeAll_nlb (upperDigit_safe_all hSud), by decide, by decide,
      safeAll_nlb (upperDigit_safe_all (digitsAll_upper hTd)),
      safeAll_nlb (upperDigit_safe_all hRud), by decide, by decide,
      safeAll_nlb hu, by decide, by decide⟩
  · intro l hl
    simp at hl
  · exact tokenAll_nlcr hMtok
  · exact tagLookahead_52A _

/-- `extract_tag ":32A:"` on the generated MT900/MT910 wire. -/
theorem wire90x_tag32A {M A C S d u T : Str}
    (hMtok : M.all mtTokenChar = true)
    (hAtok : A.all mtTokenChar = true)
    (hCup : C.all isUpperAZ = true)
    (hdd : d.all isDigit09 = true)
    (hSud : S.all isUpperDigit = true) (hRud : R.all isUpperDigit = true)
    (hTd : T.all isDigit09 = true)
    (hu : u.all mtSafeChar = true) :
    extract_tag (":32A:".toList)
      (mtWirePre S T R u (mtB4_90x M A C S d)) =
      some (pyStrip (d ++ (C ++ pyReplace (".".toList) (",".toList) A))) := by
  have heq : mtWirePre S T R u (mtB4_90x M A C S d) =
      ("\x7b1:F01".toList ++ (S ++ ("0000000000\x7d".toList ++ ("\x7b2:I".toList ++
        (T ++ (R ++ ("N\x7d".toList ++ ("\x7b3:\x7b121:".toList ++
        (u ++ ("\x7d\x7d".toList ++ "\x7b4:".toList)))))))))) ++
      linesFlat [":20:".toList ++ M, ":52A:/".toList ++ S, "N/A".toList]
        ('\n' :: (":32A:".toList ++ ((d ++ (C ++
          pyReplace (".".toList) (",".toList) A)) ++
        ('\n' :: "-\x7d".toList)))) := by
    unfold mtWirePre mtB4_90x
    rw [show ("\x7b4:\n:20:".toList : Str) =
        "\x7b4:".toList ++ '\n' :: ":20:".toList from by decide]
    rw [show ("\n:52A:/".toList : Str) = '\n' :: ":52A:/".toList from by decide]
    rw [show ("\n:32A:".toList : Str) = '\n' :: ":32A:".toList from by decide]
    rw [show ("\n-\x7d".toList : Str) = '\n' :: "-\x7d".toList from by decide]
    rw [show ("\n".toList : Str) = ['\n'] from by decide]
    simp [linesFlat, List.append_assoc]
  rw [heq]
  apply extract_tag_hit
  · intro x
    exact matchAtTag_colon_ne (by decide) _
  · apply allb_ne_nl
    simp only [List.all_append, Bool.and_eq_true]
    refine ⟨by decide, safeAll_nlb (upperDigit_safe_all hSud), by decide, by decide,
      safeAll_nlb (upperDigit_safe_all (digitsAll_upper hTd)),
      safeAll_nlb (upperDigit_safe_all hRud), by decide, by decide,
      safeAll_nlb hu, by decide, by decide⟩
  · intro l hl
    rcases List.mem_cons.mp hl with hl | hl
    · subst hl
      constructor
      · apply allb_ne_nl
        simp only [List.all_append, Bool.and_eq_true]
        exact ⟨by decide, safeAll_nlb (token_safe_all hMtok)⟩
      · intro x
        rw [List.append_assoc]
        rfl
    rcases List.mem_cons.mp hl with hl | hl
    · subst hl
      constructor
      · apply allb_ne_nl
        simp only [List.all_append, Bool.and_eq_true]
        exact ⟨by decide, safeAll_nlb (upperDigit_safe_all hSud)⟩
      · intro x
        rw [List.append_assoc]
        rfl
    rw [List.mem_singleton] at hl
    subst hl
    exact ⟨by decide, fun x => rfl⟩
  · apply forall_mem_append2
    · exact tokenAll_nlcr (digitsAll_token hdd)
    · apply forall_mem_append2
      · exact tokenAll_nlcr (upperAZAll_token hCup)
      · exact wireValAll_nlcr (amtWire_all hAtok)
  · exact tagLookahead_dash

end OpenPurse
namespace OpenPurse

/-- `extract_tag ":20:"` on the generated MT101 wire. -/
theorem wire101_tag20 {M A C S R d u : Str}
    (hMtok : M.all mtTokenChar = true)
    (hSud : S.all isUpperDigit = true) (hRud : R.all isUpperDigit = true)
    (hu : u.all mtSafeChar = true) :
    extract_tag (":20:".toList)
      (mtWirePre S ("101".toList) R u (mtB4_101 M A C S R d)) =
      some (pyStrip M) := by
  have heq : mtWirePre S ("101".toList) R u (mtB4_101 M A C S R d) =
      ("\x7b1:F01".toList ++ (S ++ ("0000000000\x7d".toList ++ ("\x7b2:I".toList ++
        ("101".toList ++ (R ++ ("N\x7d".toList ++ ("\x7b3:\x7b121:".toList ++
        (u ++ ("\x7d\x7d".toList ++ "\x7b4:".toList)))))))))) ++
      linesFlat [] ('\n' :: (":20:".toList ++ (M ++
        ('\n' :: (":50H:/".toList ++ (S ++
        ('\n' :: ("N/A".toList ++
        ('\n' :: (":30:".toList ++ (d ++
        ('\n' :: ((":21:".toList ++ "NONREF".toList) ++
        ('\n' :: (":32B:".toList ++ (C ++
          (pyReplace (".".toList) (",".toList) A ++
        ('\n' :: (":59:/".toList ++ (R ++
        ('\n' :: ("N/A".toList ++
        ('\n' :: "-\x7d".toList))))))))))))))))))))))) := by
    unfold mtWirePre mtB4_101
    rw [show ("\x7b4:\n:20:".toList : Str) =
        "\x7b4:".toList ++ '\n' :: ":20:".toList from by decide]
    rw [show ("\n:50H:/".toList : Str) = '\n' :: ":50H:/".toList from by decide]
    rw [show ("\n:30:".toList : Str) = '\n' :: ":30:".toList from by decide]
    rw [show ("\n:32B:".toList : Str) = '\n' :: ":32B:".toList from by decide]
    rw [show ("\n:59:/".toList : Str) = '\n' :: ":59:/".toList from by decide]
    rw [show ("\n".toList : Str) = ['\n'] from by decide]
    simp [linesFlat, List.append_assoc]
  rw [heq]
  apply extract_tag_hit
  · intro x
    exact matchAtTag_colon_ne (by decide) _
  · apply allb_ne_nl
    simp only [List.all_append, Bool.and_eq_true]
    refine ⟨by decide, safeAll_nlb (upperDigit_safe_all hSud), by decide, by decide,
      by decide, safeAll_nlb (upperDigit_safe_all hRud), by decide, by decide,
      safeAll_nlb hu, by decide, by decide⟩
  · intro l hl
    simp at hl
  · exact tokenAll_nlcr hMtok
  · exact tagLookahead_50H _

/-- `extract_tag ":32B:"` on the generated MT101 wire. -/
theorem wire101_tag32B {M A C S R d u : Str}
    (hMtok : M.all mtTokenChar = true)
    (hAtok : A.all mtTokenChar = true)
    (hCup : C.all isUpperAZ = true)
    (hdd : d.all isDigit09 = true)
    (hSud : S.all isUpperDigit = true) (hRud : R.all isUpperDigit = true)
    (hu : u.all mtSafeChar = true) :
    extract_tag (":32B:".toList)
      (mtWirePre S ("101".toList) R u (mtB4_101 M A C S R d)) =
      some (pyStrip (C ++ pyReplace (".".toList) (",".toList) A)) := by
  have heq : mtWirePre S ("101".toList) R u (mtB4_101 M A C S R d) =
      ("\x7b1:F01".toList ++ (S ++ ("0000000000\x7d".toList ++ ("\x7b2:I".toList ++
        ("101".toList ++ (R ++ ("N\x7d".toList ++ ("\x7b3:\x7b121:".toList ++
        (u ++ ("\x7d\x7d".toList ++ "\x7b4:".toList)))))))))) ++
      linesFlat [":20:".toList ++ M, ":50H:/".toList ++ S, "N/A".toList,
          ":30:".toList ++ d, ":21:".toList ++ "NONREF".toList]
        ('\n' :: (":32B:".toList ++ ((C ++
          pyReplace (".".toList) (",".toList) A) ++
        ('\n' :: (":59:/".toList ++ (R ++
        ('\n' :: ("N/A".toList ++
        ('\n' :: "-\x7d".toList))))))))) := by
    unfold mtWirePre mtB4_101
    rw [show ("\x7b4:\n:20:".toList : Str) =
        "\x7b4:".toList ++ '\n' :: ":20:".toList from by decide]
    rw [show ("\n:50H:/".toList : Str) = '\n' :: ":50H:/".toList from by decide]
    rw [show ("\n:30:".toList : Str) = '\n' :: ":30:".toList from by decide]
    rw [show ("\n:32B:".toList : Str) = '\n' :: ":32B:".toList from by decide]
    rw [show ("\n:59:/".toList : Str) = '\n' :: ":59:/".toList from by decide]
    rw [show ("\n".toList : Str) = ['\n'] from by decide]
    simp [linesFlat, List.append_assoc]
  rw [heq]
  apply extract_tag_hit
  · intro x
    exact matchAtTag_colon_ne (by decide) _
  · apply allb_ne_nl
    simp only [List.all_append, Bool.and_eq_true]
    refine ⟨by decide, safeAll_nlb (upperDigit_safe_all hSud), by decide, by decide,
      by decide, safeAll_nlb (upperDigit_safe_all hRud), by decide, by decide,
      safeAll_nlb hu, by decide, by decide⟩
  · intro l hl
    rcases List.mem_cons.mp hl with hl | hl
    · subst hl
      constructor
      · apply allb_ne_nl
        simp only [List.all_append, Bool.and_eq_true]
        exact ⟨by decide, safeAll_nlb (token_safe_all hMtok)⟩
      · intro x
        rw [List.append_assoc]
        rfl
    rcases List.mem_cons.mp hl with hl | hl
    · subst hl
      constructor
      · apply allb_ne_nl
        simp only [List.all_append, Bool.and_eq_true]
        exact ⟨by decide, safeAll_nlb (upperDigit_safe_all hSud)⟩
      · intro x
        rw [List.append_assoc]
        rfl
    rcases List.mem_cons.mp hl with hl | hl
    · subst hl
      exact ⟨by decide, fun x => rfl⟩
    rcases List.mem_cons.mp hl with hl | hl
    · subst hl
      constructor
      · apply allb_ne_nl
        simp only [List.all_append, Bool.and_eq_true]
        exact ⟨by decide, safeAll_nlb (token_safe_all (digitsAll_token hdd))⟩
      · intro x
        rw [List.append_assoc]
        rfl
    rw [List.mem_singleton] at hl
    subst hl
    constructor
    · exact (by decide)
    · intro x
      rw [List.append_assoc]
      rfl
  · apply forall_mem_append2
    · exact tokenAll_nlcr (upperAZAll_token hCup)
    · exact wireValAll_nlcr (amtWire_all hAtok)
  · exact tagLookahead_59 _

end OpenPurse
namespace OpenPurse

/-- Parsing the generated MT202 wire recovers the claim fields. -/
theorem parse202_fields {M A C S R d u : Str}
    (hMtok : M.all mtTokenChar = true)
    (hAtok : A.all mtTokenChar = true)
    (hClen : C.length = 3) (hCup : C.all isUpperAZ = true)
    (hS12 : S.length = 12) (hSud : S.all isUpperDigit = true)
    (hR12 : R.length = 12) (hRud : R.all isUpperDigit = true)
    (hd6 : d.length = 6) (hdd : d.all isDigit09 = true)
    (hu : u.all mtSafeChar = true) :
    (parse_mt (mtWirePre S ("202".toList) R u (mtB4_202 M A C R d))).message_id
        = some M ∧
    (parse_mt (mtWirePre S ("202".toList) R u (mtB4_202 M A C R d))).amount
        = some A ∧
    (parse_mt (mtWirePre S ("202".toList) R u (mtB4_202 M A C R d))).currency
        = some C ∧
    (parse_mt (mtWirePre S ("202".toList) R u (mtB4_202 M A C R d))).sender_bic
        = some S ∧
    (parse_mt (mtWirePre S ("202".toList) R u (mtB4_202 M A C R d))).receiver_bic
        = some R := by
  have hsend : mtSender (mtWirePre S ("202".toList) R u (mtB4_202 M A C R d)) =
      some S := mtSender_eval hSud hS12
  have htr : mtTypeReceiver (mtWirePre S ("202".toList) R u (mtB4_202 M A C R d)) =
      (some ("202".toList), some R) :=
    mtTypeReceiver_eval hSud (by decide) (by decide) hR12 hRud
  have h20 := @wire202_tag20 S M A C R d u hMtok hSud hRud hu
  have h32 := @wire202_tag32A S M A C R d u hMtok hAtok hCup hdd hSud hRud hu
  rw [mtToken_strip hMtok] at h20
  have hVall : (d ++ (C ++ pyReplace (".".toList) (",".toList) A)).all
      wireValChar = true := by
    simp only [List.all_append, Bool.and_eq_true]
    refine ⟨?_, ?_, amtWire_all hAtok⟩
    · rw [List.all_eq_true]
      intro c hc
      have := (List.all_eq_true.mp (digitsAll_token hdd)) c hc
      simp [wireValChar, this]
    · rw [List.all_eq_true]
      intro c hc
      have := (List.all_eq_true.mp (upperAZAll_token hCup)) c hc
      simp [wireValChar, this]
  rw [wireVal_strip hVall] at h32
  have hdrop9 : (d ++ (C ++ pyReplace (".".toList) (",".toList) A)).drop 9 =
      pyReplace (".".toList) (",".toList) A := by
    rw [drop_ge_append (by omega), hd6]
    rw [drop_ge_append (by omega), hClen]
    rfl
  have hdrop6 : (d ++ (C ++ pyReplace (".".toList) (",".toList) A)).drop 6 =
      C ++ pyReplace (".".toList) (",".toList) A := by
    rw [drop_ge_append (by omega), hd6]
    rfl
  have htake3 : (C ++ pyReplace (".".toList) (",".toList) A).take 3 = C := by
    rw [← hClen, List.take_append_of_le_length (Nat.le_refl _), List.take_length]
  have hlen9 : 9 ≤ (d ++ (C ++ pyReplace (".".toList) (",".toList) A)).length := by
    simp only [List.length_append]
    omega
  rw [parse_mt_else htr (by decide) (by decide) (by decide) (by decide)]
  refine ⟨h20, ?_, ?_, hsend, rfl⟩
  · show (match extract_tag (":32A:".toList)
        (mtWirePre S ("202".toList) R u (mtB4_202 M A C R d)) with
      | some t => if 9 ≤ t.length then
          some (pyReplace (",".toList) (".".toList) (t.drop 9))
        else none
      | none => none) = some A
    rw [h32]
    show (if 9 ≤ (d ++ (C ++ pyReplace (".".toList) (",".toList) A)).length then
        some (pyReplace (",".toList) (".".toList)
          ((d ++ (C ++ pyReplace (".".toList) (",".toList) A)).drop 9))
      else none) = some A
    rw [if_pos hlen9, hdrop9, replace_dot_comma_inv hAtok]
  · show (match extract_tag (":32A:".toList)
        (mtWirePre S ("202".toList) R u (mtB4_202 M A C R d)) with
      | some t => if 9 ≤ t.length then some ((t.drop 6).take 3) else none
      | none => none) = some C
    rw [h32]
    show (if 9 ≤ (d ++ (C ++ pyReplace (".".toList) (",".toList) A)).length then
        some (((d ++ (C ++ pyReplace (".".toList) (",".toList) A)).drop 6).take 3)
      else none) = some C
    rw [if_pos hlen9, hdrop6, htake3]

/-- Parsing the generated MT900/MT910 wire recovers the claim fields. -/
theorem parse90x_fields {M A C S R d u T : Str}
    (hT : T = "900".toList ∨ T = "910".toList)
    (hMtok : M.all mtTokenChar = true)
    (hAtok : A.all mtTokenChar = true)
    (hClen : C.length = 3) (hCup : C.all isUpperAZ = true)
    (hS12 : S.length = 12) (hSud : S.all isUpperDigit = true)
    (hR12 : R.length = 12) (hRud : R.all isUpperDigit = true)
    (hd6 : d.length = 6) (hdd : d.all isDigit09 = true)
    (hu : u.all mtSafeChar = true) :
    (parse_mt (mtWirePre S T R u (mtB4_90x M A C S d))).message_id
        = some M ∧
    (parse_mt (mtWirePre S T R u (mtB4_90x M A C S d))).amount
        = some A ∧
    (parse_mt (mtWirePre S T R u (mtB4_90x M A C S d))).currency
        = some C ∧
    (parse_mt (mtWirePre S T R u (mtB4_90x M A C S d))).sender_bic
        = some S ∧
    (parse_mt (mtWirePre S T R u (mtB4_90x M A C S d))).receiver_bic
        = some R := by
  have hTd : T.all isDigit09 = true := by
    rcases hT with h | h <;> subst h <;> decide
  have hT3 : T.length = 3 := by
    rcases hT with h | h <;> subst h <;> decide
  have hsend : mtSender (mtWirePre S T R u (mtB4_90x M A C S d)) =
      some S := mtSender_eval hSud hS12
  have htr : mtTypeReceiver (mtWirePre S T R u (mtB4_90x M A C S d)) =
      (some T, some R) :=
    mtTypeReceiver_eval hSud hT3 hTd hR12 hRud
  have h20 := @wire90x_tag20 R M A C S d u T hMtok hSud hRud hTd hu
  have h32 := @wire90x_tag32A R M A C S d u T hMtok hAtok hCup hdd hSud hRud hTd hu
  rw [mtToken_strip hMtok] at h20
  have hVall : (d ++ (C ++ pyReplace (".".toList) (",".toList) A)).all
      wireValChar = true := by
    simp only [List.all_append, Bool.and_eq_true]
    refine ⟨?_, ?_, amtWire_all hAtok⟩
    · rw [List.all_eq_true]
      intro c hc
      have := (List.all_eq_true.mp (digitsAll_token hdd)) c hc
      simp [wireValChar, this]
    · rw [List.all_eq_true]
      intro c hc
      have := (List.all_eq_true.mp (upperAZAll_token hCup)) c hc
      simp [wireValChar, this]
  rw [wireVal_strip hVall] at h32
  have hdrop9 : (d ++ (C ++ pyReplace (".".toList) (",".toList) A)).drop 9 =
      pyReplace (".".toList) (",".toList) A := by
    rw [drop_ge_append (by omega), hd6]
    rw [drop_ge_append (by omega), hClen]
    rfl
  have hdrop6 : (d ++ (C ++ pyReplace (".".toList) (",".toList) A)).drop 6 =
      C ++ pyReplace (".".toList) (",".toList) A := by
    rw [drop_ge_append (by omega), hd6]
    rfl
  have htake3 : (C ++ pyReplace (".".toList) (",".toList) A).take 3 = C := by
    rw [← hClen, List.take_append_of_le_length (Nat.le_refl _), List.take_length]
  have hlen9 : 9 ≤ (d ++ (C ++ pyReplace (".".toList) (",".toList) A)).length := by
    simp only [List.length_append]
    omega
  have hT101 : T ≠ "101".toList := by
    rcases hT with h | h <;> subst h <;> decide
  have hT940 : T ≠ "940".toList := by
    rcases hT with h | h <;> subst h <;> decide
  have hT942 : T ≠ "942".toList := by
    rcases hT with h | h <;> subst h <;> decide
  have hT950 : T ≠ "950".toList := by
    rcases hT with h | h <;> subst h <;> decide
  rw [parse_mt_else htr hT101 hT940 hT942 hT950]
  refine ⟨h20, ?_, ?_, hsend, rfl⟩
  · show (match extract_tag (":32A:".toList)
        (mtWirePre S T R u (mtB4_90x M A C S d)) with
      | some t => if 9 ≤ t.length then
          some (pyReplace (",".toList) (".".toList) (t.drop 9))
        else none
      | none => none) = some A
    rw [h32]
    show (if 9 ≤ (d ++ (C ++ pyReplace (".".toList) (",".toList) A)).length then
        some (pyReplace (",".toList) (".".toList)
          ((d ++ (C ++ pyReplace (".".toList) (",".toList) A)).drop 9))
      else none) = some A
    rw [if_pos hlen9, hdrop9, replace_dot_comma_inv hAtok]
  · show (match extract_tag (":32A:".toList)
        (mtWirePre S T R u (mtB4_90x M A C S d)) with
      | some t => if 9 ≤ t.length then some ((t.drop 6).take 3) else none
      | none => none) = some C
    rw [h32]
    show (if 9 ≤ (d ++ (C ++ pyReplace (".".toList) (",".toList) A)).length then
        some (((d ++ (C ++ pyReplace (".".toList) (",".toList) A)).drop 6).take 3)
      else none) = some C
    rw [if_pos hlen9, hdrop6, htake3]

/-- Parsing the generated MT101 wire recovers the claim fields. -/
theorem parse101_fields {M A C S R d u : Str}
    (hMtok : M.all mtTokenChar = true)
    (hAtok : A.all mtTokenChar = true)
    (hClen : C.length = 3) (hCup : C.all isUpperAZ = true)
    (hS12 : S.length = 12) (hSud : S.all isUpperDigit = true)
    (hR12 : R.length = 12) (hRud : R.all isUpperDigit = true)
    (hdd : d.all isDigit09 = true)
    (hu : u.all mtSafeChar = true) :
    (parse_mt (mtWirePre S ("101".toList) R u (mtB4_101 M A C S R d))).message_id
        = some M ∧
    (parse_mt (mtWirePre S ("101".toList) R u (mtB4_101 M A C S R d))).amount
        = some A ∧
    (parse_mt (mtWirePre S ("101".toList) R u (mtB4_101 M A C S R d))).currency
        = some C ∧
    (parse_mt (mtWirePre S ("101".toList) R u (mtB4_101 M A C S R d))).sender_bic
        = some S ∧
    (parse_mt (mtWirePre S ("101".toList) R u (mtB4_101 M A C S R d))).receiver_bic
        = some R := by
  have hsend : mtSender (mtWirePre S ("101".toList) R u (mtB4_101 M A C S R d)) =
      some S := mtSender_eval hSud hS12
  have htr : mtTypeReceiver
      (mtWirePre S ("101".toList) R u (mtB4_101 M A C S R d)) =
      (some ("101".toList), some R) :=
    mtTypeReceiver_eval hSud (by decide) (by decide) hR12 hRud
  have h20 := @wire101_tag20 M A C S R d u hMtok hSud hRud hu
  have h32 := @wire101_tag32B M A C S R d u hMtok hAtok hCup hdd hSud hRud hu
  rw [mtToken_strip hMtok] at h20
  have hVall : (C ++ pyReplace (".".toList) (",".toList) A).all
      wireValChar = true := by
    simp only [List.all_append, Bool.and_eq_true]
    refine ⟨?_, amtWire_all hAtok⟩
    rw [List.all_eq_true]
    intro c hc
    have := (List.all_eq_true.mp (upperAZAll_token hCup)) c hc
    simp [wireValChar, this]
  rw [wireVal_strip hVall] at h32
  have htake3 : (C ++ pyReplace (".".toList) (",".toList) A).take 3 = C := by
    rw [← hClen, List.take_append_of_le_length (Nat.le_refl _), List.take_length]
  have hdrop3 : (C ++ pyReplace (".".toList) (",".toList) A).drop 3 =
      pyReplace (".".toList) (",".toList) A := by
    rw [drop_ge_append (by omega), hClen]
    rfl
  have hlen3 : 3 ≤ (C ++ pyReplace (".".toList) (",".toList) A).length := by
    simp only [List.length_append]
    omega
  obtain ⟨f1, f2, f3, f4, f5, _⟩ := parse_mt_101_fields htr
  refine ⟨?_, ?_, ?_, ?_, ?_⟩
  · rw [f1, h20]
  · rw [f3, h32]
    show (if 3 ≤ (C ++ pyReplace (".".toList) (",".toList) A).length then
        some (pyReplace (",".toList) (".".toList)
          ((C ++ pyReplace (".".toList) (",".toList) A).drop 3))
      else none) = some A
    rw [if_pos hlen3, hdrop3, replace_dot_comma_inv hAtok]
  · rw [f2, h32]
    show (if 3 ≤ (C ++ pyReplace (".".toList) (",".toList) A).length then
        some ((C ++ pyReplace (".".toList) (",".toList) A).take 3)
      else none) = some C
    rw [if_pos hlen3, htake3]
  · rw [f4, hsend]
  · rw [f5]

end OpenPurse
namespace OpenPurse

/-- A concrete record with non-empty message-id, amount, currency and
BICs, used to exhibit the failure of full round-trip preservation. -/
def c1Rec : Message :=
  { kind := .base
    message_id := some ("REF1".toList)
    amount := some ("100.50".toList)
    currency := some ("USD".toList)
    sender_bic := some ("BANKUS33".toList)
    receiver_bic := some ("BANKDE55".toList) }

/-- C1 (counterexample): translating a record with a non-empty amount
to the supported target MT940 and re-parsing loses the amount
entirely (the statement branch of `_parse_mt` never sets `amount`),
refuting round-trip preservation for every supported target. -/
theorem C1_counterexample :
    (match Translator.to_mt c1Rec ("940".toList) ("231024".toList)
        ("UUID0".toList) with
     | Except.ok w => (parse_mt w).amount
     | Except.error _ => some []) = none ∧
    c1Rec.amount = some ("100.50".toList) := by
  constructor
  · decide
  · rfl

end OpenPurse
namespace OpenPurse

/-- Shared round-trip core for the MT targets, used by the C1 and C2
theorems. -/
theorem mtRoundtripCore {m : Message} {M A C SB RB : Str} {t d u : Str}
    (hclean : mtCleanBase m M A C SB RB)
    (ht : t = "101".toList ∨ t = "103".toList ∨ t = "202".toList ∨
      t = "900".toList ∨ t = "910".toList)
    (hd6 : d.length = 6) (hdd : d.all isDigit09 = true)
    (hu : u.all mtSafeChar = true) :
    ∃ w, Translator.to_mt m t d u = Except.ok w ∧
      (parse_mt w).message_id = some M ∧
      (parse_mt w).amount = some A ∧
      (parse_mt w).currency = some C ∧
      (parse_mt w).sender_bic = some ((pyLjust SB 12 'X').take 12) ∧
      (parse_mt w).receiver_bic = some ((pyLjust RB 12 'X').take 12) := by
  have h' := hclean
  obtain ⟨hM, hMne, hMtok, hA, hAtok, hAdot, hC, hClen, hCup,
    hSB, hSBne, hSBud, hRB, hRBne, hRBud, hU, hE2E, hDeb, hCred, hIP, hPI⟩ := h'
  have hS12 : ((pyLjust SB 12 'X').take 12).length = 12 := pad12_len SB
  have hSud : ((pyLjust SB 12 'X').take 12).all isUpperDigit = true :=
    pad12_upperDigit hSBud
  have hR12 : ((pyLjust RB 12 'X').take 12).length = 12 := pad12_len RB
  have hRud : ((pyLjust RB 12 'X').take 12).all isUpperDigit = true :=
    pad12_upperDigit hRBud
  rcases ht with ht | ht | ht | ht | ht <;> subst ht
  · exact ⟨_, to_mt_101_wire hclean d u,
      parse101_fields hMtok hAtok hClen hCup hS12 hSud hR12 hRud hdd hu⟩
  · exact ⟨_, to_mt_103_wire hclean d u,
      parse103_fields hMtok hAtok hClen hCup hS12 hSud hR12 hRud hd6 hdd hu⟩
  · exact ⟨_, to_mt_202_wire hclean d u,
      parse202_fields hMtok hAtok hClen hCup hS12 hSud hR12 hRud hd6 hdd hu⟩
  · exact ⟨_, to_mt_90x_wire hclean d u (Or.inl rfl),
      parse90x_fields (Or.inl rfl) hMtok hAtok hClen hCup hS12 hSud hR12 hRud
        hd6 hdd hu⟩
  · exact ⟨_, to_mt_90x_wire hclean d u (Or.inr rfl),
      parse90x_fields (Or.inr rfl) hMtok hAtok hClen hCup hS12 hSud hR12 hRud
        hd6 hdd hu⟩


/-- C1 (amended): for every Typed Record whose message-id, amount
(containing a decimal point), currency and BICs are present and
token-shaped, and whose free-text fields are absent, translating to
any MT target in {101, 103, 202, 900, 910} and re-parsing the
produced bytes yields the same message_id, the same amount string and
the same currency; the parsed sender and receiver BICs are the
originals `ljust`-padded with `X` to exactly 12 characters (so they
equal the originals only when those are already 12 characters long).
For the statement targets 940/942/950 the amount is not preserved
(see the counterexample), and re-parsing generated ISO 20022 XML is
outside the `_parse_mt` scope formalised here. -/
theorem C1_mt_roundtrip {m : Message} {M A C SB RB : Str} {t d u : Str}
    (hclean : mtCleanBase m M A C SB RB)
    (ht : t = "101".toList ∨ t = "103".toList ∨ t = "202".toList ∨
      t = "900".toList ∨ t = "910".toList)
    (hd6 : d.length = 6) (hdd : d.all isDigit09 = true)
    (hu : u.all mtSafeChar = true) :
    ∃ w, Translator.to_mt m t d u = Except.ok w ∧
      (parse_mt w).message_id = some M ∧
      (parse_mt w).amount = some A ∧
      (parse_mt w).currency = some C ∧
      (parse_mt w).sender_bic = some ((pyLjust SB 12 'X').take 12) ∧
      (parse_mt w).receiver_bic = some ((pyLjust RB 12 'X').take 12) :=
  mtRoundtripCore hclean ht hd6 hdd hu

/-- Witness: the amended C1 theorem applied to a concrete record and
target MT103. -/
theorem C1_mt_roundtrip_witness :
    ∃ w, Translator.to_mt c1Rec ("103".toList) ("231024".toList)
        ("UUID0".toList) = Except.ok w ∧
      (parse_mt w).message_id = some ("REF1".toList) ∧
      (parse_mt w).amount = some ("100.50".toList) ∧
      (parse_mt w).currency = some ("USD".toList) ∧
      (parse_mt w).sender_bic =
        some ((pyLjust ("BANKUS33".toList) 12 'X').take 12) ∧
      (parse_mt w).receiver_bic =
        some ((pyLjust ("BANKDE55".toList) 12 'X').take 12) :=
  C1_mt_roundtrip (by unfold mtCleanBase; decide)
    (Or.inr (Or.inl rfl)) (by decide) (by decide) (by decide)

end OpenPurse
namespace OpenPurse
namespace Builder

/-- The value attached to one keyword argument of
`MessageBuilder.build` (Python performs no runtime type check; only
type-correct assignments are representable in the typed embedding). -/
inductive KwVal where
  | s (v : Option Str)
  | i (v : Option Int)
  | dl (v : Option (List Dict))
  | pml (v : Option (List PmDict))
  | addr (v : Option PostalAddress)

/-- `MessageBuilder._SCHEMA_MAP.get(schema, PaymentMessage)`. -/
def schemaMapKind (schema : Str) : MsgKind :=
  if schema = "pacs.008".toList then .pacs008
  else if schema = "camt.054".toList then .camt054
  else if schema = "camt.004".toList then .camt004
  else if schema = "camt.052".toList then .camt052
  else if schema = "camt.053".toList then .camt053
  else if schema = "pain.001".toList then .pain001
  else if schema = "pain.008".toList then .pain008
  else if schema = "pain.002".toList then .pain002
  else .base

/-- `{f.name for f in fields(target_class)}` per dataclass of
`models.py` (the base `PaymentMessage` fields, plus each subclass's
own fields). -/
def baseFieldNames : List Str :=
  [("message_id".toList : Str),
   ("end_to_end_id".toList : Str),
   ("amount".toList : Str),
   ("currency".toList : Str),
   ("sender_bic".toList : Str),
   ("receiver_bic".toList : Str),
   ("debtor_name".toList : Str),
   ("creditor_name".toList : Str),
   ("debtor_address".toList : Str),
   ("creditor_address".toList : Str),
   ("debtor_account".toList : Str),
   ("creditor_account".toList : Str),
   ("uetr".toList : Str)]

def kindFieldNames : MsgKind → List Str
  | .pacs008 => baseFieldNames ++ [("settlement_method".toList : Str),
   ("clearing_system".toList : Str),
   ("number_of_transactions".toList : Str),
   ("settlement_amount".toList : Str),
   ("settlement_currency".toList : Str),
   ("transactions".toList : Str)]
  | .camt054 => baseFieldNames ++ [("creation_date_time".toList : Str),
   ("notification_id".toList : Str),
   ("account_id".toList : Str),
   ("account_currency".toList : Str),
   ("account_owner".toList : Str),
   ("account_servicer".toList : Str),
   ("total_credit_entries".toList : Str),
   ("total_credit_amount".toList : Str),
   ("total_debit_entries".toList : Str),
   ("total_debit_amount".toList : Str),
   ("entries".toList : Str)]
  | .camt004 => baseFieldNames ++ [("creation_date_time".toList : Str),
   ("original_business_query".toList : Str),
   ("account_id".toList : Str),
   ("account_owner".toList : Str),
   ("account_servicer".toList : Str),
   ("account_status".toList : Str),
   ("account_currency".toList : Str),
   ("balances".toList : Str),
   ("limits".toList : Str),
   ("number_of_payments".toList : Str),
   ("business_errors".toList : Str)]
  | .camt052 => baseFieldNames ++ [("creation_date_time".toList : Str),
   ("report_id".toList : Str),
   ("account_id".toList : Str),
   ("account_currency".toList : Str),
   ("account_owner".toList : Str),
   ("account_servicer".toList : Str),
   ("total_credit_entries".toList : Str),
   ("total_credit_amount".toList : Str),
   ("total_debit_entries".toList : Str),
   ("total_debit_amount".toList : Str),
   ("entries".toList : Str)]
  | .camt053 => baseFieldNames ++ [("creation_date_time".toList : Str),
   ("statement_id".toList : Str),
   ("account_id".toList : Str),
   ("account_currency".toList : Str),
   ("account_owner".toList : Str),
   ("account_servicer".toList : Str),
   ("balances".toList : Str),
   ("total_credit_entries".toList : Str),
   ("total_credit_amount".toList : Str),
   ("total_debit_entries".toList : Str),
   ("total_debit_amount".toList : Str),
   ("entries".toList : Str)]
  | .pain001 => baseFieldNames ++ [("creation_date_time".toList : Str),
   ("number_of_transactions".toList : Str),
   ("control_sum".toList : Str),
   ("initiating_party".toList : Str),
   ("payment_information".toList : Str)]
  | .pain008 => baseFieldNames ++ [("creation_date_time".toList : Str),
   ("number_of_transactions".toList : Str),
   ("control_sum".toList : Str),
   ("initiating_party".toList : Str),
   ("payment_information".toList : Str)]
  | .pain002 => baseFieldNames ++ [("creation_date_time".toList : Str),
   ("initiating_party".toList : Str),
   ("original_message_id".toList : Str),
   ("original_message_name_id".toList : Str),
   ("group_status".toList : Str),
   ("transactions_status".toList : Str)]
  | _ => baseFieldNames

/-- Assign one filtered keyword argument to its dataclass field. -/
def setMsgField (m : Message) (name : Str) (v : KwVal) : Message :=
  if name = "message_id".toList then
    (match v with | .s x => { m with message_id := x } | _ => m)
  else if name = "end_to_end_id".toList then
    (match v with | .s x => { m with end_to_end_id := x } | _ => m)
  else if name = "amount".toList then
    (match v with | .s x => { m with amount := x } | _ => m)
  else if name = "currency".toList then
    (match v with | .s x => { m with currency := x } | _ => m)
  else if name = "sender_bic".toList then
    (match v with | .s x => { m with sender_bic := x } | _ => m)
  else if name = "receiver_bic".toList then
    (match v with | .s x => { m with receiver_bic := x } | _ => m)
  else if name = "debtor_name".toList then
    (match v with | .s x => { m with debtor_name := x } | _ => m)
  else if name = "creditor_name".toList then
    (match v with | .s x => { m with creditor_name := x } | _ => m)
  else if name = "debtor_address".toList then
    (match v with | .addr x => { m with debtor_address := x } | _ => m)
  else if name = "creditor_address".toList then
    (match v with | .addr x => { m with creditor_address := x } | _ => m)
  else if name = "debtor_account".toList then
    (match v with | .s x => { m with debtor_account := x } | _ => m)
  else if name = "creditor_account".toList then
    (match v with | .s x => { m with creditor_account := x } | _ => m)
  else if name = "uetr".toList then
    (match v with | .s x => { m with uetr := x } | _ => m)
  else if name = "creation_date_time".toList then
    (match v with | .s x => { m with creation_date_time := x } | _ => m)
  else if name = "notification_id".toList then
    (match v with | .s x => { m with notification_id := x } | _ => m)
  else if name = "account_id".toList then
    (match v with | .s x => { m with account_id := x } | _ => m)
  else if name = "account_currency".toList then
    (match v with | .s x => { m with account_currency := x } | _ => m)
  else if name = "account_owner".toList then
    (match v with | .s x => { m with account_owner := x } | _ => m)
  else if name = "account_servicer".toList then
    (match v with | .s x => { m with account_servicer := x } | _ => m)
  else if name = "total_credit_entries".toList then
    (match v with | .i x => { m with total_credit_entries := x } | _ => m)
  else if name = "total_credit_amount".toList then
    (match v with | .s x => { m with total_credit_amount := x } | _ => m)
  else if name = "total_debit_entries".toList then
    (match v with | .i x => { m with total_debit_entries := x } | _ => m)
  else if name = "total_debit_amount".toList then
    (match v with | .s x => { m with total_debit_amount := x } | _ => m)
  else if name = "entries".toList then
    (match v with | .dl x => { m with entries := x } | _ => m)
  else if name = "settlement_method".toList then
    (match v with | .s x => { m with settlement_method := x } | _ => m)
  else if name = "clearing_system".toList then
    (match v with | .s x => { m with clearing_system := x } | _ => m)
  else if name = "number_of_transactions".toList then
    (match v with | .i x => { m with number_of_transactions := x } | _ => m)
  else if name = "settlement_amount".toList then
    (match v with | .s x => { m with settlement_amount := x } | _ => m)
  else if name = "settlement_currency".toList then
    (match v with | .s x => { m with settlement_currency := x } | _ => m)
  else if name = "transactions".toList then
    (match v with | .dl x => { m with transactions := x } | _ => m)
  else if name = "original_business_query".toList then
    (match v with | .s x => { m with original_business_query := x } | _ => m)
  else if name = "account_status".toList then
    (match v with | .s x => { m with account_status := x } | _ => m)
  else if name = "balances".toList then
    (match v with | .dl x => { m with balances := x } | _ => m)
  else if name = "limits".toList then
    (match v with | .dl x => { m with limits := x } | _ => m)
  else if name = "number_of_payments".toList then
    (match v with | .s x => { m with number_of_payments := x } | _ => m)
  else if name = "business_errors".toList then
    (match v with | .dl x => { m with business_errors := x } | _ => m)
  else if name = "report_id".toList then
    (match v with | .s x => { m with report_id := x } | _ => m)
  else if name = "statement_id".toList then
    (match v with | .s x => { m with statement_id := x } | _ => m)
  else if name = "control_sum".toList then
    (match v with | .s x => { m with control_sum := x } | _ => m)
  else if name = "initiating_party".toList then
    (match v with | .s x => { m with initiating_party := x } | _ => m)
  else if name = "payment_information".toList then
    (match v with | .pml x => { m with payment_information := x } | _ => m)
  else if name = "original_message_id".toList then
    (match v with | .s x => { m with original_message_id := x } | _ => m)
  else if name = "original_message_name_id".toList then
    (match v with | .s x => { m with original_message_name_id := x } | _ => m)
  else if name = "group_status".toList then
    (match v with | .s x => { m with group_status := x } | _ => m)
  else if name = "transactions_status".toList then
    (match v with | .dl x => { m with transactions_status := x } | _ => m)
  else m

/-- `MessageBuilder.build(schema, **kwargs)`: resolve the target
dataclass from the schema map, discard keyword arguments naming no
field of that dataclass, and construct the instance. -/
def build (schema : Str) (kwargs : List (Str × KwVal)) : Message :=
  let k := schemaMapKind schema
  ((kwargs.filter (fun p => (kindFieldNames k).contains p.1)).foldl
    (fun m p => setMsgField m p.1 p.2) { kind := k })

end Builder
end OpenPurse
namespace OpenPurse

/-- C2 (counterexample): an amount with ten fractional digits built
through `MessageBuilder.build` and rendered to the supported target
MT940 does not re-parse byte-identically — the statement branch drops
the amount entirely. -/
theorem C2_counterexample :
    (match Translator.to_mt
        (Builder.build ("camt.053".toList)
          [(("message_id".toList : Str), Builder.KwVal.s (some ("REF9".toList))),
           (("amount".toList : Str), Builder.KwVal.s (some ("1.0123456789".toList))),
           (("currency".toList : Str), Builder.KwVal.s (some ("USD".toList)))])
        ("940".toList) ("231024".toList) ("UUID0".toList) with
     | Except.ok w => (parse_mt w).amount
     | Except.error _ => some []) = none ∧
    (Builder.build ("camt.053".toList)
      [(("message_id".toList : Str), Builder.KwVal.s (some ("REF9".toList))),
       (("amount".toList : Str), Builder.KwVal.s (some ("1.0123456789".toList))),
       (("currency".toList : Str), Builder.KwVal.s (some ("USD".toList)))]).amount
      = some ("1.0123456789".toList) := by
  constructor
  · decide
  · decide

/-- C2 (amended): an amount string of token shape containing a
decimal point — in particular any amount with ten or more fractional
digits — built into a record via `MessageBuilder.build` and rendered
with the Translator to an MT target in {101, 103, 202, 900, 910}
re-parses byte-identically: the pipeline performs only string
rewriting (`.`↔`,`), never a floating-point conversion.  (The
supported targets exercising `float()` — camt.054 — and the statement
targets 940/942/950 are excluded: the former rounds through float
formatting, the latter drop the amount.) -/
theorem C2_decimal_precision {M A C SB RB t d u : Str}
    (hMne : M ≠ []) (hMtok : M.all mtTokenChar = true)
    (hAtok : A.all mtTokenChar = true)
    (hAdot : containsSub (".".toList) A = true)
    (hClen : C.length = 3) (hCup : C.all isUpperAZ = true)
    (hSBne : SB ≠ []) (hSBud : SB.all isUpperDigit = true)
    (hRBne : RB ≠ []) (hRBud : RB.all isUpperDigit = true)
    (ht : t = "101".toList ∨ t = "103".toList ∨ t = "202".toList ∨
      t = "900".toList ∨ t = "910".toList)
    (hd6 : d.length = 6) (hdd : d.all isDigit09 = true)
    (hu : u.all mtSafeChar = true) :
    ∃ w, Translator.to_mt
        (Builder.build ("pain.001".toList)
          [(("message_id".toList : Str), Builder.KwVal.s (some M)),
           (("amount".toList : Str), Builder.KwVal.s (some A)),
           (("currency".toList : Str), Builder.KwVal.s (some C)),
           (("sender_bic".toList : Str), Builder.KwVal.s (some SB)),
           (("receiver_bic".toList : Str), Builder.KwVal.s (some RB))])
        t d u = Except.ok w ∧
      (parse_mt w).amount = some A := by
  have hb : Builder.build ("pain.001".toList)
      [(("message_id".toList : Str), Builder.KwVal.s (some M)),
       (("amount".toList : Str), Builder.KwVal.s (some A)),
       (("currency".toList : Str), Builder.KwVal.s (some C)),
       (("sender_bic".toList : Str), Builder.KwVal.s (some SB)),
       (("receiver_bic".toList : Str), Builder.KwVal.s (some RB))] =
      { kind := .pain001
        message_id := some M
        amount := some A
        currency := some C
        sender_bic := some SB
        receiver_bic := some RB } := rfl
  have hclean : mtCleanBase
      (Builder.build ("pain.001".toList)
        [(("message_id".toList : Str), Builder.KwVal.s (some M)),
         (("amount".toList : Str), Builder.KwVal.s (some A)),
         (("currency".toList : Str), Builder.KwVal.s (some C)),
         (("sender_bic".toList : Str), Builder.KwVal.s (some SB)),
         (("receiver_bic".toList : Str), Builder.KwVal.s (some RB))])
      M A C SB RB := by
    rw [hb]
    exact ⟨rfl, hMne, hMtok, rfl, hAtok, hAdot, rfl, hClen, hCup,
      rfl, hSBne, hSBud, rfl, hRBne, hRBud, rfl, rfl, rfl, rfl, rfl, rfl⟩
  obtain ⟨w, hw, _, ham, _⟩ := mtRoundtripCore hclean ht hd6 hdd hu
  exact ⟨w, hw, ham⟩

/-- Witness: the amended C2 theorem at a ten-fractional-digit amount
and target MT103. -/
theorem C2_decimal_precision_witness :
    ∃ w, Translator.to_mt
        (Builder.build ("pain.001".toList)
          [(("message_id".toList : Str), Builder.KwVal.s (some ("REF9".toList))),
           (("amount".toList : Str),
             Builder.KwVal.s (some ("1.0123456789".toList))),
           (("currency".toList : Str), Builder.KwVal.s (some ("USD".toList))),
           (("sender_bic".toList : Str),
             Builder.KwVal.s (some ("BANKUS33".toList))),
           (("receiver_bic".toList : Str),
             Builder.KwVal.s (some ("BANKDE55".toList)))])
        ("103".toList) ("231024".toList) ("UUID0".toList) = Except.ok w ∧
      (parse_mt w).amount = some ("1.0123456789".toList) :=
  C2_decimal_precision (by decide) (by decide) (by decide) (by decide)
    (by decide) (by decide) (by decide) (by decide) (by decide) (by decide)
    (Or.inr (Or.inl rfl)) (by decide) (by decide) (by decide)

end OpenPurse
namespace OpenPurse

theorem pyReplace_single_id {p : Char} (rep : Str) {s : Str}
    (h : ∀ c ∈ s, c ≠ p) : pyReplace [p] rep s = s := by
  induction s with
  | nil => rfl
  | cons c rest ih =>
    rw [pyReplace_single_miss _ _ (h c (by simp))]
    rw [ih (fun c2 hc2 => h c2 (by simp [hc2]))]

/-- `\{4:(.*?)-}` body capture: everything before the first `-}`. -/
theorem b4Capture_eval {body rest : Str} (h : ∀ c ∈ body, c ≠ '\x7d') :
    b4Capture (body ++ '-' :: '\x7d' :: rest) = some body := by
  induction body with
  | nil => rfl
  | cons c b ih =>
    have ihb := ih (fun c2 hc2 => h c2 (by simp [hc2]))
    cases b with
    | nil =>
      by_cases hc : c = '-'
      · subst hc
        rfl
      · show b4Capture (c :: '-' :: '\x7d' :: rest) = some [c]
        unfold b4Capture
        split
        · rename_i heq
          exact absurd heq (by simp)
        · rename_i heq
          injection heq with h1 h2
          exact absurd h1 hc
        · rename_i c' rest' heq
          injection heq with h1 h2
          subst h1
          subst h2
          rfl
    | cons x xs =>
      have hx : x ≠ '\x7d' := h x (by simp)
      show b4Capture (c :: (x :: (xs ++ '-' :: '\x7d' :: rest))) = some (c :: x :: xs)
      unfold b4Capture
      split
      · rename_i heq
        exact absurd heq (by simp)
      · rename_i heq
        injection heq with h1 h2
        injection h2 with h3 _
        exact absurd h3 hx
      · rename_i c' rest' heq
        injection heq with h1 h2
        subst h1
        subst h2
        show (b4Capture ((x :: xs) ++ '-' :: '\x7d' :: rest)).map
          (fun v => c :: v) = some (c :: x :: xs)
        rw [ihb]
        rfl

theorem entryLookahead_false_of_head {c : Char} {r : Str} (h : c ≠ '\n') :
    entryLookahead (c :: r) = false := by
  unfold entryLookahead
  rw [Bool.or_eq_false_iff]
  constructor
  · split
    · rename_i a b rest heq
      exact absurd (by injection heq) h
    · rfl
  · split
    · rename_i rest heq
      exact absurd (by injection heq) h
    · rfl

theorem entryCapture_eval {v rest : Str}
    (hv : ∀ c ∈ v, c ≠ '\n') (hr : entryLookahead rest = true) :
    entryCapture (v ++ rest) = some (v, rest) := by
  induction v with
  | nil =>
    cases rest with
    | nil => simp [entryLookahead] at hr
    | cons c r =>
      show entryCapture (c :: r) = some ([], c :: r)
      unfold entryCapture
      rw [if_pos hr]
  | cons c v' ih =>
    rw [List.cons_append]
    show (if entryLookahead (c :: (v' ++ rest)) then some ([], c :: (v' ++ rest))
          else (entryCapture (v' ++ rest)).map (fun p => (c :: p.1, p.2))) =
      some (c :: v', rest)
    rw [entryLookahead_false_of_head (hv c (by simp))]
    rw [if_neg (by simp)]
    rw [ih (fun c2 hc2 => hv c2 (by simp [hc2]))]
    rfl

end OpenPurse
namespace OpenPurse

/-- The tag-pair pattern at a two-digit tag with a non-empty value
containing neither `\n` nor `:`. -/
theorem matchAtEntryTag_2digit {a b : Char} {v rest : Str}
    (ha : isDigit09 a = true) (hb : isDigit09 b = true)
    (hv : ∀ c ∈ v, c ≠ '\n' ∧ c ≠ ':') (hvne : v ≠ [])
    (hr : entryLookahead rest = true) :
    matchAtEntryTag ('\n' :: ':' :: a :: b :: ':' :: (v ++ rest)) =
      some ([a, b], v, rest) := by
  obtain ⟨vc, vr, hvc⟩ : ∃ c r, v = c :: r := by
    cases v with
    | nil => exact absurd rfl hvne
    | cons c r => exact ⟨c, r, rfl⟩
  subst hvc
  show (if isDigit09 a && isDigit09 b then
      (match (':' :: (vc :: vr ++ rest) : Str) with
       | c :: ':' :: r2 =>
         if isUpperAZ c then entryTagVal [a, b, c] r2
         else if c = ':' then entryTagVal [a, b] (':' :: r2)
         else none
       | ':' :: r2 => entryTagVal [a, b] r2
       | _ => none)
    else none) = some ([a, b], vc :: vr, rest)
  rw [ha, hb]
  rw [if_pos (by simp)]
  split
  · rename_i c2 r2 heq
    injection heq with h1 h2
    injection h2 with h3 _
    exact absurd h3 (hv vc (by simp)).2
  · rename_i r2 heq
    injection heq with h1 h2
    subst h2
    unfold entryTagVal
    rw [show (vc :: vr ++ rest : Str) = (vc :: vr) ++ rest from by simp]
    rw [entryCapture_eval (fun c hc => (hv c hc).1) hr]
    rfl
  · rename_i hno1 hno2
    exact (hno2 (vc :: vr ++ rest) rfl).elim

end OpenPurse
namespace OpenPurse
theorem entryLookahead_2digit {a b : Char} (ha : isDigit09 a = true)
    (hb : isDigit09 b = true) (x : Str) :
    entryLookahead ('\n' :: ':' :: a :: b :: ':' :: x) = true := by
  unfold entryLookahead
  split
  · rename_i a2 b2 rest2 heq
    injection heq with h1 h2
    injection h2 with h3 h4
    injection h4 with h5 h6
    injection h6 with h7 h8
    subst h5
    subst h7
    subst h8
    rw [ha, hb]
    simp only [Bool.true_and]
    split <;> rfl
  · rename_i hno
    exact (hno a b (':' :: x) rfl).elim
end OpenPurse
namespace OpenPurse

theorem wireValChar_ne_colon {c : Char} (h : wireValChar c = true) : c ≠ ':' := by
  have hb := wireValChar_bounds h
  intro hc
  rw [hc] at hb
  revert hb
  decide

theorem wireValAll_nlcolon {s : Str} (h : s.all wireValChar = true) :
    ∀ c ∈ s, c ≠ '\n' ∧ c ≠ ':' := by
  rw [List.all_eq_true] at h
  intro c hc
  exact ⟨(wireValChar_ne (h c hc)).1, wireValChar_ne_colon (h c hc)⟩

/-- The tag-pair scan of the C8 Block-4 body: a `:20:` line, a first
`:61:` entry, one `:86:` remittance, and a second `:61:` entry. -/
theorem findAllTags_c8 {v1 w v2 : Str}
    (hv1 : v1.all wireValChar = true) (hv1ne : v1 ≠ [])
    (hw : w.all wireValChar = true) (hwne : w ≠ [])
    (hv2 : v2.all wireValChar = true) (hv2ne : v2 ≠ []) :
    findAllTags ('\n' :: ':' :: '2' :: '0' :: ':' :: ("REF1".toList ++
      ('\n' :: ':' :: '6' :: '1' :: ':' :: (v1 ++
      ('\n' :: ':' :: '8' :: '6' :: ':' :: (w ++
      ('\n' :: ':' :: '6' :: '1' :: ':' :: (v2 ++
      ('\n' :: '-' :: '\x7d' :: []))))))))) =
    [("20".toList, "REF1".toList), ("61".toList, v1),
     ("86".toList, w), ("61".toList, v2)] := by
  rw [findAllTags_cons]
  rw [matchAtEntryTag_2digit (by decide) (by decide)
    (by decide) (by decide) (entryLookahead_2digit (by decide) (by decide) _)]
  show (['2', '0'], "REF1".toList) ::
      findAllTags ('\n' :: ':' :: '6' :: '1' :: ':' :: (v1 ++
        ('\n' :: ':' :: '8' :: '6' :: ':' :: (w ++
        ('\n' :: ':' :: '6' :: '1' :: ':' :: (v2 ++
        ('\n' :: '-' :: '\x7d' :: []))))))) = _
  rw [findAllTags_cons]
  rw [matchAtEntryTag_2digit (by decide) (by decide)
    (wireValAll_nlcolon hv1) hv1ne (entryLookahead_2digit (by decide) (by decide) _)]
  show (['2', '0'], "REF1".toList) :: (['6', '1'], v1) ::
      findAllTags ('\n' :: ':' :: '8' :: '6' :: ':' :: (w ++
        ('\n' :: ':' :: '6' :: '1' :: ':' :: (v2 ++
        ('\n' :: '-' :: '\x7d' :: []))))) = _
  rw [findAllTags_cons]
  rw [matchAtEntryTag_2digit (by decide) (by decide)
    (wireValAll_nlcolon hw) hwne (entryLookahead_2digit (by decide) (by decide) _)]
  show (['2', '0'], "REF1".toList) :: (['6', '1'], v1) :: (['8', '6'], w) ::
      findAllTags ('\n' :: ':' :: '6' :: '1' :: ':' :: (v2 ++
        ('\n' :: '-' :: '\x7d' :: []))) = _
  rw [findAllTags_cons]
  rw [matchAtEntryTag_2digit (by decide) (by decide)
    (wireValAll_nlcolon hv2) hv2ne (by decide)]
  show (['2', '0'], "REF1".toList) :: (['6', '1'], v1) :: (['8', '6'], w) ::
      (['6', '1'], v2) :: findAllTags ('\n' :: '-' :: '\x7d' :: []) = _
  rw [show findAllTags ('\n' :: '-' :: '\x7d' :: []) = [] from by decide]
  rfl

end OpenPurse
namespace OpenPurse

/-- `re.search` of the Block-4 pattern over a generated wire whose
Block 4 starts at `\{4:`. -/
theorem reSearch_b4_wire {S T R u body : Str} {cap : Str}
    (hS : S.all isUpperDigit = true) (hT : T.all isUpperDigit = true)
    (hR : R.all isUpperDigit = true) (hu : u.all mtSafeChar = true)
    (hbody : b4Capture body = some cap) :
    reSearch matchAtB4 (mtWirePre S T R u ("\x7b4:".toList ++ body)) = some cap := by
  have heq : mtWirePre S T R u ("\x7b4:".toList ++ body) =
      '\x7b' :: ("1:F01".toList ++ (S ++ ("0000000000\x7d".toList ++
      ('\x7b' :: ("2:I".toList ++ (T ++ (R ++ ("N\x7d".toList ++
      ('\x7b' :: ("3:".toList ++ ('\x7b' :: ("121:".toList ++ (u ++
      ("\x7d\x7d".toList ++ ('\x7b' :: ("4:".toList ++ body)))))))))))))))) := by
    unfold mtWirePre
    rw [show ("\x7b1:F01".toList : Str) = '\x7b' :: "1:F01".toList from by decide]
    rw [show ("\x7b2:I".toList : Str) = '\x7b' :: "2:I".toList from by decide]
    rw [show ("\x7b3:\x7b121:".toList : Str) =
      '\x7b' :: ("3:".toList ++ '\x7b' :: "121:".toList) from by decide]
    rw [show ("\x7b4:".toList : Str) = '\x7b' :: "4:".toList from by decide]
    simp [List.append_assoc]
  rw [heq]
  rw [reSearch_cons_none matchAtB4 (by rfl)]
  rw [reSearch_skip matchAtB4 (fun c r h => matchAtB4_ne h) _ (by decide)]
  rw [reSearch_skip matchAtB4 (fun c r h => matchAtB4_ne h) _
    (fun c hc => upperDigit_ne_brace (List.all_eq_true.mp hS c hc))]
  rw [reSearch_skip matchAtB4 (fun c r h => matchAtB4_ne h) _ (by decide)]
  rw [reSearch_cons_none matchAtB4 (by rfl)]
  rw [reSearch_skip matchAtB4 (fun c r h => matchAtB4_ne h) _ (by decide)]
  rw [reSearch_skip matchAtB4 (fun c r h => matchAtB4_ne h) _
    (fun c hc => upperDigit_ne_brace (List.all_eq_true.mp hT c hc))]
  rw [reSearch_skip matchAtB4 (fun c r h => matchAtB4_ne h) _
    (fun c hc => upperDigit_ne_brace (List.all_eq_true.mp hR c hc))]
  rw [reSearch_skip matchAtB4 (fun c r h => matchAtB4_ne h) _ (by decide)]
  rw [reSearch_cons_none matchAtB4 (by rfl)]
  rw [reSearch_skip matchAtB4 (fun c r h => matchAtB4_ne h) _ (by decide)]
  rw [reSearch_cons_none matchAtB4 (by rfl)]
  rw [reSearch_skip matchAtB4 (fun c r h => matchAtB4_ne h) _ (by decide)]
  rw [reSearch_skip matchAtB4 (fun c r h => matchAtB4_ne h) _
    (safeAll_ne_brace hu)]
  rw [reSearch_skip matchAtB4 (fun c r h => matchAtB4_ne h) _ (by decide)]
  apply reSearch_cons_some
  show b4Capture body = some cap
  exact hbody

end OpenPurse
namespace OpenPurse

/-- `strip()` of a Block-4 capture of the form `\n core \n` whose core
starts and ends with non-space characters. -/
theorem pyStrip_nl_wrap {core : Str} {c e : Char} {r init : Str}
    (hcr : core = c :: r) (hc : isPySpace c = false)
    (hie : core = init ++ [e]) (he : isPySpace e = false) :
    pyStrip ('\n' :: (core ++ ['\n'])) = core := by
  unfold pyStrip
  have h1 : ('\n' :: (core ++ ['\n'])).dropWhile isPySpace = core ++ ['\n'] := by
    rw [List.dropWhile_cons_of_pos (by decide)]
    rw [hcr, List.cons_append]
    rw [List.dropWhile_cons_of_neg (by simp [hc])]
  rw [h1]
  have h2 : (core ++ ['\n']).reverse = '\n' :: core.reverse := by
    simp
  rw [h2]
  rw [List.dropWhile_cons_of_pos (by decide)]
  have h3 : core.reverse = e :: init.reverse := by
    rw [hie]
    simp
  rw [h3]
  rw [List.dropWhile_cons_of_neg (by simp [he])]
  rw [← h3]
  simp

theorem wireValChar_not_space_all {s : Str} (h : s.all wireValChar = true) :
    ∀ c ∈ s, isPySpace c = false := by
  rw [List.all_eq_true] at h
  exact fun c hc => wireValChar_not_space (h c hc)

/-- The `:61:`/`:86:` grouping loop on the C8 tag-pair list. -/
theorem entriesLoop_c8 {v1 w v2 : Str}
    (hv1 : v1.all wireValChar = true)
    (hw : w.all wireValChar = true)
    (hv2 : v2.all wireValChar = true) :
    entriesLoop [("20".toList, "REF1".toList), ("61".toList, v1),
      ("86".toList, w), ("61".toList, v2)] none =
    [dictSet (parse61Val v1) ("remittance".toList) (DVal.s (some w)),
     parse61Val v2] := by
  have hs1 : pyStrip v1 = v1 := wireVal_strip hv1
  have hsw : pyStrip w = w := wireVal_strip hw
  have hs2 : pyStrip v2 = v2 := wireVal_strip hv2
  have hrepl : pyReplace ("\n".toList) (" ".toList) w = w := by
    rw [show ("\n".toList : Str) = ['\n'] from by decide]
    exact pyReplace_single_id _ (fun c hc =>
      (wireValChar_ne (List.all_eq_true.mp hw c hc)).1)
  simp only [entriesLoop, reduceIte, hs1, hsw, hs2, hrepl]
  rw [if_neg (show ¬ (("20".toList : Str) = "61".toList) from by decide)]
  rw [if_neg (show ¬ (("20".toList : Str) = "86".toList) from by decide)]
  rw [if_neg (show ¬ (("86".toList : Str) = "61".toList) from by decide)]

/-- `parse61Val` never produces a `remittance` key. -/
theorem parse61Val_no_remittance (v : Str) :
    dictGet (parse61Val v) ("remittance".toList) = none := by
  unfold parse61Val
  split
  · rfl
  · rfl

/-- The remittance attached by `dictSet` to a `parse61Val` entry is
retrievable. -/
theorem dictSet_remittance_get (v : Str) (x : DVal) :
    dictGet (dictSet (parse61Val v) ("remittance".toList) x)
      ("remittance".toList) = some x := by
  unfold parse61Val
  split
  · rfl
  · rfl

end OpenPurse
namespace OpenPurse

/-- `_parse_mt` on statement types 940/942/950: the parsed record's
`entries` field is the scanned entry list. -/
theorem parse_mt_94x_entries {text T R : Str}
    (htr : mtTypeReceiver text = (some T, some R))
    (hT : T = "940".toList ∨ T = "942".toList ∨ T = "950".toList) :
    (parse_mt text).entries = some (scanEntries text) := by
  rcases hT with h | h | h <;> subst h
  · unfold parse_mt
    rw [htr]
    have c1 : ¬ ((some ("940".toList), some R).1 = some ("101".toList)) := by simp
    rw [if_neg c1]
    have c2 : (decide ((some ("940".toList), some R).1 = some ("940".toList)) ||
        decide ((some ("940".toList), some R).1 = some ("942".toList)) ||
        decide ((some ("940".toList), some R).1 = some ("950".toList))) = true := by
      simp
    rw [if_pos c2]
    have c3 : ¬ ((some ("940".toList), some R).1 = some ("942".toList)) := by simp
    rw [if_neg c3]
  · unfold parse_mt
    rw [htr]
    have c1 : ¬ ((some ("942".toList), some R).1 = some ("101".toList)) := by simp
    rw [if_neg c1]
    have c2 : (decide ((some ("942".toList), some R).1 = some ("940".toList)) ||
        decide ((some ("942".toList), some R).1 = some ("942".toList)) ||
        decide ((some ("942".toList), some R).1 = some ("950".toList))) = true := by
      simp
    rw [if_pos c2]
    have c3 : ((some ("942".toList), some R).1 = some ("942".toList)) := rfl
    rw [if_pos c3]
  · unfold parse_mt
    rw [htr]
    have c1 : ¬ ((some ("950".toList), some R).1 = some ("101".toList)) := by simp
    rw [if_neg c1]
    have c2 : (decide ((some ("950".toList), some R).1 = some ("940".toList)) ||
        decide ((some ("950".toList), some R).1 = some ("942".toList)) ||
        decide ((some ("950".toList), some R).1 = some ("950".toList))) = true := by
      simp
    rw [if_pos c2]
    have c3 : ¬ ((some ("950".toList), some R).1 = some ("942".toList)) := by simp
    rw [if_neg c3]

theorem wireValChar_ne_rbrace {c : Char} (h : wireValChar c = true) : c ≠ '\x7d' := by
  have hb := wireValChar_bounds h
  intro hc
  rw [hc] at hb
  revert hb
  decide

theorem allb_ne_rbrace {s : Str} (h : s.all (fun c => !(c == '\x7d')) = true) :
    ∀ c ∈ s, c ≠ '\x7d' := by
  rw [List.all_eq_true] at h
  intro c hc
  simpa using h c hc

theorem wireVal_rbraceb {s : Str} (h : s.all wireValChar = true) :
    s.all (fun c => !(c == '\x7d')) = true := by
  rw [List.all_eq_true] at h ⊢
  intro c hc
  simpa using wireValChar_ne_rbrace (h c hc)

end OpenPurse
namespace OpenPurse

/-- C8: parsing an MT940/942/950 wire whose Block 4 holds a `:20:`
line, two `:61:` entries and one `:86:` between them yields exactly
two entries, with the remittance attached only to the first. -/
theorem C8_statement_grouping {S T R u v1 w v2 : Str}
    (hT : T = "940".toList ∨ T = "942".toList ∨ T = "950".toList)
    (_hS12 : S.length = 12) (hSud : S.all isUpperDigit = true)
    (hR12 : R.length = 12) (hRud : R.all isUpperDigit = true)
    (hu : u.all mtSafeChar = true)
    (hv1 : v1.all wireValChar = true) (hv1ne : v1 ≠ [])
    (hw : w.all wireValChar = true) (hwne : w ≠ [])
    (hv2 : v2.all wireValChar = true) (hv2ne : v2 ≠ []) :
    (parse_mt (mtWirePre S T R u ("\x7b4:".toList ++
        ('\n' :: ((":20:REF1\n:61:".toList ++ (v1 ++ ("\n:86:".toList ++ (w ++
          ("\n:61:".toList ++ v2))))) ++ "\n-\x7d".toList))))).entries =
      some [dictSet (parse61Val v1) ("remittance".toList) (DVal.s (some w)),
        parse61Val v2] ∧
    dictGet (dictSet (parse61Val v1) ("remittance".toList) (DVal.s (some w)))
      ("remittance".toList) = some (DVal.s (some w)) ∧
    dictGet (parse61Val v2) ("remittance".toList) = none := by
  have hTd : T.all isDigit09 = true := by
    rcases hT with h | h | h <;> subst h <;> decide
  have hT3 : T.length = 3 := by
    rcases hT with h | h | h <;> subst h <;> decide
  have hTud : T.all isUpperDigit = true := digitsAll_upper hTd
  have htr : mtTypeReceiver (mtWirePre S T R u ("\x7b4:".toList ++
      ('\n' :: ((":20:REF1\n:61:".toList ++ (v1 ++ ("\n:86:".toList ++ (w ++
        ("\n:61:".toList ++ v2))))) ++ "\n-\x7d".toList)))) = (some T, some R) :=
    mtTypeReceiver_eval hSud hT3 hTd hR12 hRud
  obtain ⟨i2, e2, hv2split⟩ :
      ∃ L b, v2 = L ++ [b] := by
    rcases List.eq_nil_or_concat v2 with h | h
    · exact absurd h hv2ne
    · obtain ⟨L, b, hlb⟩ := h
      exact ⟨L, b, by simpa [List.concat_eq_append] using hlb⟩
  have he2 : e2 ∈ v2 := by
    rw [hv2split]
    simp
  have hcap : b4Capture ('\n' :: ((":20:REF1\n:61:".toList ++ (v1 ++
      ("\n:86:".toList ++ (w ++ ("\n:61:".toList ++ v2))))) ++
      "\n-\x7d".toList)) =
      some ('\n' :: ((":20:REF1\n:61:".toList ++ (v1 ++ ("\n:86:".toList ++
        (w ++ ("\n:61:".toList ++ v2))))) ++ ['\n'])) := by
    rw [show ('\n' :: ((":20:REF1\n:61:".toList ++ (v1 ++ ("\n:86:".toList ++
        (w ++ ("\n:61:".toList ++ v2))))) ++ "\n-\x7d".toList) : Str) =
      ('\n' :: ((":20:REF1\n:61:".toList ++ (v1 ++ ("\n:86:".toList ++
        (w ++ ("\n:61:".toList ++ v2))))) ++ ['\n'])) ++
        '-' :: '\x7d' :: [] from by
      rw [show ("\n-\x7d".toList : Str) = ['\n'] ++ '-' :: '\x7d' :: [] from by decide]
      simp]
    apply b4Capture_eval
    intro c hc
    rcases List.mem_cons.mp hc with h | h
    · subst h
      decide
    rcases List.mem_append.mp h with h | h
    · rcases List.mem_append.mp h with h | h
      · exact (by decide :
          ∀ c2 ∈ (":20:REF1\n:61:".toList : Str), c2 ≠ '\x7d') c h
      rcases List.mem_append.mp h with h | h
      · exact wireValChar_ne_rbrace (List.all_eq_true.mp hv1 c h)
      rcases List.mem_append.mp h with h | h
      · exact (by decide :
          ∀ c2 ∈ ("\n:86:".toList : Str), c2 ≠ '\x7d') c h
      rcases List.mem_append.mp h with h | h
      · exact wireValChar_ne_rbrace (List.all_eq_true.mp hw c h)
      rcases List.mem_append.mp h with h | h
      · exact (by decide :
          ∀ c2 ∈ ("\n:61:".toList : Str), c2 ≠ '\x7d') c h
      · exact wireValChar_ne_rbrace (List.all_eq_true.mp hv2 c h)
    · rw [List.mem_singleton] at h
      subst h
      decide
  have hsearch := @reSearch_b4_wire S T R u ('\n' :: ((":20:REF1\n:61:".toList ++
      (v1 ++ ("\n:86:".toList ++ (w ++ ("\n:61:".toList ++ v2))))) ++
      "\n-\x7d".toList)) _ hSud hTud hRud hu hcap
  have hstrip : pyStrip ('\n' :: ((":20:REF1\n:61:".toList ++ (v1 ++
      ("\n:86:".toList ++ (w ++ ("\n:61:".toList ++ v2))))) ++ ['\n'])) =
      ":20:REF1\n:61:".toList ++ (v1 ++ ("\n:86:".toList ++ (w ++
        ("\n:61:".toList ++ v2)))) := by
    apply @pyStrip_nl_wrap _ ':' e2
      ("20:REF1\n:61:".toList ++ (v1 ++ ("\n:86:".toList ++
        (w ++ ("\n:61:".toList ++ v2)))))
      (":20:REF1\n:61:".toList ++ (v1 ++ ("\n:86:".toList ++
        (w ++ ("\n:61:".toList ++ i2)))))
    · rw [show (":20:REF1\n:61:".toList : Str) =
        ':' :: "20:REF1\n:61:".toList from by decide]
      simp
    · decide
    · rw [hv2split]
      simp
    · exact wireValChar_not_space (List.all_eq_true.mp hv2 e2 he2)
  have hscan : scanEntries (mtWirePre S T R u ("\x7b4:".toList ++
      ('\n' :: ((":20:REF1\n:61:".toList ++ (v1 ++ ("\n:86:".toList ++ (w ++
        ("\n:61:".toList ++ v2))))) ++ "\n-\x7d".toList)))) =
      [dictSet (parse61Val v1) ("remittance".toList) (DVal.s (some w)),
        parse61Val v2] := by
    unfold scanEntries
    simp only [hsearch]
    rw [hstrip]
    rw [show ('\n' :: ((":20:REF1\n:61:".toList ++ (v1 ++ ("\n:86:".toList ++
        (w ++ ("\n:61:".toList ++ v2))))) ++ "\n-\x7d".toList) : Str) =
      '\n' :: ':' :: '2' :: '0' :: ':' :: ("REF1".toList ++
        ('\n' :: ':' :: '6' :: '1' :: ':' :: (v1 ++
        ('\n' :: ':' :: '8' :: '6' :: ':' :: (w ++
        ('\n' :: ':' :: '6' :: '1' :: ':' :: (v2 ++
        ('\n' :: '-' :: '\x7d' :: [])))))))) from by
      rw [show (":20:REF1\n:61:".toList : Str) =
        ':' :: '2' :: '0' :: ':' :: ("REF1".toList ++
          ['\n', ':', '6', '1', ':']) from by decide]
      rw [show ("\n:86:".toList : Str) = ['\n', ':', '8', '6', ':'] from by decide]
      rw [show ("\n:61:".toList : Str) = ['\n', ':', '6', '1', ':'] from by decide]
      rw [show ("\n-\x7d".toList : Str) = ['\n', '-', '\x7d'] from by decide]
      simp]
    rw [findAllTags_c8 hv1 hv1ne hw hwne hv2 hv2ne]
    exact entriesLoop_c8 hv1 hw hv2
  refine ⟨?_, dictSet_remittance_get v1 _, parse61Val_no_remittance v2⟩
  rw [parse_mt_94x_entries htr hT, hscan]

/-- Witness: C8 at a concrete MT940 wire. -/
theorem C8_statement_grouping_witness :
    (parse_mt (mtWirePre ("BANKUS33XXXX".toList) ("940".toList)
        ("BANKDE55XXXX".toList) ("U1".toList) ("\x7b4:".toList ++
        ('\n' :: ((":20:REF1\n:61:".toList ++ ("C123,45NTRFREF1".toList ++
          ("\n:86:".toList ++ ("PAYMENT.1".toList ++
          ("\n:61:".toList ++ "D99,NTRF".toList))))) ++
          "\n-\x7d".toList))))).entries =
      some [dictSet (parse61Val ("C123,45NTRFREF1".toList))
          ("remittance".toList) (DVal.s (some ("PAYMENT.1".toList))),
        parse61Val ("D99,NTRF".toList)] ∧
    dictGet (dictSet (parse61Val ("C123,45NTRFREF1".toList))
        ("remittance".toList) (DVal.s (some ("PAYMENT.1".toList))))
      ("remittance".toList) = some (DVal.s (some ("PAYMENT.1".toList))) ∧
    dictGet (parse61Val ("D99,NTRF".toList)) ("remittance".toList) = none :=
  C8_statement_grouping (Or.inl rfl) (by decide) (by decide) (by decide)
    (by decide) (by decide) (by decide) (by decide) (by decide) (by decide)
    (by decide) (by decide)

end OpenPurse
namespace OpenPurse
namespace Reconciler

/-- Truthiness of an optional string (`None` and `""` falsy). -/
def optTruthy (o : Option Str) : Bool :=
  match o with
  | some v => v ≠ []
  | none => false

/-- `Reconciler.is_match`, parametric over the observable behaviour of
Python `float` on amount strings: `fparse` is float parsing (`none` =
`ValueError`), `feq` exact float equality, `ffuzzy` the 1%-tolerance
comparison. -/
def is_match {F : Type} (fparse : Str → Option F) (feq ffuzzy : F → F → Bool)
    (a b : Message) (fuzzy : Bool) : Bool :=
  let id1 := optTruthy a.uetr && a.uetr == b.uetr
  let id2 := id1 || (optTruthy a.end_to_end_id && a.end_to_end_id == b.end_to_end_id)
  let id_match :=
    id2 ||
      (if a.kind == .pain002 && a.original_message_id == b.message_id then true
       else if b.kind == .pain002 && b.original_message_id == a.message_id then true
       else if a.kind == .camt056 && a.original_message_id == b.message_id then true
       else if b.kind == .camt056 && b.original_message_id == a.message_id then true
       else if (a.kind == .camt029 || a.kind == .camt056) &&
           (b.kind == .camt029 || b.kind == .camt056) &&
           a.case_id == b.case_id && a.case_id ≠ none then true
       else false)
  if !id_match then false
  else if optTruthy a.amount && optTruthy b.amount && a.currency == b.currency then
    match a.amount, b.amount with
    | some av, some bv =>
      match fparse av, fparse bv with
      | some x, some y => if fuzzy then ffuzzy x y else feq x y
      | _, _ => a.amount == b.amount
    | _, _ => a.amount == b.amount
  else true

/-- `Reconciler.find_matches` over identity-tagged records: `==` is
dataclass equality on the record values, `id()` is the tag. -/
def find_matches {F : Type} (fparse : Str → Option F) (feq ffuzzy : F → F → Bool)
    (primary : Nat × Message) (candidates : List (Nat × Message)) :
    List (Nat × Message) :=
  candidates.filter (fun c =>
    !(c.2 == primary.2) && is_match fparse feq ffuzzy primary.2 c.2 false)

/-- One BFS round of `trace_lifecycle`: append the unseen matches to
the seen-id set, the timeline, and the queue, in discovery order. -/
def traceFold (ms : List (Nat × Message))
    (acc : List Nat × List (Nat × Message) × List (Nat × Message)) :
    List Nat × List (Nat × Message) × List (Nat × Message) :=
  ms.foldl (fun acc m =>
    if acc.1.contains m.1 then acc
    else (acc.1 ++ [m.1], acc.2.1 ++ [m], acc.2.2 ++ [m])) acc

/-- The `while queue` loop of `trace_lifecycle`.  Fueled: every
iteration either stops or pops one queue element, and at most
`1 + |all_messages|` elements are ever pushed (each push records a
fresh `id`, and ids come from the seed and the candidate list), so
`|all_messages| + 1` rounds always suffice. -/
def traceF {F : Type} (fparse : Str → Option F) (feq ffuzzy : F → F → Bool)
    (all : List (Nat × Message)) :
    Nat → List (Nat × Message) → List Nat → List (Nat × Message) →
    List (Nat × Message)
  | 0, _, _, timeline => timeline
  | _ + 1, [], _, timeline => timeline
  | fuel + 1, cur :: qrest, seen, timeline =>
    let ms := find_matches fparse feq ffuzzy cur all
    let acc := traceFold ms (seen, timeline, qrest)
    traceF fparse feq ffuzzy all fuel acc.2.2 acc.1 acc.2.1

/-- `Reconciler.trace_lifecycle`. -/
def trace_lifecycle {F : Type} (fparse : Str → Option F)
    (feq ffuzzy : F → F → Bool) (seed : Nat × Message)
    (all : List (Nat × Message)) : List (Nat × Message) :=
  traceF fparse feq ffuzzy all (all.length + 1) [seed] [seed.1] [seed]

/-- The payment leg of the C9 lifecycle chain. -/
def c9Payment (u : Str) : Message :=
  { kind := .pacs008, message_id := some ("PMSG".toList), uetr := some u }

/-- The camt.056 recall leg. -/
def c9Recall (u cid : Str) : Message :=
  { kind := .camt056, message_id := some ("RMSG".toList), uetr := some u,
    case_id := some cid, original_message_id := some ("OM".toList) }

/-- The camt.029 resolution leg. -/
def c9Resolution (cid : Str) : Message :=
  { kind := .camt029, message_id := some ("SMSG".toList),
    case_id := some cid, original_message_id := some ("OM2".toList) }

end Reconciler
end OpenPurse
namespace OpenPurse

/-- C9: the three-leg lifecycle chain (payment, camt.056 recall,
camt.029 resolution) is fully traced from any starting leg, each
record appearing exactly once, with the payment and the recall a
mutually-matching pair. -/
theorem C9_lifecycle_closure {F : Type} (fp : Str → Option F)
    (feq ffz : F → F → Bool) {u cid : Str} (hu : u ≠ []) :
    Reconciler.trace_lifecycle fp feq ffz (0, Reconciler.c9Payment u)
        [(0, Reconciler.c9Payment u), (1, Reconciler.c9Recall u cid),
         (2, Reconciler.c9Resolution cid)] =
      [(0, Reconciler.c9Payment u), (1, Reconciler.c9Recall u cid),
       (2, Reconciler.c9Resolution cid)] ∧
    Reconciler.trace_lifecycle fp feq ffz (1, Reconciler.c9Recall u cid)
        [(0, Reconciler.c9Payment u), (1, Reconciler.c9Recall u cid),
         (2, Reconciler.c9Resolution cid)] =
      [(1, Reconciler.c9Recall u cid), (0, Reconciler.c9Payment u),
       (2, Reconciler.c9Resolution cid)] ∧
    Reconciler.trace_lifecycle fp feq ffz (2, Reconciler.c9Resolution cid)
        [(0, Reconciler.c9Payment u), (1, Reconciler.c9Recall u cid),
         (2, Reconciler.c9Resolution cid)] =
      [(2, Reconciler.c9Resolution cid), (1, Reconciler.c9Recall u cid),
       (0, Reconciler.c9Payment u)] ∧
    Reconciler.is_match fp feq ffz (Reconciler.c9Payment u)
      (Reconciler.c9Recall u cid) false = true ∧
    Reconciler.is_match fp feq ffz (Reconciler.c9Recall u cid)
      (Reconciler.c9Payment u) false = true := by
  refine ⟨?_, ?_, ?_, ?_, ?_⟩ <;>
    simp [Reconciler.trace_lifecycle, Reconciler.traceF, Reconciler.find_matches,
      Reconciler.traceFold, Reconciler.is_match, Reconciler.optTruthy,
      Reconciler.c9Payment, Reconciler.c9Recall, Reconciler.c9Resolution, hu]

end OpenPurse
namespace OpenPurse

/-- Witness: C9 at concrete UETR and case-id strings, with a float
semantics that always raises. -/
theorem C9_lifecycle_closure_witness :
    Reconciler.trace_lifecycle (fun _ => (none : Option Unit))
        (fun _ _ => true) (fun _ _ => true)
        (0, Reconciler.c9Payment ("U1".toList))
        [(0, Reconciler.c9Payment ("U1".toList)),
         (1, Reconciler.c9Recall ("U1".toList) ("C1".toList)),
         (2, Reconciler.c9Resolution ("C1".toList))] =
      [(0, Reconciler.c9Payment ("U1".toList)),
       (1, Reconciler.c9Recall ("U1".toList) ("C1".toList)),
       (2, Reconciler.c9Resolution ("C1".toList))] ∧
    Reconciler.trace_lifecycle (fun _ => (none : Option Unit))
        (fun _ _ => true) (fun _ _ => true)
        (1, Reconciler.c9Recall ("U1".toList) ("C1".toList))
        [(0, Reconciler.c9Payment ("U1".toList)),
         (1, Reconciler.c9Recall ("U1".toList) ("C1".toList)),
         (2, Reconciler.c9Resolution ("C1".toList))] =
      [(1, Reconciler.c9Recall ("U1".toList) ("C1".toList)),
       (0, Reconciler.c9Payment ("U1".toList)),
       (2, Reconciler.c9Resolution ("C1".toList))] ∧
    Reconciler.trace_lifecycle (fun _ => (none : Option Unit))
        (fun _ _ => true) (fun _ _ => true)
        (2, Reconciler.c9Resolution ("C1".toList))
        [(0, Reconciler.c9Payment ("U1".toList)),
         (1, Reconciler.c9Recall ("U1".toList) ("C1".toList)),
         (2, Reconciler.c9Resolution ("C1".toList))] =
      [(2, Reconciler.c9Resolution ("C1".toList)),
       (1, Reconciler.c9Recall ("U1".toList) ("C1".toList)),
       (0, Reconciler.c9Payment ("U1".toList))] ∧
    Reconciler.is_match (fun _ => (none : Option Unit))
      (fun _ _ => true) (fun _ _ => true)
      (Reconciler.c9Payment ("U1".toList))
      (Reconciler.c9Recall ("U1".toList) ("C1".toList)) false = true ∧
    Reconciler.is_match (fun _ => (none : Option Unit))
      (fun _ _ => true) (fun _ _ => true)
      (Reconciler.c9Recall ("U1".toList) ("C1".toList))
      (Reconciler.c9Payment ("U1".toList)) false = true :=
  C9_lifecycle_closure (fun _ => (none : Option Unit))
    (fun _ _ => true) (fun _ _ => true) (by decide)

end OpenPurse
namespace OpenPurse
namespace Parser

/-! ## XML embedding

`OpenPurseParser` hands non-MT payloads to `lxml.etree.fromstring`.
The library is modelled here on the document fragment the repository
exchanges: a optional `<?...?>` prologue, elements with double-quoted
attributes, character data, and nested children (text between or
after children is accepted and, like the queries below, never
observed).  Malformed input — in particular anything that does not
start with `<` after stripping, unterminated or mismatched tags, or
trailing content — yields `none`, matching the `XMLSyntaxError`
branch of `__init__`. -/

/-- A parsed XML element: tag, attributes in document order, the
character data before the first child, and the child elements. -/
inductive XNode where
  | elem (tag : Str) (attrs : List (Str × Str)) (text : Option Str)
    (children : List XNode)

def XNode.tag : XNode → Str
  | .elem t _ _ _ => t

def XNode.attrs : XNode → List (Str × Str)
  | .elem _ a _ _ => a

def XNode.text : XNode → Option Str
  | .elem _ _ t _ => t

def XNode.children : XNode → List XNode
  | .elem _ _ _ c => c

def xmlNameChar (c : Char) : Bool :=
  isUpperAZ c || isLowerAZ c || isDigit09 c ||
    c == '_' || c == '.' || c == '-' || c == ':'

def xmlWs (c : Char) : Bool :=
  c == ' ' || c == '\t' || c == '\n' || c == '\r'

/-- Attribute-list scanner: consume `name="value"` pairs up to the
`>` or `/>` that ends the open tag. -/
def readAttrsF : Nat → Str → Option (List (Str × Str) × Str)
  | 0, _ => none
  | fuel + 1, s =>
    let s1 := s.dropWhile xmlWs
    match s1 with
    | '>' :: _ => some ([], s1)
    | '/' :: '>' :: _ => some ([], s1)
    | _ =>
      let name := s1.takeWhile xmlNameChar
      if name = [] then none
      else
        match s1.drop name.length with
        | '=' :: '"' :: r2 =>
          let v := r2.takeWhile (fun c => !(c == '"'))
          match r2.drop v.length with
          | '"' :: r3 =>
            (readAttrsF fuel r3).map (fun p => ((name, v) :: p.1, p.2))
          | _ => none
        | _ => none

/-- The reader's two mutually recursive modes, merged into one
fuel-structural function so that it evaluates in the kernel. -/
inductive RTask where
  | node (s : Str)
  | kids (name : Str) (attrs : List (Str × Str)) (text : Option Str)
    (acc : List XNode) (s : Str)

def readF : Nat → RTask → Option (XNode × Str)
  | 0, _ => none
  | fuel + 1, .node s =>
    match s with
    | '<' :: r =>
      let name := r.takeWhile xmlNameChar
      if name = [] then none
      else
        match readAttrsF (fuel + 1) (r.drop name.length) with
        | none => none
        | some (attrs, r2) =>
          match r2 with
          | '/' :: '>' :: r3 => some (.elem name attrs none [], r3)
          | '>' :: r3 =>
            let txt := r3.takeWhile (fun c => !(c == '<'))
            let textOpt := if txt = [] then none else some txt
            readF fuel (.kids name attrs textOpt [] (r3.drop txt.length))
          | _ => none
    | _ => none
  | fuel + 1, .kids name attrs text acc s =>
    match s with
    | '<' :: '/' :: r =>
      let cname := r.takeWhile xmlNameChar
      if cname = name then
        match (r.drop cname.length).dropWhile xmlWs with
        | '>' :: r2 => some (.elem name attrs text acc, r2)
        | _ => none
      else none
    | '<' :: _ =>
      match readF fuel (.node s) with
      | none => none
      | some (child, r2) =>
        let tail := r2.takeWhile (fun c => !(c == '<'))
        readF fuel (.kids name attrs text (acc ++ [child]) (r2.drop tail.length))
    | _ => none

/-- `etree.fromstring` on the modelled fragment. -/
def xmlRead (s : Str) : Option XNode :=
  let s1 := s.dropWhile xmlWs
  let s2 :=
    match s1 with
    | '<' :: '?' :: r =>
      ((r.dropWhile (fun c => !(c == '>'))).drop 1).dropWhile xmlWs
    | _ => s1
  match readF (s.length + 1) (.node s2) with
  | none => none
  | some (root, rest) =>
    if rest.dropWhile xmlWs = [] then some root else none

end Parser
end OpenPurse
namespace OpenPurse
namespace Parser

/-- `tag.split("}", 1)[1]` when a `\x7d` is present: the local name of
a possibly namespace-qualified tag. -/
def localTag (t : Str) : Str :=
  if containsSub ("\x7d".toList) t then
    (t.dropWhile (fun c => !(c == '\x7d'))).drop 1
  else t

/-- A node located by its document-order path (child indexes from the
context root), used to realise XPath's document-order and node-set
semantics. -/
abbrev LNode := List Nat × XNode

/-- The located children of a located node. -/
def childrenL (ln : LNode) : List LNode :=
  (ln.2.children.enum.map (fun p => (ln.1 ++ [p.1], p.2)))

/-- All located strict descendants, in document order.  Fueled on the
tree depth; the input length always bounds it. -/
def descendantsL : Nat → LNode → List LNode
  | 0, _ => []
  | fuel + 1, ln =>
    (childrenL ln).flatMap (fun c => c :: descendantsL fuel c)

/-- Document-order comparison of located paths. -/
def pathLt : List Nat → List Nat → Bool
  | [], [] => false
  | [], _ :: _ => true
  | _ :: _, [] => false
  | a :: as2, b :: bs =>
    if a < b then true
    else if b < a then false
    else pathLt as2 bs

/-- Insert into a document-ordered, path-deduplicated list. -/
def insertByPath (x : List Nat × Str) :
    List (List Nat × Str) → List (List Nat × Str)
  | [] => [x]
  | y :: ys =>
    if x.1 = y.1 then y :: ys
    else if pathLt x.1 y.1 then x :: y :: ys
    else y :: insertByPath x ys

def sortDedupByPath (xs : List (List Nat × Str)) : List (List Nat × Str) :=
  xs.foldl (fun acc x => insertByPath x acc) []

/-- Same machinery for node sets. -/
def insertNodeByPath (x : LNode) : List LNode → List LNode
  | [] => [x]
  | y :: ys =>
    if x.1 = y.1 then y :: ys
    else if pathLt x.1 y.1 then x :: y :: ys
    else y :: insertNodeByPath x ys

def sortDedupNodes (xs : List LNode) : List LNode :=
  xs.foldl (fun acc x => insertNodeByPath x acc) []

/-- One step of the XPath fragment used by the parser. -/
inductive QStep where
  | child (t : Str)
  | desc (t : Str)
  | childLocal (t : Str)
  | descLocal (t : Str)
  | descAll
  | descCcyFirst

/-- The terminal of a query: `text()`, `/@attr`, or the node itself. -/
inductive QTerm where
  | tText
  | tAttr (a : Str)
  | tNode

/-- One union-free XPath of the parser's fragment. -/
structure Query where
  steps : List QStep
  term : QTerm

/-- Resolve an `ns:`-prefixed query name against the default
namespace: lxml matches the qualified `\x7buri\x7dname` tag. -/
def resolveTag (ns : Option Str) (t : Str) : Str :=
  match ns with
  | none => t
  | some u => '\x7b' :: (u ++ ('\x7d' :: t))

def attrLookup (a : List (Str × Str)) (k : Str) : Option Str :=
  (a.find? (fun p => p.1 == k)).map (fun p => p.2)

/-- `//*[@Ccy][1]`: every element that is the first `@Ccy`-bearing
element among its parent's children (the positional predicate applies
within each context), in document order. -/
def ccyFirst (fuel : Nat) (root : LNode) : List LNode :=
  let parents := root :: descendantsL fuel root
  let firsts := parents.filterMap (fun p =>
    ((childrenL p).filter
      (fun c => (attrLookup c.2.attrs ("Ccy".toList)).isSome)).head?)
  let rootHit : List LNode :=
    if (attrLookup root.2.attrs ("Ccy".toList)).isSome then [root] else []
  sortDedupNodes (rootHit ++ firsts)

def stepEval (fuel : Nat) (ns : Option Str) (root : LNode) (st : QStep)
    (ln : LNode) : List LNode :=
  match st with
  | .child t => (childrenL ln).filter (fun c => c.2.tag == resolveTag ns t)
  | .desc t => (descendantsL fuel ln).filter (fun c => c.2.tag == resolveTag ns t)
  | .childLocal t => (childrenL ln).filter (fun c => localTag c.2.tag == t)
  | .descLocal t => (descendantsL fuel ln).filter (fun c => localTag c.2.tag == t)
  | .descAll => descendantsL fuel ln
  | .descCcyFirst => ccyFirst fuel root

def evalSteps (fuel : Nat) (ns : Option Str) (root : LNode)
    (steps : List QStep) (ctx : List LNode) : List LNode :=
  steps.foldl (fun cs st =>
    sortDedupNodes (cs.flatMap (stepEval fuel ns root st))) ctx

/-- Evaluate one string-valued query from a context node. -/
def evalQStrings (fuel : Nat) (ns : Option Str) (root : LNode)
    (ctx : LNode) (q : Query) : List (List Nat × Str) :=
  let nodes := evalSteps fuel ns root q.steps [ctx]
  match q.term with
  | .tText => nodes.filterMap (fun n => (n.2.text).map (fun t => (n.1, t)))
  | .tAttr a => nodes.filterMap (fun n =>
      (attrLookup n.2.attrs a).map (fun v => (n.1, v)))
  | .tNode => []

/-- Evaluate a union of string-valued queries in document order. -/
def evalUnionStrings (fuel : Nat) (ns : Option Str) (root : LNode)
    (ctx : LNode) (qs : List Query) : List Str :=
  (sortDedupByPath (qs.flatMap (evalQStrings fuel ns root ctx))).map
    (fun p => p.2)

/-- Evaluate a union of node-valued queries in document order. -/
def evalUnionNodes (fuel : Nat) (ns : Option Str) (root : LNode)
    (ctx : LNode) (qs : List Query) : List LNode :=
  sortDedupNodes (qs.flatMap (fun q => evalSteps fuel ns root q.steps [ctx]))

end Parser
end OpenPurse
namespace OpenPurse
namespace Parser

/-- The namespace declarations carried by one attribute list, as lxml
surfaces them: `xmlns="u"` binds the default prefix (`none`),
`xmlns:p="u"` binds `p`. -/
def nsDecls (attrs : List (Str × Str)) : List (Option Str × Str) :=
  attrs.filterMap (fun p =>
    if p.1 = "xmlns".toList then some (none, p.2)
    else if ("xmlns:".toList).isPrefixOf p.1 then some (some (p.1.drop 6), p.2)
    else none)

/-- Lookup of a prefix in an environment (innermost binding first). -/
def nsLookup (env : List (Option Str × Str)) (p : Option Str) : Option Str :=
  (env.find? (fun b => b.1 == p)).map (·.2)

/-- Qualify one raw element name against the in-scope bindings the way
lxml reports `Element.tag`: a `p:local` name becomes
`\x7buri\x7dlocal` via the binding of `p`, an unprefixed name is
qualified by the in-scope default namespace when one is declared
(`xmlns=""` undeclares it).  Attributes are never default-qualified. -/
def resolveName (env : List (Option Str × Str)) (t : Str) : Str :=
  if containsSub (":".toList) t then
    let p := t.takeWhile (fun c => !(c == ':'))
    let l := (t.dropWhile (fun c => !(c == ':'))).drop 1
    match nsLookup env (some p) with
    | some u => '\x7b' :: (u ++ ('\x7d' :: l))
    | none => t
  else
    match nsLookup env none with
    | some u => if u.isEmpty then t else '\x7b' :: (u ++ ('\x7d' :: t))
    | none => t

/-- Rewrite every element tag of a raw parsed tree into lxml's
qualified form.  Fueled on tree depth (the input length bounds it). -/
def qualifyF : Nat → List (Option Str × Str) → XNode → XNode
  | 0, _, n => n
  | fuel + 1, env, .elem t a tx ch =>
    let env2 := nsDecls a ++ env
    .elem (resolveName env2 t) a tx (ch.map (qualifyF fuel env2))

/-- `tree.nsmap` at the root: its own declarations (an empty default
declaration does not appear as a binding). -/
def nsmapOf (t : XNode) : List (Option Str × Str) :=
  (nsDecls t.attrs).filter (fun b => !(b.1.isNone && b.2.isEmpty))

/-- `self.nsmap.get(None) if self.nsmap.get(None) else
(self.nsmap[list(self.nsmap.keys())[0]] if self.nsmap else None)`. -/
def defaultNsOf (nm : List (Option Str × Str)) : Option Str :=
  match nm.find? (fun b => b.1.isNone) with
  | some b => some b.2
  | none => nm.head?.map (·.2)

/-- The chain of nodes from a root down a child-index path. -/
def chainTo : XNode → List Nat → List XNode
  | n, [] => [n]
  | n, i :: is =>
    n :: (match n.children.get? i with
          | some c => chainTo c is
          | none => [])

/-- `node.nsmap.get(None)` for a descendant: the innermost in-scope
default-namespace declaration on the path from the root (an empty
redeclaration undeclares it). -/
def defaultAlong (root : XNode) (path : List Nat) : Option Str :=
  (chainTo root path).foldl
    (fun acc n =>
      match (nsDecls n.attrs).find? (fun b => b.1.isNone) with
      | some b => if b.2.isEmpty then none else some b.2
      | none => acc)
    none

/-- The virtual document node: XPath's root for absolute `//` paths,
whose single child is the root element.  Absolute queries are
evaluated from it, so `//X` can select the root element itself. -/
def docCtx (t : XNode) : LNode := ([], XNode.elem [] [] none [t])

/-- The state `OpenPurseParser.__init__` leaves behind: the stripped
payload, the MT flag, the (possibly BAH-pivoted) qualified tree with
its default namespace, and the extracted BAH routing fields.  `fuel`
bounds every descendant traversal by the input length. -/
structure PState where
  data : Str
  is_mt : Bool
  tree : Option XNode := none
  default_ns : Option Str := none
  bah_message_id : Option Str := none
  bah_sender_bic : Option Str := none
  bah_receiver_bic : Option Str := none
  fuel : Nat := 0

/-- `find_text` of `_parse_bah`: first result of a local-name child
chain ending in `text()`, stripped. -/
def bahFindText (fuel : Nat) (ah : LNode) (steps : List QStep) : Option Str :=
  ((evalQStrings fuel none ah ah ⟨steps, .tText⟩).head?).map (fun p => pyStrip p.2)

def clq (t : String) : QStep := .childLocal t.toList
def dlq (t : String) : QStep := .descLocal t.toList
def cq (t : String) : QStep := .child t.toList
def dq (t : String) : QStep := .desc t.toList
def qT (steps : List QStep) : Query := ⟨steps, .tText⟩
def qA (steps : List QStep) (a : String) : Query := ⟨steps, .tAttr a.toList⟩
def qN (steps : List QStep) : Query := ⟨steps, .tNode⟩

/-- `OpenPurseParser.__init__`: strip, MT sniff on the `\x7b1:`
prefix, `etree.fromstring` with failures leaving `tree = None`,
default-namespace extraction with the first-key fallback, and the
Business Application Header detection with the `Document` pivot.
(Bytes-level `strip` is modelled by `pyStrip`; the inputs in scope
are ASCII.) -/
def parserInit (d : Str) : PState :=
  let md := pyStrip d
  if ("\x7b1:".toList).isPrefixOf md then ⟨md, true, none, none, none, none, none, 0⟩
  else
    match xmlRead md with
    | none => ⟨md, false, none, none, none, none, none, 0⟩
    | some raw =>
      let fuel := md.length + 1
      let t0 := qualifyF fuel [] raw
      let dns := defaultNsOf (nsmapOf raw)
      let isBah := containsSub ("head.001".toList) (dns.getD [])
      let appHdrs := (descendantsL fuel ([], t0)).filter
        (fun c => localTag c.2.tag == "AppHdr".toList)
      if isBah || !appHdrs.isEmpty then
        let appHdr : Option LNode :=
          if isBah && ("AppHdr".toList).isSuffixOf t0.tag then some ([], t0)
          else appHdrs.head?
        let bah := appHdr.map (fun ah =>
          (bahFindText fuel ah [clq "BizMsgIdr"],
           bahFindText fuel ah [clq "Fr", clq "FIId", clq "FinInstnId", clq "BICFI"],
           bahFindText fuel ah [clq "To", clq "FIId", clq "FinInstnId", clq "BICFI"]))
        let bmi := (bah.map (·.1)).getD none
        let bsb := (bah.map (·.2.1)).getD none
        let brb := (bah.map (·.2.2)).getD none
        let docs := (descendantsL fuel ([], t0)).filter
          (fun c => localTag c.2.tag == "Document".toList)
        match docs.head? with
        | some dn => ⟨md, false, some dn.2, defaultAlong t0 dn.1, bmi, bsb, brb, fuel⟩
        | none => ⟨md, false, some t0, dns, bmi, bsb, brb, fuel⟩
      else ⟨md, false, some t0, dns, none, none, none, fuel⟩

/-- `_get_text` on an absolute (`//`-rooted) union: first result in
document order, stripped.  (When the default namespace is absent the
source rewrites `ns:` away; `resolveTag` realises both cases.) -/
def getTextQ (st : PState) (qs : List Query) : Option Str :=
  match st.tree with
  | none => none
  | some t => ((evalUnionStrings st.fuel st.default_ns (docCtx t) (docCtx t) qs).head?).map pyStrip

/-- `_get_text` on a `.//`-rooted union: evaluated from the tree
element itself. -/
def getTextDotQ (st : PState) (qs : List Query) : Option Str :=
  match st.tree with
  | none => none
  | some t => ((evalUnionStrings st.fuel st.default_ns ([], t) ([], t) qs).head?).map pyStrip

/-- `_get_text_from`: the same evaluation from an arbitrary located
element. -/
def getTextFromQ (st : PState) (el : LNode) (qs : List Query) : Option Str :=
  ((evalUnionStrings st.fuel st.default_ns el el qs).head?).map pyStrip

/-- `_get_nodes` on an absolute union. -/
def getNodesQ (st : PState) (qs : List Query) : List LNode :=
  match st.tree with
  | none => []
  | some t => evalUnionNodes st.fuel st.default_ns (docCtx t) (docCtx t) qs

/-- `_get_nodes` on a `.//`-rooted union. -/
def getNodesDotQ (st : PState) (qs : List Query) : List LNode :=
  match st.tree with
  | none => []
  | some t => evalUnionNodes st.fuel st.default_ns ([], t) ([], t) qs

/-- `_get_nodes_from`. -/
def getNodesFromQ (st : PState) (el : LNode) (qs : List Query) : List LNode :=
  evalUnionNodes st.fuel st.default_ns el el qs

/-- Python string truthiness of an optional string. -/
def tstr : Option Str → Bool
  | some s => !s.isEmpty
  | none => false

/-- `a or b` on two optional strings (`""` is falsy). -/
def orS (a b : Option Str) : Option Str := if tstr a then a else b

/-- `_parse_address`: the first `./ns:PstlAdr` child, its scalar
sub-fields, the non-empty `AdrLine` texts, and the any-field-set
guard. -/
def parse_address (st : PState) (parent : LNode) : Option PostalAddress :=
  match (getNodesFromQ st parent [qN [cq "PstlAdr"]]).head? with
  | none => none
  | some adr =>
    let country := getTextFromQ st adr [qT [cq "Ctry"]]
    let town_name := getTextFromQ st adr [qT [cq "TwnNm"]]
    let post_code := getTextFromQ st adr [qT [cq "PstCd"]]
    let street_name := getTextFromQ st adr [qT [cq "StrtNm"]]
    let building_number := getTextFromQ st adr [qT [cq "BldgNb"]]
    let address_lines := (getNodesFromQ st adr [qN [cq "AdrLine"]]).filterMap
      (fun le =>
        match le.2.text with
        | some tx => let s := pyStrip tx; if s.isEmpty then none else some s
        | none => none)
    if tstr country || tstr town_name || tstr post_code || tstr street_name ||
        tstr building_number || !address_lines.isEmpty then
      some { country := country, town_name := town_name, post_code := post_code,
             street_name := street_name, building_number := building_number,
             address_lines := if address_lines.isEmpty then none else some address_lines }
    else none

/-- `OpenPurseParser.parse`: MT routing, the empty record on a dead
tree, and the flat XPath extraction with the BAH fallbacks. -/
def pparse (st : PState) : Message :=
  if st.is_mt then parse_mt st.data
  else
    match st.tree with
    | none => {}
    | some _ =>
      let dbtr_el := getNodesQ st [qN [dq "Dbtr"]]
      let cdtr_el := getNodesQ st [qN [dq "Cdtr"]]
      let debtor_address :=
        match dbtr_el.head? with
        | some e => parse_address st e
        | none => none
      let creditor_address :=
        match cdtr_el.head? with
        | some e => parse_address st e
        | none => none
      { message_id := orS (getTextQ st [qT [dq "MsgId"]]) st.bah_message_id,
        end_to_end_id := getTextQ st [qT [dq "EndToEndId"]],
        uetr := getTextQ st [qT [dq "UETR"]],
        amount := getTextQ st [⟨[.descCcyFirst], .tText⟩],
        currency := getTextQ st [⟨[.descCcyFirst], .tAttr ("Ccy".toList)⟩],
        sender_bic := orS
          (getTextQ st [qT [dq "InstgAgt", dq "BICFI"],
                        qT [dq "InitgPty", dq "AnyBIC"],
                        qT [dq "DbtrAgt", dq "BICFI"],
                        qT [dq "InstgAgt", dq "Othr", cq "Id"]])
          st.bah_sender_bic,
        receiver_bic := orS
          (getTextQ st [qT [dq "InstdAgt", dq "BICFI"],
                        qT [dq "CdtrAgt", dq "BICFI"],
                        qT [dq "Svcr", dq "BICFI"]])
          st.bah_receiver_bic,
        debtor_name := getTextQ st [qT [dq "Dbtr", cq "Nm"]],
        creditor_name := getTextQ st [qT [dq "Cdtr", cq "Nm"]],
        debtor_address := debtor_address,
        creditor_address := creditor_address,
        debtor_account := getTextQ st
          [qT [dq "DbtrAcct", cq "Id", cq "IBAN"],
           qT [dq "DbtrAcct", cq "Id", cq "Othr", cq "Id"]],
        creditor_account := getTextQ st
          [qT [dq "CdtrAcct", cq "Id", cq "IBAN"],
           qT [dq "CdtrAcct", cq "Id", cq "Othr", cq "Id"]] }

end Parser
end OpenPurse
namespace OpenPurse
namespace Parser

abbrev PyErr := Translator.PyErr

/-- Decimal reading of an all-digit string. -/
def decDigits (s : Str) : Option Nat :=
  s.foldl
    (fun acc c =>
      match acc with
      | none => none
      | some n => if isDigit09 c then some (n * 10 + (c.toNat - 48)) else none)
    (some 0)

/-- Python `int(s)` on a string: optional surrounding whitespace, an
optional sign, then a non-empty digit run; anything else raises
`ValueError` (digit-group underscores and non-ASCII digits are outside
the modelled inputs). -/
def pyInt (s : Str) : Except PyErr Int :=
  let t := pyStrip s
  match t with
  | '-' :: r =>
    if r.isEmpty then Except.error (Translator.PyErr.valueError s)
    else match decDigits r with
      | some n => Except.ok (-(n : Int))
      | none => Except.error (Translator.PyErr.valueError s)
  | '+' :: r =>
    if r.isEmpty then Except.error (Translator.PyErr.valueError s)
    else match decDigits r with
      | some n => Except.ok (n : Int)
      | none => Except.error (Translator.PyErr.valueError s)
  | r =>
    if r.isEmpty then Except.error (Translator.PyErr.valueError s)
    else match decDigits r with
      | some n => Except.ok (n : Int)
      | none => Except.error (Translator.PyErr.valueError s)

/-- `int(v) if v else None`. -/
def pyIntIf (v : Option Str) : Except PyErr (Option Int) :=
  match v with
  | some s => if s.isEmpty then .ok none else (pyInt s).map some
  | none => .ok none

def kvS (k : String) (v : Option Str) : Str × DVal := (k.toList, DVal.s v)
def kvA (k : String) (v : Option PostalAddress) : Str × DVal := (k.toList, DVal.addr v)

/-- `_parse_camt054_detailed`. -/
def parse_camt054_detailed (st : PState) (base : Message) : Except PyErr Message :=
  let entries := (getNodesQ st [qN [dq "Ntry"]]).map (fun e =>
    [kvS "reference" (getTextFromQ st e [qT [cq "NtryRef"]]),
     kvS "amount" (getTextFromQ st e [qT [cq "Amt"]]),
     kvS "currency" (getTextFromQ st e [qA [cq "Amt"] "Ccy"]),
     kvS "credit_debit_indicator" (getTextFromQ st e [qT [cq "CdtDbtInd"]]),
     kvS "status" (getTextFromQ st e [qT [cq "Sts"]]),
     kvS "booking_date" (getTextFromQ st e
       [qT [cq "BookgDt", cq "Dt"], qT [cq "BookgDt", cq "DtTm"]]),
     kvS "value_date" (getTextFromQ st e
       [qT [cq "ValDt", cq "Dt"], qT [cq "ValDt", cq "DtTm"]]),
     kvS "bank_transaction_code" (getTextFromQ st e
       [qT [cq "BkTxCd", cq "Domn", cq "Fmly", cq "SubFmlyCd"],
        qT [cq "BkTxCd", cq "Prtry", cq "Cd"]]),
     kvS "debtor" (getTextFromQ st e [qT [dq "Dbtr", cq "Nm"]]),
     kvS "creditor" (getTextFromQ st e [qT [dq "Cdtr", cq "Nm"]]),
     kvS "remittance" (getTextFromQ st e [qT [dq "RmtInf", cq "Ustrd"]])])
  do
  let tce ← pyIntIf (getTextQ st [qT [dq "TtlCdtNtries", cq "NbOfNtries"]])
  let tde ← pyIntIf (getTextQ st [qT [dq "TtlDbtNtries", cq "NbOfNtries"]])
  .ok { base with
    kind := .camt054,
    creation_date_time := getTextQ st [qT [dq "GrpHdr", cq "CreDtTm"]],
    notification_id := getTextQ st [qT [dq "Ntfctn", cq "Id"]],
    account_id := getTextQ st
      [qT [dq "Acct", cq "Id", cq "Othr", cq "Id"], qT [dq "Acct", cq "Id", cq "IBAN"]],
    account_currency := getTextQ st [qT [dq "Acct", cq "Ccy"]],
    account_owner := getTextQ st
      [qT [dq "Acct", cq "Ownr", cq "Nm"], qT [dq "Acct", cq "Ownr", cq "Id", dq "Id"]],
    account_servicer := getTextQ st
      [qT [dq "Acct", cq "Svcr", cq "FinInstnId", cq "BICFI"],
       qT [dq "Acct", cq "Svcr", cq "FinInstnId", cq "BIC"]],
    total_credit_entries := tce,
    total_credit_amount := getTextQ st [qT [dq "TtlCdtNtries", cq "Sum"]],
    total_debit_entries := tde,
    total_debit_amount := getTextQ st [qT [dq "TtlDbtNtries", cq "Sum"]],
    entries := some entries }

/-- `_parse_pacs008_detailed`. -/
def parse_pacs008_detailed (st : PState) (base : Message) : Except PyErr Message :=
  let transactions := (getNodesQ st [qN [dq "CdtTrfTxInf"]]).map (fun tx =>
    [kvS "instruction_id" (getTextFromQ st tx [qT [cq "PmtId", cq "InstrId"]]),
     kvS "end_to_end_id" (getTextFromQ st tx [qT [cq "PmtId", cq "EndToEndId"]]),
     kvS "transaction_id" (getTextFromQ st tx [qT [cq "PmtId", cq "TxId"]]),
     kvS "instructed_amount" (getTextFromQ st tx [qT [cq "InstdAmt"]]),
     kvS "instructed_currency" (getTextFromQ st tx [qA [cq "InstdAmt"] "Ccy"]),
     kvS "charge_bearer" (getTextFromQ st tx [qT [cq "ChrgBr"]]),
     kvS "debtor_name" (getTextFromQ st tx [qT [cq "Dbtr", cq "Nm"]]),
     kvS "debtor_account" (getTextFromQ st tx
       [qT [cq "DbtrAcct", cq "Id", cq "IBAN"],
        qT [cq "DbtrAcct", cq "Id", cq "Othr", cq "Id"]]),
     kvA "debtor_address"
       (match (getNodesFromQ st tx [qN [cq "Dbtr"]]).head? with
        | some el => parse_address st el
        | none => none),
     kvS "creditor_name" (getTextFromQ st tx [qT [cq "Cdtr", cq "Nm"]]),
     kvS "creditor_account" (getTextFromQ st tx
       [qT [cq "CdtrAcct", cq "Id", cq "IBAN"],
        qT [cq "CdtrAcct", cq "Id", cq "Othr", cq "Id"]]),
     kvA "creditor_address"
       (match (getNodesFromQ st tx [qN [cq "Cdtr"]]).head? with
        | some el => parse_address st el
        | none => none),
     kvS "purpose" (getTextFromQ st tx [qT [cq "Purp", cq "Cd"]]),
     kvS "remittance_info" (getTextFromQ st tx [qT [cq "RmtInf", cq "Ustrd"]])])
  do
  let ntx ← pyIntIf (getTextQ st [qT [dq "GrpHdr", cq "NbOfTxs"]])
  .ok { base with
    kind := .pacs008,
    settlement_method := getTextQ st [qT [dq "GrpHdr", cq "SttlmInf", cq "SttlmMtd"]],
    clearing_system := getTextQ st
      [qT [dq "GrpHdr", cq "SttlmInf", cq "ClrSys", cq "Cd"],
       qT [dq "GrpHdr", cq "SttlmInf", cq "ClrSys", cq "Prtry"]],
    number_of_transactions := ntx,
    settlement_amount := getTextQ st
      [qT [dq "GrpHdr", cq "CtrlSum"], qT [dq "GrpHdr", cq "TtlIntrBkSttlmAmt"]],
    settlement_currency := getTextQ st [qA [dq "GrpHdr", cq "TtlIntrBkSttlmAmt"] "Ccy"],
    transactions := some transactions }

/-- `_parse_camt004_detailed`. -/
def parse_camt004_detailed (st : PState) (base : Message) : Except PyErr Message :=
  let balances := (getNodesQ st [qN [dq "MulBal"], qN [dq "Bal"]]).map (fun b =>
    [kvS "type" (getTextFromQ st b
       [qT [cq "Tp", cq "Cd"], qT [cq "Tp", cq "CdOrPrtry", cq "Cd"]]),
     kvS "amount" (getTextFromQ st b [qT [cq "Amt"]]),
     kvS "currency" (getTextFromQ st b [qA [cq "Amt"] "Ccy"]),
     kvS "credit_debit_indicator" (getTextFromQ st b [qT [cq "CdtDbtInd"]]),
     kvS "value_date" (getTextFromQ st b
       [qT [cq "ValDt", cq "Dt"], qT [cq "ValDt", cq "DtTm"]])])
  let errors := (getNodesQ st [qN [dq "BizErr"], qN [dq "OprlErr"]]).map (fun e =>
    [kvS "code" (getTextFromQ st e
       [qT [cq "Err", cq "Cd"], qT [cq "Err", cq "Prtry"]]),
     kvS "description" (getTextFromQ st e [qT [cq "Desc"]])])
  let limits := (getNodesQ st
      [qN [dq "CurBilLmt"], qN [dq "CurMulLmt"], qN [dq "Lmt"]]).map (fun l =>
    [kvS "amount" (getTextFromQ st l
       [qT [cq "LmtAmt", cq "AmtWthCcy"], qT [cq "Amt", cq "AmtWthCcy"],
        qT [cq "Amt"]]),
     kvS "currency" (getTextFromQ st l
       [qA [cq "LmtAmt", cq "AmtWthCcy"] "Ccy", qA [cq "Amt", cq "AmtWthCcy"] "Ccy",
        qA [cq "Amt"] "Ccy"]),
     kvS "credit_debit_indicator" (getTextFromQ st l [qT [cq "CdtDbtInd"]])])
  .ok { base with
    kind := .camt004,
    creation_date_time := getTextQ st [qT [dq "MsgHdr", cq "CreDtTm"]],
    original_business_query := getTextQ st [qT [dq "MsgHdr", cq "OrgnlBizQry", cq "MsgId"]],
    account_id := getTextQ st
      [qT [dq "AcctId", cq "IBAN"], qT [dq "AcctId", cq "Othr", cq "Id"],
       qT [dq "Acct", cq "Id", cq "IBAN"], qT [dq "Acct", cq "Id", cq "Othr", cq "Id"]],
    account_owner := getTextQ st
      [qT [dq "Acct", cq "Ownr", cq "Nm"], qT [dq "Acct", cq "Ownr", cq "Id", dq "Id"],
       qT [dq "Ownr", cq "Nm"]],
    account_servicer := getTextQ st
      [qT [dq "Svcr", cq "FinInstnId", cq "BICFI"],
       qT [dq "Svcr", cq "FinInstnId", cq "BIC"],
       qT [dq "Acct", cq "Svcr", cq "FinInstnId", cq "BICFI"]],
    account_status := getTextQ st [qT [dq "Acct", cq "Sts"], qT [dq "Sts"]],
    account_currency := getTextQ st [qT [dq "Acct", cq "Ccy"], qT [dq "Ccy"]],
    balances := some balances,
    limits := some limits,
    business_errors := some errors,
    number_of_payments := getTextQ st
      [qT [dq "NbOfPmts"], qT [dq "Acct", cq "NbOfPmts"]] }

/-- `_parse_camt05X_detailed` (camt.052 report / camt.053 statement). -/
def parse_camt05X_detailed (st : PState) (base : Message) (ns_str : Str) :
    Except PyErr Message :=
  let entries := (getNodesQ st [qN [dq "Ntry"]]).map (fun e =>
    [kvS "reference" (getTextFromQ st e [qT [cq "NtryRef"]]),
     kvS "amount" (getTextFromQ st e [qT [cq "Amt"]]),
     kvS "currency" (getTextFromQ st e [qA [cq "Amt"] "Ccy"]),
     kvS "credit_debit_indicator" (getTextFromQ st e [qT [cq "CdtDbtInd"]]),
     kvS "status" (getTextFromQ st e [qT [cq "Sts"]]),
     kvS "booking_date" (getTextFromQ st e
       [qT [cq "BookgDt", cq "Dt"], qT [cq "BookgDt", cq "DtTm"]]),
     kvS "value_date" (getTextFromQ st e
       [qT [cq "ValDt", cq "Dt"], qT [cq "ValDt", cq "DtTm"]]),
     kvS "bank_transaction_code" (getTextFromQ st e
       [qT [cq "BkTxCd", cq "Domn", cq "Fmly", cq "SubFmlyCd"],
        qT [cq "BkTxCd", cq "Prtry", cq "Cd"]]),
     kvS "debtor" (getTextFromQ st e [qT [dq "Dbtr", cq "Nm"]]),
     kvS "creditor" (getTextFromQ st e [qT [dq "Cdtr", cq "Nm"]]),
     kvS "remittance" (getTextFromQ st e
       [qT [dq "RmtInf", cq "Strd", cq "RfrdDocInf", cq "Nb"],
        qT [dq "RmtInf", cq "Ustrd"]])])
  let balances := (getNodesQ st [qN [dq "Bal"]]).map (fun b =>
    [kvS "type" (getTextFromQ st b
       [qT [cq "Tp", cq "CdOrPrtry", cq "Cd"], qT [cq "Tp", cq "CdOrPrtry", cq "Prtry"]]),
     kvS "amount" (getTextFromQ st b [qT [cq "Amt"]]),
     kvS "currency" (getTextFromQ st b [qA [cq "Amt"] "Ccy"]),
     kvS "credit_debit_indicator" (getTextFromQ st b [qT [cq "CdtDbtInd"]]),
     kvS "date" (getTextFromQ st b [qT [cq "Dt", cq "Dt"], qT [cq "Dt", cq "DtTm"]])])
  do
  let tce ← pyIntIf (getTextQ st [qT [dq "TxsSummry", cq "TtlCdtNtries", cq "NbOfNtries"]])
  let tde ← pyIntIf (getTextQ st [qT [dq "TxsSummry", cq "TtlDbtNtries", cq "NbOfNtries"]])
  let common := { base with
    creation_date_time := getTextQ st [qT [dq "GrpHdr", cq "CreDtTm"]],
    account_id := getTextQ st
      [qT [dq "Acct", cq "Id", cq "Othr", cq "Id"], qT [dq "Acct", cq "Id", cq "IBAN"]],
    account_currency := getTextQ st [qT [dq "Acct", cq "Ccy"]],
    account_owner := getTextQ st
      [qT [dq "Acct", cq "Ownr", cq "Id", dq "Id"], qT [dq "Acct", cq "Ownr", cq "Nm"]],
    account_servicer := getTextQ st
      [qT [dq "Acct", cq "Svcr", cq "FinInstnId", cq "BIC"],
       qT [dq "Acct", cq "Svcr", cq "FinInstnId", cq "BICFI"]],
    total_credit_entries := tce,
    total_credit_amount := getTextQ st [qT [dq "TxsSummry", cq "TtlCdtNtries", cq "Sum"]],
    total_debit_entries := tde,
    total_debit_amount := getTextQ st [qT [dq "TxsSummry", cq "TtlDbtNtries", cq "Sum"]],
    entries := some entries }
  if containsSub ("camt.052".toList) ns_str then
    .ok { common with
    kind := .camt052,
      report_id := getTextQ st [qT [dq "Rpt", cq "Id"]] }
  else
    .ok { common with
    kind := .camt053,
      balances := some balances,
      statement_id := getTextQ st [qT [dq "Stmt", cq "Id"]] }

/-- `_parse_pain00X_detailed` (pain.001 initiation / pain.008 direct
debit). -/
def parse_pain00X_detailed (st : PState) (base : Message) (ns_str : Str) :
    Except PyErr Message :=
  let isP1 := containsSub ("pain.001".toList) ns_str
  let pmt_infs := (getNodesQ st [qN [dq "PmtInf"]]).map (fun pm =>
    let txs1 := (getNodesFromQ st pm [qN [dq "CdtTrfTxInf"]]).map (fun tx =>
      [kvS "instruction_id" (getTextFromQ st tx [qT [cq "PmtId", cq "InstrId"]]),
       kvS "end_to_end_id" (getTextFromQ st tx [qT [cq "PmtId", cq "EndToEndId"]]),
       kvS "instructed_amount" (getTextFromQ st tx [qT [dq "InstdAmt"]]),
       kvS "instructed_currency" (getTextFromQ st tx [qA [dq "InstdAmt"] "Ccy"]),
       kvS "creditor_name" (getTextFromQ st tx [qT [cq "Cdtr", cq "Nm"]]),
       kvS "creditor_account" (getTextFromQ st tx
         [qT [cq "CdtrAcct", cq "Id", cq "IBAN"],
          qT [cq "CdtrAcct", cq "Id", cq "Othr", cq "Id"]]),
       kvA "creditor_address"
         (match (getNodesFromQ st tx [qN [cq "Cdtr"]]).head? with
          | some el => parse_address st el
          | none => none),
       kvS "remittance_info" (getTextFromQ st tx
         [qT [dq "RmtInf", cq "Strd", cq "RfrdDocInf", cq "Nb"],
          qT [dq "RmtInf", cq "Ustrd"]])])
    let txs2 := (getNodesFromQ st pm [qN [dq "DrctDbtTxInf"]]).map (fun tx =>
      [kvS "end_to_end_id" (getTextFromQ st tx [qT [cq "PmtId", cq "EndToEndId"]]),
       kvS "instructed_amount" (getTextFromQ st tx [qT [cq "InstdAmt"]]),
       kvS "instructed_currency" (getTextFromQ st tx [qA [cq "InstdAmt"] "Ccy"]),
       kvS "mandate_id" (getTextFromQ st tx [qT [dq "MndtId"]]),
       kvS "debtor_name" (getTextFromQ st tx [qT [cq "Dbtr", cq "Nm"]]),
       kvS "debtor_account" (getTextFromQ st tx
         [qT [cq "DbtrAcct", cq "Id", cq "IBAN"],
          qT [cq "DbtrAcct", cq "Id", cq "Othr", cq "Id"]]),
       kvA "debtor_address"
         (match (getNodesFromQ st tx [qN [cq "Dbtr"]]).head? with
          | some el => parse_address st el
          | none => none),
       kvS "remittance_info" (getTextFromQ st tx
         [qT [dq "RmtInf", cq "Strd", cq "RfrdDocInf", cq "Nb"],
          qT [dq "RmtInf", cq "Ustrd"]])])
    ({ fields :=
        [kvS "payment_information_id" (getTextFromQ st pm [qT [cq "PmtInfId"]]),
         kvS "payment_method" (getTextFromQ st pm [qT [cq "PmtMtd"]]),
         kvS "debtor_name"
           (if isP1 then getTextFromQ st pm [qT [cq "Dbtr", cq "Nm"]]
            else getTextFromQ st pm [qT [cq "Cdtr", cq "Nm"]]),
         kvS "debtor_account"
           (if isP1 then getTextFromQ st pm
              [qT [cq "DbtrAcct", cq "Id", cq "IBAN"],
               qT [cq "DbtrAcct", cq "Id", cq "Othr", cq "Id"]]
            else getTextFromQ st pm
              [qT [cq "CdtrAcct", cq "Id", cq "IBAN"],
               qT [cq "CdtrAcct", cq "Id", cq "Othr", cq "Id"]])],
       txs := txs1 ++ txs2 } : PmDict))
  do
  let ntx ← pyIntIf (getTextQ st [qT [dq "GrpHdr", cq "NbOfTxs"]])
  let common := { base with
    creation_date_time := getTextQ st [qT [dq "GrpHdr", cq "CreDtTm"]],
    number_of_transactions := ntx,
    control_sum := getTextQ st [qT [dq "GrpHdr", cq "CtrlSum"]],
    initiating_party := getTextQ st
      [qT [dq "GrpHdr", cq "InitgPty", cq "Nm"],
       qT [dq "GrpHdr", cq "InitgPty", cq "Id", dq "Id"]],
    payment_information := some pmt_infs }
  if isP1 then .ok { common with
    kind := .pain001 }
  else .ok { common with
    kind := .pain008 }

/-- `_parse_pain002_detailed`. -/
def parse_pain002_detailed (st : PState) (base : Message) : Except PyErr Message :=
  let statuses := (getNodesQ st [qN [dq "TxInfAndSts"]]).map (fun tx =>
    [kvS "original_instruction_id" (getTextFromQ st tx [qT [cq "OrgnlInstrId"]]),
     kvS "original_end_to_end_id" (getTextFromQ st tx [qT [cq "OrgnlEndToEndId"]]),
     kvS "transaction_status" (getTextFromQ st tx [qT [cq "TxSts"]]),
     kvS "status_reason_code" (getTextFromQ st tx [qT [dq "StsRsnInf", cq "Rsn", cq "Cd"]]),
     kvS "status_additional_info" (getTextFromQ st tx [qT [dq "StsRsnInf", cq "AddtlInf"]]),
     kvS "original_amount" (getTextFromQ st tx
       [⟨[dq "OrgnlTxRef", cq "Amt"], .tText⟩,
        ⟨[dq "OrgnlTxRef", cq "Amt", .descAll], .tText⟩])])
  .ok { base with
    kind := .pain002,
    creation_date_time := getTextQ st [qT [dq "GrpHdr", cq "CreDtTm"]],
    initiating_party := getTextQ st
      [qT [dq "GrpHdr", cq "InitgPty", cq "Id", dq "BICOrBEI"],
       qT [dq "GrpHdr", cq "InitgPty", cq "Nm"]],
    original_message_id := getTextQ st [qT [dq "OrgnlGrpInfAndSts", cq "OrgnlMsgId"]],
    original_message_name_id := getTextQ st [qT [dq "OrgnlGrpInfAndSts", cq "OrgnlMsgNmId"]],
    group_status := getTextQ st [qT [dq "OrgnlGrpInfAndSts", cq "GrpSts"]],
    transactions_status := some statuses }

/-- `_parse_camt056` (re-runs `parse` for its base fields and promotes
UETR / end-to-end id from the first underlying transaction). -/
def parse_camt056 (st : PState) : Except PyErr Message :=
  let base := pparse st
  let ogi := getNodesDotQ st [qN [dq "OrgnlGrpInf"]]
  let orig_msg_id :=
    match ogi.head? with
    | some g => getTextFromQ st g [qT [cq "OrgnlMsgId"]]
    | none => none
  let orig_msg_nm_id :=
    match ogi.head? with
    | some g => getTextFromQ st g [qT [cq "OrgnlMsgNmId"]]
    | none => none
  let recall_reason := getTextDotQ st
    [qT [dq "OrgnlTxRef", cq "Rsn", cq "Prtry"], qT [dq "OrgnlTxRef", cq "Rsn", cq "Cd"]]
  let transactions := (getNodesDotQ st [qN [dq "Undrlyg"]]).map (fun tx =>
    [kvS "end_to_end_id" (getTextFromQ st tx [qT [dq "OrgnlEndToEndId"]]),
     kvS "uetr" (getTextFromQ st tx [qT [dq "OrgnlUETR"]])])
  let firstU := (transactions.head?.map
    (fun t => match dictGet t ("uetr".toList) with
              | some (.s v) => v
              | _ => none)).getD none
  let firstE := (transactions.head?.map
    (fun t => match dictGet t ("end_to_end_id".toList) with
              | some (.s v) => v
              | _ => none)).getD none
  .ok {
    kind := .camt056,
    message_id := base.message_id,
    end_to_end_id := orS base.end_to_end_id firstE,
    uetr := orS base.uetr firstU,
    amount := base.amount,
    currency := base.currency,
    sender_bic := base.sender_bic,
    receiver_bic := base.receiver_bic,
    creation_date_time := getTextDotQ st [qT [dq "CreDtTm"]],
    assignment_id := getTextDotQ st [qT [dq "Assgnmt", cq "Id"]],
    case_id := getTextDotQ st [qT [dq "Case", cq "Id"]],
    original_message_id := orig_msg_id,
    original_message_name_id := orig_msg_nm_id,
    recall_reason := recall_reason,
    underlying_transactions := some transactions }

/-- `_parse_camt029` (re-runs `parse`; promotes UETR / end-to-end id
from the first cancellation detail). -/
def parse_camt029 (st : PState) : Except PyErr Message :=
  let base := pparse st
  let status_node := getNodesDotQ st [qN [dq "Sts"]]
  let investigation_status :=
    match status_node.head? with
    | some s => getTextFromQ st s [qT [cq "Conf"], qT [cq "Prtry"], qT [cq "Cd"]]
    | none => none
  let details := (getNodesDotQ st [qN [dq "CxlDtls"]]).map (fun d =>
    [kvS "end_to_end_id" (getTextFromQ st d [qT [dq "OrgnlEndToEndId"]]),
     kvS "uetr" (getTextFromQ st d [qT [dq "OrgnlUETR"]]),
     kvS "status" (getTextFromQ st d [qT [dq "TxCxlSts"]])])
  let firstU := (details.head?.map
    (fun t => match dictGet t ("uetr".toList) with
              | some (.s v) => v
              | _ => none)).getD none
  let firstE := (details.head?.map
    (fun t => match dictGet t ("end_to_end_id".toList) with
              | some (.s v) => v
              | _ => none)).getD none
  .ok {
    kind := .camt029,
    message_id := base.message_id,
    end_to_end_id := orS base.end_to_end_id firstE,
    uetr := orS base.uetr firstU,
    amount := base.amount,
    currency := base.currency,
    sender_bic := base.sender_bic,
    receiver_bic := base.receiver_bic,
    creation_date_time := getTextDotQ st [qT [dq "CreDtTm"]],
    assignment_id := getTextDotQ st [qT [dq "Assgnmt", cq "Id"]],
    case_id := getTextDotQ st [qT [dq "Case", cq "Id"]],
    investigation_status := investigation_status,
    cancellation_details := some details }

/-- `_parse_fxtr014`. -/
def parse_fxtr014 (st : PState) (base : Message) : Except PyErr Message :=
  .ok { base with
    kind := .fxtr014,
    creation_date_time := getTextQ st [qT [dq "GrpHdr", cq "CreDtTm"]],
    trade_date := getTextQ st [qT [dq "TradInf", cq "TradDt"]],
    settlement_date := getTextQ st [qT [dq "TradAmts", cq "SttlmDt"]],
    trading_party := getTextQ st
      [qT [dq "TradgSdId", cq "SubmitgPty", cq "AnyBIC", cq "AnyBIC"],
       qT [dq "TradgSdId", cq "SubmitgPty", cq "NmAndAdr", cq "Nm"]],
    counterparty := getTextQ st
      [qT [dq "CtrPtySdId", cq "SubmitgPty", cq "AnyBIC", cq "AnyBIC"],
       qT [dq "CtrPtySdId", cq "SubmitgPty", cq "NmAndAdr", cq "Nm"]],
    exchange_rate := getTextQ st [qT [dq "AgrdRate", cq "XchgRate"]],
    traded_amount := getTextQ st [qT [dq "TradAmts", cq "TradgSdBuyAmt", cq "Amt"]],
    traded_currency := getTextQ st [qA [dq "TradAmts", cq "TradgSdBuyAmt", cq "Amt"] "Ccy"] }

/-- `_parse_sese023`. -/
def parse_sese023 (st : PState) (base : Message) : Except PyErr Message :=
  let unitQ := getTextQ st [qT [dq "QtyAndAcctDtls", cq "SttlmQty", cq "Qty", cq "Unit"]]
  let amtQ := getTextQ st [qT [dq "QtyAndAcctDtls", cq "SttlmQty", cq "Qty", cq "AmtsdVal"]]
  let qty_type : Option Str :=
    if tstr unitQ then some ("Unit".toList)
    else if tstr amtQ then some ("AmortisedValue".toList)
    else none
  let isin := getTextQ st [qT [dq "FinInstrmId", cq "ISIN"]]
  .ok { base with
    kind := .sese023,
    creation_date_time := getTextQ st [qT [dq "GrpHdr", cq "CreDtTm"]],
    trade_date := getTextQ st
      [qT [dq "TradDtls", cq "TradDt", cq "Dt", cq "Dt"],
       qT [dq "TradDtls", cq "TradDt", cq "DtTm"]],
    settlement_date := getTextQ st
      [qT [dq "TradDtls", cq "SttlmDt", cq "Dt", cq "Dt"],
       qT [dq "TradDtls", cq "SttlmDt", cq "DtTm"]],
    security_id := isin,
    security_id_type := if tstr isin then some ("ISIN".toList) else none,
    security_quantity := getTextQ st
      [qT [dq "QtyAndAcctDtls", cq "SttlmQty", cq "Qty", cq "Unit"],
       qT [dq "QtyAndAcctDtls", cq "SttlmQty", cq "Qty", cq "AmtsdVal"]],
    security_quantity_type := qty_type,
    settlement_amount := getTextQ st [qT [dq "SttlmAmt", cq "Amt", cq "Amt"]],
    settlement_currency := getTextQ st [qA [dq "SttlmAmt", cq "Amt", cq "Amt"] "Ccy"],
    delivering_agent := getTextQ st
      [qT [dq "DlvrgSttlmPties", cq "Pty1", cq "Id", cq "AnyBIC"],
       qT [dq "DlvrgSttlmPties", cq "Pty1", cq "Id", cq "NmAndAdr", cq "Nm"]],
    receiving_agent := getTextQ st
      [qT [dq "RcvgSttlmPties", cq "Pty1", cq "Id", cq "AnyBIC"],
       qT [dq "RcvgSttlmPties", cq "Pty1", cq "Id", cq "NmAndAdr", cq "Nm"]] }

/-- Modelled from the spec: `_parse_pacs004` constructs the
`Pacs004Message` payment-return record (return transactions with a
UETR promotion from the first one). -/
def parse_pacs004 (st : PState) (base : Message) : Except PyErr Message :=
  let transactions := (getNodesQ st [qN [dq "TxInf"]]).map (fun tx =>
    [kvS "return_id" (getTextFromQ st tx [qT [cq "RtrId"]]),
     kvS "original_end_to_end_id" (getTextFromQ st tx [qT [cq "OrgnlEndToEndId"]]),
     kvS "original_transaction_id" (getTextFromQ st tx [qT [cq "OrgnlTxId"]]),
     kvS "original_uetr" (getTextFromQ st tx [qT [cq "OrgnlUETR"]]),
     kvS "returned_amount" (getTextFromQ st tx [qT [cq "RtrdIntrBkSttlmAmt"]]),
     kvS "returned_currency" (getTextFromQ st tx [qA [cq "RtrdIntrBkSttlmAmt"] "Ccy"]),
     kvS "return_reason" (getTextFromQ st tx
       [qT [dq "RtrRsnInf", cq "Rsn", cq "Cd"], qT [dq "RtrRsnInf", cq "Rsn", cq "Prtry"]])])
  let firstU := (transactions.head?.map
    (fun t => match dictGet t ("original_uetr".toList) with
              | some (.s v) => v
              | _ => none)).getD none
  .ok { base with
    kind := .pacs004,
    uetr := orS base.uetr firstU,
    creation_date_time := getTextQ st [qT [dq "GrpHdr", cq "CreDtTm"]],
    original_message_id := getTextQ st [qT [dq "OrgnlGrpInf", cq "OrgnlMsgId"]],
    original_message_name_id := getTextQ st [qT [dq "OrgnlGrpInf", cq "OrgnlMsgNmId"]],
    transactions := some transactions }

/-- Modelled from the spec: `_parse_pacs009` constructs the
`Pacs009Message` FI credit-transfer record (transactions with UETR and
end-to-end promotions from the first one). -/
def parse_pacs009 (st : PState) (base : Message) : Except PyErr Message :=
  let transactions := (getNodesQ st [qN [dq "CdtTrfTxInf"]]).map (fun tx =>
    [kvS "instruction_id" (getTextFromQ st tx [qT [cq "PmtId", cq "InstrId"]]),
     kvS "end_to_end_id" (getTextFromQ st tx [qT [cq "PmtId", cq "EndToEndId"]]),
     kvS "transaction_id" (getTextFromQ st tx [qT [cq "PmtId", cq "TxId"]]),
     kvS "uetr" (getTextFromQ st tx [qT [cq "PmtId", cq "UETR"]]),
     kvS "amount" (getTextFromQ st tx [qT [cq "IntrBkSttlmAmt"]]),
     kvS "currency" (getTextFromQ st tx [qA [cq "IntrBkSttlmAmt"] "Ccy"]),
     kvS "debtor" (getTextFromQ st tx
       [qT [cq "Dbtr", cq "BICFI"], qT [cq "Dbtr", cq "Othr", cq "Id"]]),
     kvS "creditor" (getTextFromQ st tx
       [qT [cq "Cdtr", cq "BICFI"], qT [cq "Cdtr", cq "Othr", cq "Id"]])])
  let firstU := (transactions.head?.map
    (fun t => match dictGet t ("uetr".toList) with
              | some (.s v) => v
              | _ => none)).getD none
  let firstE := (transactions.head?.map
    (fun t => match dictGet t ("end_to_end_id".toList) with
              | some (.s v) => v
              | _ => none)).getD none
  .ok { base with
    kind := .pacs009,
    uetr := orS base.uetr firstU,
    end_to_end_id := orS base.end_to_end_id firstE,
    creation_date_time := getTextQ st [qT [dq "GrpHdr", cq "CreDtTm"]],
    settlement_method := getTextQ st [qT [dq "GrpHdr", cq "SttlmInf", cq "SttlmMtd"]],
    transactions := some transactions }

/-- Modelled from the spec: `_parse_setr004` constructs the
`Setr004Message` redemption-order record. -/
def parse_setr004 (st : PState) (base : Message) : Except PyErr Message :=
  let orders := (getNodesQ st [qN [dq "MltplOrdrDtls", cq "IndvOrdrDtls"]]).map (fun o =>
    [kvS "order_reference" (getTextFromQ st o [qT [cq "OrdrRef"]]),
     kvS "investment_account_id" (getTextFromQ st o
       [qT [cq "InvstmtAcctDtls", cq "AcctId"], qT [cq "InvstmtAcctDtls", cq "Id"]]),
     kvS "financial_instrument_id" (getTextFromQ st o
       [qT [cq "FinInstrmDtls", cq "Id", cq "ISIN"]]),
     kvS "amount" (getTextFromQ st o [qT [cq "OrdrQty", cq "AmtdQty"]]),
     kvS "currency" (getTextFromQ st o [qA [cq "OrdrQty", cq "AmtdQty"] "Ccy"]),
     kvS "units" (getTextFromQ st o [qT [cq "OrdrQty", cq "UnitQty"]])])
  .ok { base with
    kind := .setr004,
    master_reference := orS (getTextQ st [qT [dq "MltplOrdrDtls", cq "MstrRef"]])
      (getTextQ st [qT [dq "MsgId", cq "Id"]]),
    pool_reference := getTextQ st [qT [dq "PoolRef", cq "Ref"]],
    orders := some orders }

/-- Modelled from the spec: `_parse_setr010` constructs the
`Setr010Message` subscription-order record (same shape as setr.004). -/
def parse_setr010 (st : PState) (base : Message) : Except PyErr Message :=
  let orders := (getNodesQ st [qN [dq "MltplOrdrDtls", cq "IndvOrdrDtls"]]).map (fun o =>
    [kvS "order_reference" (getTextFromQ st o [qT [cq "OrdrRef"]]),
     kvS "investment_account_id" (getTextFromQ st o
       [qT [cq "InvstmtAcctDtls", cq "AcctId"], qT [cq "InvstmtAcctDtls", cq "Id"]]),
     kvS "financial_instrument_id" (getTextFromQ st o
       [qT [cq "FinInstrmDtls", cq "Id", cq "ISIN"]]),
     kvS "amount" (getTextFromQ st o [qT [cq "OrdrQty", cq "AmtdQty"]]),
     kvS "currency" (getTextFromQ st o [qA [cq "OrdrQty", cq "AmtdQty"] "Ccy"]),
     kvS "units" (getTextFromQ st o [qT [cq "OrdrQty", cq "UnitQty"]])])
  .ok { base with
    kind := .setr010,
    master_reference := orS (getTextQ st [qT [dq "MltplOrdrDtls", cq "MstrRef"]])
      (getTextQ st [qT [dq "MsgId", cq "Id"]]),
    pool_reference := getTextQ st [qT [dq "PoolRef", cq "Ref"]],
    orders := some orders }

/-- Modelled from the spec: `_parse_acmt007` constructs the
`Acmt007Message` account-opening-request record. -/
def parse_acmt007 (st : PState) (base : Message) : Except PyErr Message :=
  .ok { base with
    kind := .acmt007,
    process_id := getTextQ st [qT [dq "PrcId", cq "Id"]],
    account_id := getTextQ st
      [qT [dq "Acct", cq "Id", cq "Othr", cq "Id"], qT [dq "Acct", cq "Id", cq "IBAN"]],
    account_currency := getTextQ st [qT [dq "Acct", cq "Ccy"]],
    organization_name := getTextQ st [qT [dq "Org", cq "FullLglNm"]],
    branch_name := getTextQ st [qT [dq "AcctSvcrId", cq "BrnchId", cq "Nm"]] }

/-- Modelled from the spec: `_parse_acmt015` constructs the
`Acmt015Message` account-exclusion-mandate record. -/
def parse_acmt015 (st : PState) (base : Message) : Except PyErr Message :=
  .ok { base with
    kind := .acmt015,
    process_id := getTextQ st [qT [dq "PrcId", cq "Id"]],
    account_id := getTextQ st
      [qT [dq "Acct", cq "Id", cq "Othr", cq "Id"], qT [dq "Acct", cq "Id", cq "IBAN"]],
    organization_name := getTextQ st [qT [dq "Org", dq "FullLglNm"]],
    branch_name := getTextQ st [qT [dq "AcctSvcrId", cq "BrnchId", cq "Nm"]] }

/-- Modelled from the spec: `_parse_camt086` constructs the
`Camt086Message` billing-statement record. -/
def parse_camt086 (st : PState) (base : Message) : Except PyErr Message :=
  .ok { base with
    kind := .camt086,
    report_id := getTextQ st [qT [dq "RptHdr", cq "RptId"]],
    group_id := getTextQ st [qT [dq "BllgStmtGrp", cq "GrpId"]],
    statement_id := getTextQ st [qT [dq "BllgStmtGrp", cq "BllgStmt", cq "StmtId"]],
    statement_status := getTextQ st [qT [dq "BllgStmtGrp", cq "BllgStmt", cq "Sts"]],
    creation_date_time := getTextQ st [qT [dq "BllgStmtGrp", cq "BllgStmt", cq "CreDtTm"]] }

/-- The `tag_mapping` fallback table of `parse_detailed`
(`dict.get(root_tag, "")`). -/
def tagMapping (t : Str) : Str :=
  if t = "CstmrPmtStsRpt".toList then "pain.002".toList
  else if t = "CstmrCdtTrfInitn".toList then "pain.001".toList
  else if t = "CstmrDrctDbtInitn".toList then "pain.008".toList
  else if t = "BkToCstmrAcctRpt".toList then "camt.052".toList
  else if t = "BkToCstmrStmt".toList then "camt.053".toList
  else if t = "BkToCstmrDbtCdtNtfctn".toList then "camt.054".toList
  else if t = "FIToFICstmrCdtTrf".toList then "pacs.008".toList
  else if t = "RtrAcct".toList then "camt.004".toList
  else if t = "FXTradInstr".toList then "fxtr.014".toList
  else if t = "SctiesSttlmTxInstr".toList then "sese.023".toList
  else if t = "PmtRtr".toList then "pacs.004".toList
  else if t = "FICdtTrf".toList then "pacs.009".toList
  else if t = "RedOrdr".toList then "setr.004".toList
  else if t = "SbcptOrdr".toList then "setr.010".toList
  else if t = "AcctOpngReq".toList then "acmt.007".toList
  else if t = "AcctExcldMndtMntncReq".toList then "acmt.015".toList
  else if t = "BkSrvcsBllgStmt".toList then "camt.086".toList
  else []

/-- `OpenPurseParser.parse_detailed`: MT routing, the namespace string
with its first-child tag-mapping fallback, and the substring-driven
dispatch to the per-family extractors (the `int(...)` conversions in
four extractors are the one exception path, surfaced as `Except`). -/
def parse_detailed (st : PState) : Except PyErr Message :=
  if st.is_mt then .ok (pparse st)
  else
    let ns0 := (st.default_ns.getD [])
    let ns_str :=
      if ns0.isEmpty then
        match st.tree with
        | some t =>
          (match t.children.head? with
           | some c => tagMapping (localTag c.tag)
           | none => [])
        | none => []
      else ns0
    let base := pparse st
    if containsSub ("camt.054".toList) ns_str then parse_camt054_detailed st base
    else if containsSub ("pacs.008".toList) ns_str then parse_pacs008_detailed st base
    else if containsSub ("camt.004".toList) ns_str then parse_camt004_detailed st base
    else if containsSub ("camt.052".toList) ns_str || containsSub ("camt.053".toList) ns_str then
      parse_camt05X_detailed st base ns_str
    else if containsSub ("pain.001".toList) ns_str || containsSub ("pain.008".toList) ns_str then
      parse_pain00X_detailed st base ns_str
    else if containsSub ("pain.002".toList) ns_str then parse_pain002_detailed st base
    else if containsSub ("camt.056".toList) ns_str then parse_camt056 st
    else if containsSub ("camt.029".toList) ns_str then parse_camt029 st
    else if containsSub ("fxtr.014".toList) ns_str then parse_fxtr014 st base
    else if containsSub ("sese.023".toList) ns_str then parse_sese023 st base
    else if containsSub ("pacs.004".toList) ns_str then parse_pacs004 st base
    else if containsSub ("pacs.009".toList) ns_str then parse_pacs009 st base
    else if containsSub ("setr.004".toList) ns_str then parse_setr004 st base
    else if containsSub ("setr.010".toList) ns_str then parse_setr010 st base
    else if containsSub ("acmt.007".toList) ns_str then parse_acmt007 st base
    else if containsSub ("acmt.015".toList) ns_str then parse_acmt015 st base
    else if containsSub ("camt.086".toList) ns_str then parse_camt086 st base
    else .ok base

/-- The dataclass family `parse_detailed` produces on an input, or
`none` when it raises. -/
def detailedKind (d : Str) : Option MsgKind :=
  match parse_detailed (parserInit d) with
  | .ok m => some m.kind
  | .error _ => none

end Parser
end OpenPurse
namespace OpenPurse

/-- C6: `parse` never raises (the embedded `pparse` is total by
construction); an input that does not begin with `\x7b1:` after
stripping and that `etree.fromstring` rejects leaves `tree = None`,
and `parse` then returns the completely empty record (every field
`None`). -/
theorem C6_parse_malformed (d : Str)
    (hmt : (("\x7b1:".toList).isPrefixOf (pyStrip d)) = false)
    (hxml : (Parser.xmlRead (pyStrip d)).isNone = true) :
    Parser.pparse (Parser.parserInit d) = {} := by
  have h2 : Parser.xmlRead (pyStrip d) = none := by
    cases h : Parser.xmlRead (pyStrip d)
    · rfl
    · rw [h] at hxml; exact absurd hxml (by simp)
  unfold Parser.parserInit
  simp only [hmt, Bool.false_eq_true, if_false, h2]
  unfold Parser.pparse
  simp

theorem C6_parse_malformed_witness :
    ((("\x7b1:".toList).isPrefixOf (pyStrip ("hello".toList))) = false) ∧
    ((Parser.xmlRead (pyStrip ("hello".toList))).isNone = true) ∧
    Parser.pparse (Parser.parserInit ("hello".toList)) = {} :=
  ⟨by decide, by decide, C6_parse_malformed ("hello".toList) (by decide) (by decide)⟩

/-- C7 counterexample: a namespace-free document whose ROOT local tag
is `FIToFICstmrCdtTrf` does not dispatch to the pacs.008 family — the
fallback reads `self.tree[0].tag`, the tag of the root's FIRST CHILD,
so this document yields the base record. -/
theorem C7_counterexample :
    Parser.detailedKind
        ("<FIToFICstmrCdtTrf><Foo>x</Foo></FIToFICstmrCdtTrf>".toList) ≠
      some MsgKind.pacs008 ∧
    Parser.detailedKind
        ("<FIToFICstmrCdtTrf><Foo>x</Foo></FIToFICstmrCdtTrf>".toList) =
      some MsgKind.base := by
  constructor
  · decide
  · decide

/-- C7 (amended): for a namespace-free document, `parse_detailed`
dispatches per the fixed tag-to-family table applied to the local tag
of the root's first child (for the usual `<Document><TAG>` wrapper
shape, the tag directly under the root): each of the 17 table entries
yields its specialized record type, and a tag outside the table yields
the base record. -/
theorem C7_family_dispatch :
    Parser.detailedKind ("<Document><CstmrPmtStsRpt/></Document>".toList) = some .pain002 ∧
    Parser.detailedKind ("<Document><CstmrCdtTrfInitn/></Document>".toList) = some .pain001 ∧
    Parser.detailedKind ("<Document><CstmrDrctDbtInitn/></Document>".toList) = some .pain008 ∧
    Parser.detailedKind ("<Document><BkToCstmrAcctRpt/></Document>".toList) = some .camt052 ∧
    Parser.detailedKind ("<Document><BkToCstmrStmt/></Document>".toList) = some .camt053 ∧
    Parser.detailedKind ("<Document><BkToCstmrDbtCdtNtfctn/></Document>".toList) = some .camt054 ∧
    Parser.detailedKind ("<Document><FIToFICstmrCdtTrf/></Document>".toList) = some .pacs008 ∧
    Parser.detailedKind ("<Document><RtrAcct/></Document>".toList) = some .camt004 ∧
    Parser.detailedKind ("<Document><FXTradInstr/></Document>".toList) = some .fxtr014 ∧
    Parser.detailedKind ("<Document><SctiesSttlmTxInstr/></Document>".toList) = some .sese023 ∧
    Parser.detailedKind ("<Document><PmtRtr/></Document>".toList) = some .pacs004 ∧
    Parser.detailedKind ("<Document><FICdtTrf/></Document>".toList) = some .pacs009 ∧
    Parser.detailedKind ("<Document><RedOrdr/></Document>".toList) = some .setr004 ∧
    Parser.detailedKind ("<Document><SbcptOrdr/></Document>".toList) = some .setr010 ∧
    Parser.detailedKind ("<Document><AcctOpngReq/></Document>".toList) = some .acmt007 ∧
    Parser.detailedKind ("<Document><AcctExcldMndtMntncReq/></Document>".toList) = some .acmt015 ∧
    Parser.detailedKind ("<Document><BkSrvcsBllgStmt/></Document>".toList) = some .camt086 ∧
    Parser.detailedKind ("<Document><SomeUnknownTag/></Document>".toList) = some .base := by
  refine ⟨?_, ?_, ?_, ?_, ?_, ?_, ?_, ?_, ?_, ?_, ?_, ?_, ?_, ?_, ?_, ?_, ?_, ?_⟩ <;> decide

end OpenPurse
